import Mathlib

/-! # ReShade Direct3D 10 / 11 proxy layer

A shallow embedding of `src/Hooks/D3D11.cpp` and `src/Hooks/D3D10.cpp`.

* A proxy object is a record of its C++ members plus `deleted`, which is set by
  `delete this`.
* Everything the proxy calls but does not implement (the real driver objects,
  the listeners, the hook installer) is the environment.  Each such call is
  appended to a trace of events, in program order, and its answer is read from
  `Env.answer`, an arbitrary function of the history and of the call.
* The proxy classes are declared in headers that are not part of the sources;
  their members are the ones the two source files use.  `mRef` is kept as an
  integer and `++` / `--` are `+ 1` / `- 1`.
* A call made on a proxy after its `delete this` is undefined in C++.  The
  functions below are total on the record; the sequence runners stop issuing
  calls where the text says so.
* `LOG(...)` statements are cosmetic and are left out; `assert` is compiled
  out (release build).
-/

namespace ReShade

/-! ## Platform types -/

/-- Address of an object: the value of a non-null pointer. -/
abbrev Addr := Nat

/-- Nullable pointer; `none` is `nullptr`. -/
abbrev Ptr := Option Addr

/-- Result code, a signed 32-bit value. -/
abbrev HRESULT := Int

/-- Reference count as reported by `AddRef` / `Release`. -/
abbrev ULONG := Nat

def S_OK : HRESULT := 0
/-- Value `0x80004003`. -/
def E_POINTER : HRESULT := -2147467261
/-- Value `0x80004002`. -/
def E_NOINTERFACE : HRESULT := -2147467262
/-- Value `0x80070057`. -/
def E_INVALIDARG : HRESULT := -2147024809

/-- The platform test `FAILED(hr)`, that is `hr < 0`. -/
def FAILED (hr : HRESULT) : Bool := decide (hr < 0)

/-- The platform test `SUCCEEDED(hr)`, that is `hr >= 0`. -/
def SUCCEEDED (hr : HRESULT) : Bool := decide (0 ≤ hr)

/-- Interface identifiers compared by the proxies.  `D3D11DeviceContext`,
`D3D11Device` and `D3D10Device` are the identifiers of the proxy classes
themselves (`__uuidof(this)`); `other` stands for every identifier the source
does not name. -/
inductive IID where
  | IUnknown
  | D3D11DeviceContext
  | ID3D11DeviceChild
  | ID3D11DeviceContext
  | ID3D11DeviceContext1
  | ID3D11DeviceContext2
  | ID3D11DeviceContext3
  | D3D11Device
  | ID3D11Device
  | ID3D11Device1
  | ID3D11Device2
  | ID3D11Device3
  | D3D10Device
  | ID3D10Device
  | ID3D10Device1
  | IDXGIObject
  | IDXGIDevice
  | IDXGIDevice1
  | IDXGIDevice2
  | IDXGIDevice3
  | other (n : Nat)
  deriving DecidableEq, Repr

/-- Callbacks of a listener (`runtime->On...`).  `OnDrawCall` is the callback
of a D3D11 listener, which also receives the real context; `OnDrawCall10` is
`OnDrawCall` of a D3D10 listener, which receives the count only. -/
inductive Notification where
  | OnCreateDepthStencilView (pResource : Ptr) (pDepthStencilView : Addr)
  | OnDeleteDepthStencilView (pDepthStencilView : Addr)
  | OnSetDepthStencilView (pDepthStencilView : Addr)
  | OnGetDepthStencilView (pDepthStencilView : Ptr)
  | OnClearDepthStencilView (pDepthStencilView : Ptr)
  | OnCopyResource (pDstResource : Ptr) (pSrcResource : Ptr)
  | OnDrawCall (context : Addr) (vertices : Nat)
  | OnDrawCall10 (vertices : Nat)
  deriving DecidableEq, Repr

/-- Kind of object an environment call is made on.  A call on a `view` is made
by the application itself: the proxy layer patches only slot 2 of a view. -/
inductive Target where
  | device
  | context
  | dxgiDevice
  | view
  | adapter
  | factory
  deriving DecidableEq, Repr

/-- The two replacement functions handed to the hook installer. -/
inductive HookFunction where
  | ID3D11DepthStencilView_Release
  | ID3D10DepthStencilView_Release
  deriving DecidableEq, Repr

/-- An argument of a forwarded call: a number (`UINT`, `INT`, an enumeration
value, the bit pattern of a `FLOAT`) or a pointer, the address it holds being
`none` for `nullptr`.  Arrays and structures are passed by pointer. -/
inductive Arg where
  | word (n : Int)
  | pointer (p : Ptr)
  deriving DecidableEq, Repr

/-- The methods of `D3D11DeviceContext` whose body in `D3D11.cpp` is the single
statement `this->mOrig->M(p1, ..., pn);` (with `return` when `M` is not
`void`), `p1, ..., pn` being the parameters of `M` in their order.  For a
method `M` of `ID3D11DeviceContext<k>` the statement is preceded by
`assert(this->mInterfaceVersion >= k)` and `this->mOrig` is cast to that
revision.  These are all the methods of the class (D3D11.cpp:66-887) except
`QueryInterface`, `AddRef`, `Release`, `GetDevice`, `DrawIndexed`, `Draw`,
`DrawIndexedInstanced`, `DrawInstanced`, the two `OMSetRenderTargets...`, the
two `OMGetRenderTargets...`, `CopyResource` and `ClearDepthStencilView`.
`D3D10Device::DrawAuto` and `D3D10Device::CopySubresourceRegion` have the same
body (D3D10.cpp:281-284, 297-300). -/
inductive Method where
  | GetPrivateData
  | SetPrivateData
  | SetPrivateDataInterface
  | VSSetConstantBuffers
  | PSSetShaderResources
  | PSSetShader
  | PSSetSamplers
  | VSSetShader
  | Map
  | Unmap
  | PSSetConstantBuffers
  | IASetInputLayout
  | IASetVertexBuffers
  | IASetIndexBuffer
  | GSSetConstantBuffers
  | GSSetShader
  | IASetPrimitiveTopology
  | VSSetShaderResources
  | VSSetSamplers
  | Begin
  | End
  | GetData
  | SetPredication
  | GSSetShaderResources
  | GSSetSamplers
  | OMSetBlendState
  | OMSetDepthStencilState
  | SOSetTargets
  | DrawAuto
  | DrawIndexedInstancedIndirect
  | DrawInstancedIndirect
  | Dispatch
  | DispatchIndirect
  | RSSetState
  | RSSetViewports
  | RSSetScissorRects
  | CopySubresourceRegion
  | UpdateSubresource
  | CopyStructureCount
  | ClearRenderTargetView
  | ClearUnorderedAccessViewUint
  | ClearUnorderedAccessViewFloat
  | GenerateMips
  | SetResourceMinLOD
  | GetResourceMinLOD
  | ResolveSubresource
  | ExecuteCommandList
  | HSSetShaderResources
  | HSSetShader
  | HSSetSamplers
  | HSSetConstantBuffers
  | DSSetShaderResources
  | DSSetShader
  | DSSetSamplers
  | DSSetConstantBuffers
  | CSSetShaderResources
  | CSSetUnorderedAccessViews
  | CSSetShader
  | CSSetSamplers
  | CSSetConstantBuffers
  | VSGetConstantBuffers
  | PSGetShaderResources
  | PSGetShader
  | PSGetSamplers
  | VSGetShader
  | PSGetConstantBuffers
  | IAGetInputLayout
  | IAGetVertexBuffers
  | IAGetIndexBuffer
  | GSGetConstantBuffers
  | GSGetShader
  | IAGetPrimitiveTopology
  | VSGetShaderResources
  | VSGetSamplers
  | GetPredication
  | GSGetShaderResources
  | GSGetSamplers
  | OMGetBlendState
  | OMGetDepthStencilState
  | SOGetTargets
  | RSGetState
  | RSGetViewports
  | RSGetScissorRects
  | HSGetShaderResources
  | HSGetShader
  | HSGetSamplers
  | HSGetConstantBuffers
  | DSGetShaderResources
  | DSGetShader
  | DSGetSamplers
  | DSGetConstantBuffers
  | CSGetShaderResources
  | CSGetUnorderedAccessViews
  | CSGetShader
  | CSGetSamplers
  | CSGetConstantBuffers
  | ClearState
  | Flush
  | GetContextFlags
  | FinishCommandList
  | GetType
  | CopySubresourceRegion1
  | UpdateSubresource1
  | DiscardResource
  | DiscardView
  | VSSetConstantBuffers1
  | HSSetConstantBuffers1
  | DSSetConstantBuffers1
  | GSSetConstantBuffers1
  | PSSetConstantBuffers1
  | CSSetConstantBuffers1
  | VSGetConstantBuffers1
  | HSGetConstantBuffers1
  | DSGetConstantBuffers1
  | GSGetConstantBuffers1
  | PSGetConstantBuffers1
  | CSGetConstantBuffers1
  | SwapDeviceContextState
  | ClearView
  | DiscardView1
  | UpdateTileMappings
  | CopyTileMappings
  | CopyTiles
  | UpdateTiles
  | ResizeTilePool
  | TiledResourceBarrier
  | IsAnnotationEnabled
  | SetMarkerInt
  | BeginEventInt
  | EndEvent
  | Flush1
  | SetHardwareProtectionState
  | GetHardwareProtectionState
  deriving DecidableEq, Repr

/-- Calls that leave the proxy layer.  A `FLOAT` argument is kept as its bit
pattern.  `CreateDeferredContext k` is `CreateDeferredContext<k>` of the real
device (0 for the unnumbered method); `construct device original` is
`new D3D11DeviceContext(device, original)`, answered with the address of the
new object, and so are `newD3D11Device`, `newD3D10Device` and `newDXGIDevice`.
`call obj M args` is the call `obj->M(args)` of a method the proxy forwards.
The three `...CreateDeviceAndSwapChain...` events are calls of the real
creation functions through `ReShade::Hooks::Call`; `GetAdapter` is called on
the proxy extension object, `GetParent` on an adapter for `IDXGIFactory`, and
`CreateSwapChain` on a factory. -/
inductive Event where
  | QueryInterface (target : Target) (obj : Addr) (riid : IID)
  | AddRef (target : Target) (obj : Addr)
  | Release (target : Target) (obj : Addr)
  | CreateDepthStencilView (obj : Addr) (pResource : Ptr) (pDesc : Ptr)
  | SetPrivateData (view : Addr) (guid : IID) (dataSize : Nat) (data : Addr)
  | GetPrivateData (view : Addr) (guid : IID) (dataSize : Nat)
  | trampolineRelease (view : Addr)
  | Install (vtable : Addr) (slot : Nat) (replacement : HookFunction)
  | notify (runtime : Addr) (n : Notification)
  | OMSetRenderTargets (obj : Addr) (NumViews : Nat) (ppRenderTargetViews : Ptr)
      (pDepthStencilView : Ptr)
  | OMSetRenderTargetsAndUnorderedAccessViews (obj : Addr) (NumRTVs : Nat)
      (ppRenderTargetViews : Ptr) (pDepthStencilView : Ptr) (UAVStartSlot : Nat)
      (NumUAVs : Nat) (ppUnorderedAccessViews : Ptr) (pUAVInitialCounts : Ptr)
  | OMGetRenderTargets (obj : Addr) (NumViews : Nat) (ppRenderTargetViews : Ptr)
      (ppDepthStencilView : Option Ptr)
  | OMGetRenderTargetsAndUnorderedAccessViews (obj : Addr) (NumRTVs : Nat)
      (ppRenderTargetViews : Ptr) (ppDepthStencilView : Option Ptr) (UAVStartSlot : Nat)
      (NumUAVs : Nat) (ppUnorderedAccessViews : Ptr)
  | ClearDepthStencilView (obj : Addr) (pDepthStencilView : Ptr) (ClearFlags : Nat)
      (Depth : Nat) (Stencil : Nat)
  | DrawIndexedInstanced (obj : Addr) (IndexCountPerInstance : Nat) (InstanceCount : Nat)
      (StartIndexLocation : Nat) (BaseVertexLocation : Int) (StartInstanceLocation : Nat)
  | DrawInstanced (obj : Addr) (VertexCountPerInstance : Nat) (InstanceCount : Nat)
      (StartVertexLocation : Nat) (StartInstanceLocation : Nat)
  | CreateDeferredContext (revision : Nat) (obj : Addr) (ContextFlags : Nat)
      (ppDeferredContext : Option Ptr)
  | construct (device : Addr) (original : Addr)
  | call (obj : Addr) (method : Method) (args : List Arg)
  | DrawIndexed (obj : Addr) (IndexCount : Nat) (StartIndexLocation : Nat)
      (BaseVertexLocation : Int)
  | Draw (obj : Addr) (VertexCount : Nat) (StartVertexLocation : Nat)
  | CopyResource (obj : Addr) (pDstResource : Ptr) (pSrcResource : Ptr)
  | D3D11CreateDeviceAndSwapChain (pAdapter : Ptr) (DriverType : Nat) (Software : Ptr)
      (Flags : Nat) (pFeatureLevels : Ptr) (FeatureLevels : Nat) (SDKVersion : Nat)
      (pSwapChainDesc : Ptr) (ppSwapChain : Option Ptr) (ppDevice : Option Ptr)
      (pFeatureLevel : Option Nat) (ppImmediateContext : Option Ptr)
  | D3D10CreateDeviceAndSwapChain (pAdapter : Ptr) (DriverType : Nat) (Software : Ptr)
      (Flags : Nat) (SDKVersion : Nat) (pSwapChainDesc : Ptr) (ppSwapChain : Option Ptr)
      (ppDevice : Option Ptr)
  | D3D10CreateDeviceAndSwapChain1 (pAdapter : Ptr) (DriverType : Nat) (Software : Ptr)
      (Flags : Nat) (HardwareLevel : Nat) (SDKVersion : Nat) (pSwapChainDesc : Ptr)
      (ppSwapChain : Option Ptr) (ppDevice : Option Ptr)
  | GetImmediateContext (obj : Addr)
  | newD3D11Device (original : Addr)
  | newD3D10Device (original : Addr)
  | newDXGIDevice (original : Ptr) (device : Addr)
  | GetAdapter (obj : Addr)
  | GetParent (adapter : Addr)
  | CreateSwapChain (factory : Addr) (pDevice : Addr) (pDesc : Ptr)
      (ppSwapChain : Option Ptr)
  deriving DecidableEq, Repr

abbrev Trace := List Event

/-- What the environment answers to one call: the result code, the object it
hands out when the call succeeds (non-null by the COM contract), the
reference count it reports, and the possibly null pointer a `void` getter
stores in its output slot.  A call uses the fields its C++ signature has. -/
structure Answer where
  hr : HRESULT
  obj : Addr
  count : ULONG
  stored : Ptr
  deriving DecidableEq, Repr

/-- What a real call leaves in the output slot it was given: the object on
success, `nullptr` on failure (COM output-parameter rule). -/
def Answer.written (a : Answer) : Ptr :=
  if SUCCEEDED a.hr then some a.obj else none

/-- The environment.  `answer t e` is the answer to call `e` made after the
calls `t`; `VTABLE` is the absent macro giving the dispatch table of an object;
`sizeofPtr` is `sizeof(device)`. -/
structure Env where
  answer : Trace → Event → Answer
  VTABLE : Addr → Addr
  sizeofPtr : Nat

/-- State, trace and return value after a call. -/
structure Out (σ ρ : Type) where
  state : σ
  trace : Trace
  ret : ρ

/-! ## `D3D11DeviceContext` -/

/-- Members of the proxy context as `D3D11.cpp` uses them: `addr` is `this`,
`mDevice` the address of the owning proxy device, `mOrig` the real context. -/
structure D3D11DeviceContext where
  addr : Addr
  mRef : Int
  mDevice : Addr
  mOrig : Addr
  mInterfaceVersion : Nat
  deleted : Bool
  deriving DecidableEq, Repr

namespace D3D11DeviceContext

/-- One `#pragma region Update to ID3D11DeviceContext<k> interface` of
`D3D11DeviceContext::QueryInterface` (D3D11.cpp:81-134).  `Except.error t` is
the `return E_NOINTERFACE;`. -/
def upgradeRegion (env : Env) (self : D3D11DeviceContext) (t : Trace)
    (riid : IID) (iid : IID) (k : Nat) : Except Trace (D3D11DeviceContext × Trace) :=
  if riid = iid ∧ self.mInterfaceVersion < k then
    let q := Event.QueryInterface .context self.mOrig iid
    let a := env.answer t q
    let t := t ++ [q]
    if FAILED a.hr then
      .error t
    else
      let t := t ++ [Event.Release .context self.mOrig]
      .ok ({ self with mOrig := a.obj, mInterfaceVersion := k }, t)
  else
    .ok (self, t)

/-- Source `D3D11DeviceContext::AddRef` (D3D11.cpp:145-150). -/
def AddRef (env : Env) (self : D3D11DeviceContext) (t : Trace) :
    Out D3D11DeviceContext ULONG :=
  let self := { self with mRef := self.mRef + 1 }
  let e := Event.AddRef .context self.mOrig
  ⟨self, t ++ [e], (env.answer t e).count⟩

/-- Source `D3D11DeviceContext::Release` (D3D11.cpp:151-172). -/
def Release (env : Env) (self : D3D11DeviceContext) (t : Trace) :
    Out D3D11DeviceContext ULONG :=
  let e := Event.Release .context self.mOrig
  let ref := (env.answer t e).count
  let t := t ++ [e]
  let self := { self with mRef := self.mRef - 1 }
  let ref := if self.mRef = 0 ∧ ref ≠ 0 then 0 else ref
  if ref = 0 then
    ⟨{ self with deleted := true }, t, ref⟩
  else
    ⟨self, t, ref⟩

/-- Source `D3D11DeviceContext::QueryInterface` (D3D11.cpp:66-144).  `ppvObj` is
`none` for a null pointer and `some v` for a slot holding `v`; the second
component of the result is the slot afterwards. -/
def QueryInterface (env : Env) (self : D3D11DeviceContext) (t : Trace)
    (riid : IID) (ppvObj : Option Ptr) : Out D3D11DeviceContext (HRESULT × Ptr) :=
  match ppvObj with
  | none => ⟨self, t, (E_POINTER, none)⟩
  | some slot =>
    if riid = .D3D11DeviceContext ∨ riid = .IUnknown ∨ riid = .ID3D11DeviceChild ∨
        riid = .ID3D11DeviceContext ∨ riid = .ID3D11DeviceContext1 ∨
        riid = .ID3D11DeviceContext2 ∨ riid = .ID3D11DeviceContext3 then
      match upgradeRegion env self t riid .ID3D11DeviceContext1 1 with
      | .error t => ⟨self, t, (E_NOINTERFACE, slot)⟩
      | .ok (s1, t1) =>
        match upgradeRegion env s1 t1 riid .ID3D11DeviceContext2 2 with
        | .error t => ⟨s1, t, (E_NOINTERFACE, slot)⟩
        | .ok (s2, t2) =>
          match upgradeRegion env s2 t2 riid .ID3D11DeviceContext3 3 with
          | .error t => ⟨s2, t, (E_NOINTERFACE, slot)⟩
          | .ok (s3, t3) =>
            let a := AddRef env s3 t3
            ⟨a.state, a.trace, (S_OK, some self.addr)⟩
    else
      let q := Event.QueryInterface .context self.mOrig riid
      let a := env.answer t q
      ⟨self, t ++ [q], (a.hr, a.written)⟩

end D3D11DeviceContext

/-! ## `DXGIDevice` -/

/-- Modelled from the spec: the presentation-subsystem extension object
`DXGIDevice` of a proxy device.  Its class is declared in `Hooks\DXGI.hpp`,
which is not part of the sources; the spec gives it an internal counter that
the device's `AddRef` / `Release` adjust. -/
structure DXGIDevice where
  addr : Addr
  mRef : Int
  deriving DecidableEq, Repr

/-- Modelled from the spec: `DXGIDevice::InternalAddRef` (body not part of the
sources) increments the internal counter. -/
def DXGIDevice.InternalAddRef (self : DXGIDevice) : DXGIDevice :=
  { self with mRef := self.mRef + 1 }

/-- Modelled from the spec: `DXGIDevice::InternalRelease` (body not part of the
sources) decrements the internal counter. -/
def DXGIDevice.InternalRelease (self : DXGIDevice) : DXGIDevice :=
  { self with mRef := self.mRef - 1 }

/-! ## `D3D11Device` -/

/-- Members of the D3D11 proxy device as `D3D11.cpp` uses them: `addr` is
`this`, `mOrig` the real device.  The immediate context and the extension
object are held by value: the device is their only holder in the sources.
`mRuntimes` lists the listeners in registration order. -/
structure D3D11Device where
  addr : Addr
  mRef : Int
  mOrig : Addr
  mInterfaceVersion : Nat
  mDXGIDevice : DXGIDevice
  mImmediateContext : D3D11DeviceContext
  mRuntimes : List Addr
  deleted : Bool
  deriving DecidableEq, Repr

/-- How a block of statements of a device method ends: control falls through
to the next statement, a `return` was executed, or a null pointer was
dereferenced and the call never returns. -/
inductive Flow (σ : Type) where
  | next (s : σ) (t : Trace)
  | ret (s : σ) (t : Trace) (hr : HRESULT)
  | fault (s : σ) (t : Trace)

/-- Sequencing of statement blocks. -/
def Flow.andThen {σ : Type} (f : Flow σ) (k : σ → Trace → Flow σ) : Flow σ :=
  match f with
  | .next s t => k s t
  | .ret s t hr => .ret s t hr
  | .fault s t => .fault s t

/-- Object state at the end of a block. -/
def Flow.state {σ : Type} : Flow σ → σ
  | .next s _ => s
  | .ret s _ _ => s
  | .fault s _ => s

/-- Trace at the end of a block. -/
def Flow.trace {σ : Type} : Flow σ → Trace
  | .next _ t => t
  | .ret _ t _ => t
  | .fault _ t => t

namespace D3D11Device

/-- Source `D3D11Device::AddRef` (D3D11.cpp:994-1005). -/
def AddRef (env : Env) (self : D3D11Device) (t : Trace) : Out D3D11Device ULONG :=
  let self := { self with mRef := self.mRef + 1 }
  let self := { self with mDXGIDevice := self.mDXGIDevice.InternalAddRef }
  let c := self.mImmediateContext.AddRef env t
  let self := { self with mImmediateContext := c.state }
  let e := Event.AddRef .device self.mOrig
  ⟨self, c.trace ++ [e], (env.answer c.trace e).count⟩

/-- Source `D3D11Device::Release` (D3D11.cpp:1006-1033). -/
def Release (env : Env) (self : D3D11Device) (t : Trace) : Out D3D11Device ULONG :=
  let self := { self with mDXGIDevice := self.mDXGIDevice.InternalRelease }
  let c := self.mImmediateContext.Release env t
  let self := { self with mImmediateContext := c.state }
  let e := Event.Release .device self.mOrig
  let ref := (env.answer c.trace e).count
  let t := c.trace ++ [e]
  let self := { self with mRef := self.mRef - 1 }
  let ref := if self.mRef = 0 ∧ ref ≠ 0 then 0 else ref
  if ref = 0 then
    ⟨{ self with deleted := true }, t, ref⟩
  else
    ⟨self, t, ref⟩

/-- One `#pragma region Update to ID3D11Device<k> interface` of
`D3D11Device::QueryInterface` (D3D11.cpp:904-972).  The local
`devicecontext<k>` starts as `nullptr`, is passed to the immediate context's
`QueryInterface` and is then dereferenced by `devicecontext<k>->Release()`
without a check: when it is still null the call faults. -/
def upgradeRegion (env : Env) (self : D3D11Device) (t : Trace)
    (riid : IID) (iidDevice : IID) (iidContext : IID) (k : Nat) : Flow D3D11Device :=
  if riid = iidDevice ∧ self.mInterfaceVersion < k then
    let q := Event.QueryInterface .device self.mOrig iidDevice
    let a := env.answer t q
    let t := t ++ [q]
    if FAILED a.hr then
      .ret self t E_NOINTERFACE
    else
      let t := t ++ [Event.Release .device self.mOrig]
      let self := { self with mOrig := a.obj, mInterfaceVersion := k }
      let c := self.mImmediateContext.QueryInterface env t iidContext (some none)
      let self := { self with mImmediateContext := c.state }
      match c.ret.2 with
      | some _ =>
        let r := self.mImmediateContext.Release env c.trace
        .next { self with mImmediateContext := r.state } r.trace
      | none => .fault self c.trace
  else
    .next self t

/-- Source `D3D11Device::QueryInterface` (D3D11.cpp:890-993).  The result code
is `none` when the call faults. -/
def QueryInterface (env : Env) (self : D3D11Device) (t : Trace)
    (riid : IID) (ppvObj : Option Ptr) : Out D3D11Device (Option HRESULT × Ptr) :=
  match ppvObj with
  | none => ⟨self, t, (some E_POINTER, none)⟩
  | some slot =>
    if riid = .D3D11Device ∨ riid = .IUnknown ∨ riid = .ID3D11Device ∨
        riid = .ID3D11Device1 ∨ riid = .ID3D11Device2 ∨ riid = .ID3D11Device3 then
      match ((upgradeRegion env self t riid .ID3D11Device1 .ID3D11DeviceContext1 1).andThen
          (fun s t => upgradeRegion env s t riid .ID3D11Device2 .ID3D11DeviceContext2 2)).andThen
          (fun s t => upgradeRegion env s t riid .ID3D11Device3 .ID3D11DeviceContext3 3) with
      | .next s t =>
        let a := AddRef env s t
        ⟨a.state, a.trace, (some S_OK, some self.addr)⟩
      | .ret s t hr => ⟨s, t, (some hr, slot)⟩
      | .fault s t => ⟨s, t, (none, slot)⟩
    else if riid = .IDXGIObject ∨ riid = .IDXGIDevice ∨ riid = .IDXGIDevice1 ∨
        riid = .IDXGIDevice2 ∨ riid = .IDXGIDevice3 then
      let q := Event.QueryInterface .dxgiDevice self.mDXGIDevice.addr riid
      let a := env.answer t q
      ⟨self, t ++ [q], (some a.hr, a.written)⟩
    else
      let q := Event.QueryInterface .device self.mOrig riid
      let a := env.answer t q
      ⟨self, t ++ [q], (some a.hr, a.written)⟩

/-- Source `D3D11Device::CreateDepthStencilView` (D3D11.cpp:1062-1089).
`ppDepthStencilView` is `none` for a null pointer; the second component of the
result is the output slot afterwards. -/
def CreateDepthStencilView (env : Env) (self : D3D11Device) (t : Trace)
    (pResource : Ptr) (pDesc : Ptr) (ppDepthStencilView : Option Ptr) :
    Out D3D11Device (HRESULT × Ptr) :=
  match ppDepthStencilView with
  | none => ⟨self, t, (E_INVALIDARG, none)⟩
  | some _ =>
    let e := Event.CreateDepthStencilView self.mOrig pResource pDesc
    let a := env.answer t e
    let hr := a.hr
    let t := t ++ [e]
    if FAILED hr then
      ⟨self, t, (hr, a.written)⟩
    else
      let depthstencil := a.obj
      let t := t ++ self.mRuntimes.map
        (fun runtime => Event.notify runtime (.OnCreateDepthStencilView pResource depthstencil))
      let r := AddRef env self t
      let t := r.trace ++ [Event.SetPrivateData depthstencil .D3D11Device env.sizeofPtr self.addr]
      let t := t ++ [Event.Install (env.VTABLE depthstencil) 2 .ID3D11DepthStencilView_Release]
      ⟨r.state, t, (S_OK, some depthstencil)⟩

end D3D11Device

/-- Source `ID3D11DepthStencilView_Release` (D3D11.cpp:42-63), the function
installed on slot 2 of a view's dispatch table.  `device` is the proxy device
of the model; the pointer read back from the tag designates it when it equals
`device.addr`.  The returned count is `none` when the pointer read back is
dereferenced and designates no object of the model. -/
def ID3D11DepthStencilView_Release (env : Env) (device : D3D11Device) (t : Trace)
    (pDepthStencilView : Addr) : Out D3D11Device (Option ULONG) :=
  let g := Event.GetPrivateData pDepthStencilView .D3D11Device env.sizeofPtr
  let a := env.answer t g
  let succeeded := SUCCEEDED a.hr
  let t := t ++ [g]
  let o := Event.trampolineRelease pDepthStencilView
  let ref := (env.answer t o).count
  let t := t ++ [o]
  if succeeded ∧ ref = 0 then
    if a.obj = device.addr then
      let t := t ++ device.mRuntimes.map
        (fun runtime => Event.notify runtime (.OnDeleteDepthStencilView pDepthStencilView))
      let r := device.Release env t
      ⟨r.state, r.trace, some ref⟩
    else
      ⟨device, t, none⟩
  else
    ⟨device, t, some ref⟩

/-! ## `D3D10Device` -/

/-- Members of the D3D10 proxy device as `D3D10.cpp` uses them. -/
structure D3D10Device where
  addr : Addr
  mRef : Int
  mOrig : Addr
  mInterfaceVersion : Nat
  mDXGIDevice : DXGIDevice
  mRuntimes : List Addr
  deleted : Bool
  deriving DecidableEq, Repr

namespace D3D10Device

/-- Source `D3D10Device::AddRef` (D3D10.cpp:117-126). -/
def AddRef (env : Env) (self : D3D10Device) (t : Trace) : Out D3D10Device ULONG :=
  let self := { self with mRef := self.mRef + 1 }
  let self := { self with mDXGIDevice := self.mDXGIDevice.InternalAddRef }
  let e := Event.AddRef .device self.mOrig
  ⟨self, t ++ [e], (env.answer t e).count⟩

/-- Source `D3D10Device::Release` (D3D10.cpp:127-152). -/
def Release (env : Env) (self : D3D10Device) (t : Trace) : Out D3D10Device ULONG :=
  let self := { self with mDXGIDevice := self.mDXGIDevice.InternalRelease }
  let e := Event.Release .device self.mOrig
  let ref := (env.answer t e).count
  let t := t ++ [e]
  let self := { self with mRef := self.mRef - 1 }
  let ref := if self.mRef = 0 ∧ ref ≠ 0 then 0 else ref
  if ref = 0 then
    ⟨{ self with deleted := true }, t, ref⟩
  else
    ⟨self, t, ref⟩

/-- The `#pragma region Update to ID3D10Device1 interface` of
`D3D10Device::QueryInterface` (D3D10.cpp:78-95).  `Except.error t` is the
`return E_NOINTERFACE;`. -/
def upgradeRegion (env : Env) (self : D3D10Device) (t : Trace)
    (riid : IID) : Except Trace (D3D10Device × Trace) :=
  if riid = .ID3D10Device1 ∧ self.mInterfaceVersion < 1 then
    let q := Event.QueryInterface .device self.mOrig .ID3D10Device1
    let a := env.answer t q
    let t := t ++ [q]
    if FAILED a.hr then
      .error t
    else
      let t := t ++ [Event.Release .device self.mOrig]
      .ok ({ self with mOrig := a.obj, mInterfaceVersion := 1 }, t)
  else
    .ok (self, t)

/-- Source `D3D10Device::QueryInterface` (D3D10.cpp:66-116). -/
def QueryInterface (env : Env) (self : D3D10Device) (t : Trace)
    (riid : IID) (ppvObj : Option Ptr) : Out D3D10Device (HRESULT × Ptr) :=
  match ppvObj with
  | none => ⟨self, t, (E_POINTER, none)⟩
  | some slot =>
    if riid = .D3D10Device ∨ riid = .IUnknown ∨ riid = .ID3D10Device ∨
        riid = .ID3D10Device1 then
      match upgradeRegion env self t riid with
      | .error t => ⟨self, t, (E_NOINTERFACE, slot)⟩
      | .ok (s1, t1) =>
        let a := AddRef env s1 t1
        ⟨a.state, a.trace, (S_OK, some self.addr)⟩
    else if riid = .IDXGIObject ∨ riid = .IDXGIDevice ∨ riid = .IDXGIDevice1 ∨
        riid = .IDXGIDevice2 ∨ riid = .IDXGIDevice3 then
      let q := Event.QueryInterface .dxgiDevice self.mDXGIDevice.addr riid
      let a := env.answer t q
      ⟨self, t ++ [q], (a.hr, a.written)⟩
    else
      let q := Event.QueryInterface .device self.mOrig riid
      let a := env.answer t q
      ⟨self, t ++ [q], (a.hr, a.written)⟩

/-- Source `D3D10Device::CreateDepthStencilView` (D3D10.cpp:495-522). -/
def CreateDepthStencilView (env : Env) (self : D3D10Device) (t : Trace)
    (pResource : Ptr) (pDesc : Ptr) (ppDepthStencilView : Option Ptr) :
    Out D3D10Device (HRESULT × Ptr) :=
  match ppDepthStencilView with
  | none => ⟨self, t, (E_INVALIDARG, none)⟩
  | some _ =>
    let e := Event.CreateDepthStencilView self.mOrig pResource pDesc
    let a := env.answer t e
    let hr := a.hr
    let t := t ++ [e]
    if FAILED hr then
      ⟨self, t, (hr, a.written)⟩
    else
      let depthstencil := a.obj
      let t := t ++ self.mRuntimes.map
        (fun runtime => Event.notify runtime (.OnCreateDepthStencilView pResource depthstencil))
      let r := AddRef env self t
      let t := r.trace ++ [Event.SetPrivateData depthstencil .D3D10Device env.sizeofPtr self.addr]
      let t := t ++ [Event.Install (env.VTABLE depthstencil) 2 .ID3D10DepthStencilView_Release]
      ⟨r.state, t, (S_OK, some depthstencil)⟩

end D3D10Device

/-- Source `ID3D10DepthStencilView_Release` (D3D10.cpp:42-63); see
`ID3D11DepthStencilView_Release`. -/
def ID3D10DepthStencilView_Release (env : Env) (device : D3D10Device) (t : Trace)
    (pDepthStencilView : Addr) : Out D3D10Device (Option ULONG) :=
  let g := Event.GetPrivateData pDepthStencilView .D3D10Device env.sizeofPtr
  let a := env.answer t g
  let succeeded := SUCCEEDED a.hr
  let t := t ++ [g]
  let o := Event.trampolineRelease pDepthStencilView
  let ref := (env.answer t o).count
  let t := t ++ [o]
  if succeeded ∧ ref = 0 then
    if a.obj = device.addr then
      let t := t ++ device.mRuntimes.map
        (fun runtime => Event.notify runtime (.OnDeleteDepthStencilView pDepthStencilView))
      let r := device.Release env t
      ⟨r.state, r.trace, some ref⟩
    else
      ⟨device, t, none⟩
  else
    ⟨device, t, some ref⟩

/-! ## Intercepted operations of the context -/

namespace D3D11DeviceContext

/-- Source `D3D11DeviceContext::OMSetRenderTargets` (D3D11.cpp:320-331).
`device` is the proxy device `this->mDevice` points to. -/
def OMSetRenderTargets (self : D3D11DeviceContext) (device : D3D11Device) (t : Trace)
    (NumViews : Nat) (ppRenderTargetViews : Ptr) (pDepthStencilView : Ptr) : Trace :=
  let t := match pDepthStencilView with
    | some view => t ++ device.mRuntimes.map
        (fun runtime => Event.notify runtime (.OnSetDepthStencilView view))
    | none => t
  t ++ [Event.OMSetRenderTargets self.mOrig NumViews ppRenderTargetViews pDepthStencilView]

/-- Source `D3D11DeviceContext::OMSetRenderTargetsAndUnorderedAccessViews`
(D3D11.cpp:332-343). -/
def OMSetRenderTargetsAndUnorderedAccessViews (self : D3D11DeviceContext)
    (device : D3D11Device) (t : Trace) (NumRTVs : Nat) (ppRenderTargetViews : Ptr)
    (pDepthStencilView : Ptr) (UAVStartSlot : Nat) (NumUAVs : Nat)
    (ppUnorderedAccessViews : Ptr) (pUAVInitialCounts : Ptr) : Trace :=
  let t := match pDepthStencilView with
    | some view => t ++ device.mRuntimes.map
        (fun runtime => Event.notify runtime (.OnSetDepthStencilView view))
    | none => t
  t ++ [Event.OMSetRenderTargetsAndUnorderedAccessViews self.mOrig NumRTVs ppRenderTargetViews
    pDepthStencilView UAVStartSlot NumUAVs ppUnorderedAccessViews pUAVInitialCounts]

/-- Source `D3D11DeviceContext::OMGetRenderTargets` (D3D11.cpp:570-581).
`ppDepthStencilView` is `none` for a null pointer and `some v` for a slot
holding `v`; the real call stores `stored` of its answer in the slot.  The
second component of the result is the slot afterwards. -/
def OMGetRenderTargets (env : Env) (self : D3D11DeviceContext) (device : D3D11Device)
    (t : Trace) (NumViews : Nat) (ppRenderTargetViews : Ptr)
    (ppDepthStencilView : Option Ptr) : Trace × Option Ptr :=
  let e := Event.OMGetRenderTargets self.mOrig NumViews ppRenderTargetViews ppDepthStencilView
  let a := env.answer t e
  let t := t ++ [e]
  match ppDepthStencilView with
  | some _ =>
    (t ++ device.mRuntimes.map
      (fun runtime => Event.notify runtime (.OnGetDepthStencilView a.stored)), some a.stored)
  | none => (t, none)

/-- Source `D3D11DeviceContext::OMGetRenderTargetsAndUnorderedAccessViews`
(D3D11.cpp:582-593). -/
def OMGetRenderTargetsAndUnorderedAccessViews (env : Env) (self : D3D11DeviceContext)
    (device : D3D11Device) (t : Trace) (NumRTVs : Nat) (ppRenderTargetViews : Ptr)
    (ppDepthStencilView : Option Ptr) (UAVStartSlot : Nat) (NumUAVs : Nat)
    (ppUnorderedAccessViews : Ptr) : Trace × Option Ptr :=
  let e := Event.OMGetRenderTargetsAndUnorderedAccessViews self.mOrig NumRTVs
    ppRenderTargetViews ppDepthStencilView UAVStartSlot NumUAVs ppUnorderedAccessViews
  let a := env.answer t e
  let t := t ++ [e]
  match ppDepthStencilView with
  | some _ =>
    (t ++ device.mRuntimes.map
      (fun runtime => Event.notify runtime (.OnGetDepthStencilView a.stored)), some a.stored)
  | none => (t, none)

/-- Source `D3D11DeviceContext::ClearDepthStencilView` (D3D11.cpp:421-429). -/
def ClearDepthStencilView (self : D3D11DeviceContext) (device : D3D11Device) (t : Trace)
    (pDepthStencilView : Ptr) (ClearFlags : Nat) (Depth : Nat) (Stencil : Nat) : Trace :=
  let t := t ++ device.mRuntimes.map
    (fun runtime => Event.notify runtime (.OnClearDepthStencilView pDepthStencilView))
  t ++ [Event.ClearDepthStencilView self.mOrig pDepthStencilView ClearFlags Depth Stencil]

/-- Source `D3D11DeviceContext::DrawIndexedInstanced` (D3D11.cpp:258-266).  The
product of two `UINT` is taken modulo `2 ^ 32`. -/
def DrawIndexedInstanced (self : D3D11DeviceContext) (device : D3D11Device) (t : Trace)
    (IndexCountPerInstance : Nat) (InstanceCount : Nat) (StartIndexLocation : Nat)
    (BaseVertexLocation : Int) (StartInstanceLocation : Nat) : Trace :=
  let t := t ++ device.mRuntimes.map
    (fun runtime => Event.notify runtime
      (.OnDrawCall self.mOrig (IndexCountPerInstance * InstanceCount % 2 ^ 32)))
  t ++ [Event.DrawIndexedInstanced self.mOrig IndexCountPerInstance InstanceCount
    StartIndexLocation BaseVertexLocation StartInstanceLocation]

/-- Source `D3D11DeviceContext::DrawInstanced` (D3D11.cpp:267-275). -/
def DrawInstanced (self : D3D11DeviceContext) (device : D3D11Device) (t : Trace)
    (VertexCountPerInstance : Nat) (InstanceCount : Nat) (StartVertexLocation : Nat)
    (StartInstanceLocation : Nat) : Trace :=
  let t := t ++ device.mRuntimes.map
    (fun runtime => Event.notify runtime
      (.OnDrawCall self.mOrig (VertexCountPerInstance * InstanceCount % 2 ^ 32)))
  t ++ [Event.DrawInstanced self.mOrig VertexCountPerInstance InstanceCount
    StartVertexLocation StartInstanceLocation]

/-- Modelled from the spec: the constructor `D3D11DeviceContext(device,
original)`, declared in a header that is not part of the sources.  The spec
has a new proxy context own a reference to the real context and back-reference
its owning proxy device; it starts at the base revision holding one reference. -/
def construct (addr : Addr) (device : Addr) (original : Addr) : D3D11DeviceContext :=
  ⟨addr, 1, device, original, 0, false⟩

end D3D11DeviceContext

/-! ## Intercepted operations of the D3D10 device -/

namespace D3D10Device

/-- Source `D3D10Device::OMSetRenderTargets` (D3D10.cpp:257-268). -/
def OMSetRenderTargets (self : D3D10Device) (t : Trace)
    (NumViews : Nat) (ppRenderTargetViews : Ptr) (pDepthStencilView : Ptr) : Trace :=
  let t := match pDepthStencilView with
    | some view => t ++ self.mRuntimes.map
        (fun runtime => Event.notify runtime (.OnSetDepthStencilView view))
    | none => t
  t ++ [Event.OMSetRenderTargets self.mOrig NumViews ppRenderTargetViews pDepthStencilView]

/-- Source `D3D10Device::OMGetRenderTargets` (D3D10.cpp:403-414). -/
def OMGetRenderTargets (env : Env) (self : D3D10Device) (t : Trace) (NumViews : Nat)
    (ppRenderTargetViews : Ptr) (ppDepthStencilView : Option Ptr) : Trace × Option Ptr :=
  let e := Event.OMGetRenderTargets self.mOrig NumViews ppRenderTargetViews ppDepthStencilView
  let a := env.answer t e
  let t := t ++ [e]
  match ppDepthStencilView with
  | some _ =>
    (t ++ self.mRuntimes.map
      (fun runtime => Event.notify runtime (.OnGetDepthStencilView a.stored)), some a.stored)
  | none => (t, none)

/-- Source `D3D10Device::ClearDepthStencilView` (D3D10.cpp:318-326). -/
def ClearDepthStencilView (self : D3D10Device) (t : Trace)
    (pDepthStencilView : Ptr) (ClearFlags : Nat) (Depth : Nat) (Stencil : Nat) : Trace :=
  let t := t ++ self.mRuntimes.map
    (fun runtime => Event.notify runtime (.OnClearDepthStencilView pDepthStencilView))
  t ++ [Event.ClearDepthStencilView self.mOrig pDepthStencilView ClearFlags Depth Stencil]

/-- Source `D3D10Device::DrawIndexedInstanced` (D3D10.cpp:207-215). -/
def DrawIndexedInstanced (self : D3D10Device) (t : Trace)
    (IndexCountPerInstance : Nat) (InstanceCount : Nat) (StartIndexLocation : Nat)
    (BaseVertexLocation : Int) (StartInstanceLocation : Nat) : Trace :=
  let t := t ++ self.mRuntimes.map
    (fun runtime => Event.notify runtime
      (.OnDrawCall10 (IndexCountPerInstance * InstanceCount % 2 ^ 32)))
  t ++ [Event.DrawIndexedInstanced self.mOrig IndexCountPerInstance InstanceCount
    StartIndexLocation BaseVertexLocation StartInstanceLocation]

/-- Source `D3D10Device::DrawInstanced` (D3D10.cpp:216-224). -/
def DrawInstanced (self : D3D10Device) (t : Trace)
    (VertexCountPerInstance : Nat) (InstanceCount : Nat) (StartVertexLocation : Nat)
    (StartInstanceLocation : Nat) : Trace :=
  let t := t ++ self.mRuntimes.map
    (fun runtime => Event.notify runtime
      (.OnDrawCall10 (VertexCountPerInstance * InstanceCount % 2 ^ 32)))
  t ++ [Event.DrawInstanced self.mOrig VertexCountPerInstance InstanceCount
    StartVertexLocation StartInstanceLocation]

end D3D10Device

/-! ## Deferred contexts -/

namespace D3D11Device

/-- Source `D3D11Device::CreateDeferredContext` (D3D11.cpp:1154-1175).  The
result holds the result code, the output slot afterwards and the proxy context
the call created, if any. -/
def CreateDeferredContext (env : Env) (self : D3D11Device) (t : Trace)
    (ContextFlags : Nat) (ppDeferredContext : Option Ptr) :
    Out D3D11Device (HRESULT × Ptr × Option D3D11DeviceContext) :=
  match ppDeferredContext with
  | none => ⟨self, t, (E_INVALIDARG, none, none)⟩
  | some _ =>
    let e := Event.CreateDeferredContext 0 self.mOrig ContextFlags ppDeferredContext
    let a := env.answer t e
    let hr := a.hr
    let t := t ++ [e]
    if FAILED hr then
      ⟨self, t, (hr, a.written, none)⟩
    else
      let n := Event.construct self.addr a.obj
      let proxy := D3D11DeviceContext.construct (env.answer t n).obj self.addr a.obj
      ⟨self, t ++ [n], (S_OK, some proxy.addr, some proxy)⟩

/-- Source `D3D11Device::CreateDeferredContext1` (D3D11.cpp:1262-1285). -/
def CreateDeferredContext1 (env : Env) (self : D3D11Device) (t : Trace)
    (ContextFlags : Nat) (ppDeferredContext : Option Ptr) :
    Out D3D11Device (HRESULT × Ptr × Option D3D11DeviceContext) :=
  match ppDeferredContext with
  | none => ⟨self, t, (E_INVALIDARG, none, none)⟩
  | some _ =>
    let e := Event.CreateDeferredContext 1 self.mOrig ContextFlags ppDeferredContext
    let a := env.answer t e
    let hr := a.hr
    let t := t ++ [e]
    if FAILED hr then
      ⟨self, t, (hr, a.written, none)⟩
    else
      let n := Event.construct self.addr a.obj
      let proxy := D3D11DeviceContext.construct (env.answer t n).obj self.addr a.obj
      ⟨self, t ++ [n], (S_OK, some proxy.addr, some proxy)⟩

/-- Source `D3D11Device::CreateDeferredContext2` (D3D11.cpp:1324-1329): the call
is forwarded with its arguments and its result is returned; no proxy context
is constructed.  A null output pointer reaches the real device. -/
def CreateDeferredContext2 (env : Env) (self : D3D11Device) (t : Trace)
    (ContextFlags : Nat) (ppDeferredContext : Option Ptr) :
    Out D3D11Device (HRESULT × Ptr × Option D3D11DeviceContext) :=
  let e := Event.CreateDeferredContext 2 self.mOrig ContextFlags ppDeferredContext
  let a := env.answer t e
  ⟨self, t ++ [e], (a.hr, ppDeferredContext.bind (fun _ => a.written), none)⟩

/-- Source `D3D11Device::CreateDeferredContext3` (D3D11.cpp:1392-1397). -/
def CreateDeferredContext3 (env : Env) (self : D3D11Device) (t : Trace)
    (ContextFlags : Nat) (ppDeferredContext : Option Ptr) :
    Out D3D11Device (HRESULT × Ptr × Option D3D11DeviceContext) :=
  let e := Event.CreateDeferredContext 3 self.mOrig ContextFlags ppDeferredContext
  let a := env.answer t e
  ⟨self, t ++ [e], (a.hr, ppDeferredContext.bind (fun _ => a.written), none)⟩

end D3D11Device

/-! ## Calls of the application on a view -/

/-- A call of the application on a depth-stencil view. -/
inductive ViewCall where
  | AddRef
  | Release
  deriving DecidableEq, Repr

/-- One call on a view created through the D3D11 proxy device.  `AddRef` is
slot 1, which is not patched: the call reaches the real view and no code of
the proxy layer runs.  `Release` is slot 2, the patched release. -/
def ID3D11DepthStencilView_call (env : Env) (view : Addr) (s : D3D11Device × Trace) :
    ViewCall → D3D11Device × Trace
  | .AddRef => (s.1, s.2 ++ [Event.AddRef .view view])
  | .Release => ((ID3D11DepthStencilView_Release env s.1 s.2 view).state,
      (ID3D11DepthStencilView_Release env s.1 s.2 view).trace)

/-- Issues the calls in order on a view of the D3D11 proxy device. -/
def ID3D11DepthStencilView_callAll (env : Env) (view : Addr) (s : D3D11Device × Trace)
    (calls : List ViewCall) : D3D11Device × Trace :=
  calls.foldl (ID3D11DepthStencilView_call env view) s

/-- One call on a view created through the D3D10 proxy device. -/
def ID3D10DepthStencilView_call (env : Env) (view : Addr) (s : D3D10Device × Trace) :
    ViewCall → D3D10Device × Trace
  | .AddRef => (s.1, s.2 ++ [Event.AddRef .view view])
  | .Release => ((ID3D10DepthStencilView_Release env s.1 s.2 view).state,
      (ID3D10DepthStencilView_Release env s.1 s.2 view).trace)

/-- Issues the calls in order on a view of the D3D10 proxy device. -/
def ID3D10DepthStencilView_callAll (env : Env) (view : Addr) (s : D3D10Device × Trace)
    (calls : List ViewCall) : D3D10Device × Trace :=
  calls.foldl (ID3D10DepthStencilView_call env view) s

/-- Net change that the calls in a trace make to the reference count of the
real view: a direct `AddRef` adds one, an original release takes one. -/
def viewNet (view : Addr) : Trace → Int
  | [] => 0
  | .AddRef .view v :: u => (if v = view then 1 else 0) + viewNet view u
  | .trampolineRelease v :: u => (if v = view then -1 else 0) + viewNet view u
  | _ :: u => viewNet view u

/-- The environment keeps a reference count for the real view: the count is
`c` after the calls `t`, and as long as it is positive the original release
reports the count it leaves. -/
def CountsView (env : Env) (view : Addr) (t : Trace) (c : Nat) : Prop :=
  ∀ u, 1 ≤ (c : Int) + viewNet view u →
    ((env.answer (t ++ u) (.trampolineRelease view)).count : Int) = c + viewNet view u - 1

/-- The ownership tag is attached to the view after the calls `t`: from then
on a read of the private data stored under `guid` succeeds and gives the
address `device`. -/
def TagAttached (env : Env) (view : Addr) (guid : IID) (device : Addr) (t : Trace) : Prop :=
  ∀ u, SUCCEEDED (env.answer (t ++ u) (.GetPrivateData view guid env.sizeofPtr)).hr = true ∧
    (env.answer (t ++ u) (.GetPrivateData view guid env.sizeofPtr)).obj = device

/-- The calls drive a reference count that starts at `c` to zero with the
last call and not before. -/
def drivesToZero : Nat → List ViewCall → Bool
  | _, [] => false
  | c, .AddRef :: rest => drivesToZero (c + 1) rest
  | c, .Release :: rest =>
    if c = 1 then rest.isEmpty else decide (2 ≤ c) && drivesToZero (c - 1) rest

/-! ## Naming a revision -/

/-- Interface id of revision `k` of the context family (0 is the base
interface, 3 the last revision). -/
def D3D11DeviceContext.revision : Nat → IID
  | 0 => .ID3D11DeviceContext
  | 1 => .ID3D11DeviceContext1
  | 2 => .ID3D11DeviceContext2
  | _ => .ID3D11DeviceContext3

/-- Interface id of revision `k` of the D3D11 device family. -/
def D3D11Device.revision : Nat → IID
  | 0 => .ID3D11Device
  | 1 => .ID3D11Device1
  | 2 => .ID3D11Device2
  | _ => .ID3D11Device3

/-- Interface id of revision `k` of the D3D10 device family. -/
def D3D10Device.revision : Nat → IID
  | 0 => .ID3D10Device
  | _ => .ID3D10Device1

/-! ## Sequences of calls -/

/-- A `QueryInterface` request: the interface id and the output pointer. -/
abbrev Request := IID × Option Ptr

/-- Issues the requests in order on a proxy context. -/
def D3D11DeviceContext.queryAll (env : Env) (s : D3D11DeviceContext × Trace)
    (reqs : List Request) : D3D11DeviceContext × Trace :=
  reqs.foldl (fun s r =>
    let o := s.1.QueryInterface env s.2 r.1 r.2
    (o.state, o.trace)) s

/-- Issues the requests in order on a D3D10 proxy device. -/
def D3D10Device.queryAll (env : Env) (s : D3D10Device × Trace)
    (reqs : List Request) : D3D10Device × Trace :=
  reqs.foldl (fun s r =>
    let o := s.1.QueryInterface env s.2 r.1 r.2
    (o.state, o.trace)) s

/-- Issues the requests in order on a D3D11 proxy device.  The third component
becomes `true` when a call faults; no later request is executed then. -/
def D3D11Device.queryAll (env : Env) (s : D3D11Device × Trace × Bool)
    (reqs : List Request) : D3D11Device × Trace × Bool :=
  reqs.foldl (fun s r =>
    if s.2.2 then s
    else
      let o := s.1.QueryInterface env s.2.1 r.1 r.2
      (o.state, o.trace, o.ret.1.isNone)) s

/-- A reference-counting call on a proxy. -/
inductive RefCall where
  | AddRef
  | Release
  deriving DecidableEq, Repr

/-- One reference-counting call on a D3D11 proxy device. -/
def D3D11Device.refCall (env : Env) (s : D3D11Device × Trace) : RefCall → D3D11Device × Trace
  | .AddRef => ((s.1.AddRef env s.2).state, (s.1.AddRef env s.2).trace)
  | .Release => ((s.1.Release env s.2).state, (s.1.Release env s.2).trace)

/-- Issues the calls in order on a D3D11 proxy device; no call is made once the
device or its immediate context has been destroyed. -/
def D3D11Device.refAll (env : Env) (s : D3D11Device × Trace)
    (calls : List RefCall) : D3D11Device × Trace :=
  calls.foldl (fun s c =>
    if s.1.deleted ∨ s.1.mImmediateContext.deleted then s else D3D11Device.refCall env s c) s

/-- One reference-counting call on a D3D10 proxy device. -/
def D3D10Device.refCall (env : Env) (s : D3D10Device × Trace) : RefCall → D3D10Device × Trace
  | .AddRef => ((s.1.AddRef env s.2).state, (s.1.AddRef env s.2).trace)
  | .Release => ((s.1.Release env s.2).state, (s.1.Release env s.2).trace)

/-- Issues the calls in order on a D3D10 proxy device; no call is made once the
device has been destroyed. -/
def D3D10Device.refAll (env : Env) (s : D3D10Device × Trace)
    (calls : List RefCall) : D3D10Device × Trace :=
  calls.foldl (fun s c => if s.1.deleted then s else D3D10Device.refCall env s c) s

/-- One reference-counting call of the application on the immediate context
that a D3D11 proxy device holds. -/
def D3D11Device.contextRefCall (env : Env) (s : D3D11Device × Trace) :
    RefCall → D3D11Device × Trace
  | .AddRef =>
    ({ s.1 with mImmediateContext := (s.1.mImmediateContext.AddRef env s.2).state },
      (s.1.mImmediateContext.AddRef env s.2).trace)
  | .Release =>
    ({ s.1 with mImmediateContext := (s.1.mImmediateContext.Release env s.2).state },
      (s.1.mImmediateContext.Release env s.2).trace)

/-- Issues the calls in order on the immediate context of a D3D11 proxy device;
no call is made once the context has been destroyed. -/
def D3D11Device.contextRefAll (env : Env) (s : D3D11Device × Trace)
    (calls : List RefCall) : D3D11Device × Trace :=
  calls.foldl (fun s c =>
    if s.1.mImmediateContext.deleted then s else D3D11Device.contextRefCall env s c) s

/-! ## Reading a trace -/

/-- The notifications delivered in a trace, with the listener each went to, in
the order of delivery. -/
def Trace.notifications (t : Trace) : List (Addr × Notification) :=
  t.filterMap (fun e => match e with
    | .notify runtime n => some (runtime, n)
    | _ => none)

/-- The requests made to the hook installer in a trace, in order: dispatch
table, slot and replacement function. -/
def Trace.installs (t : Trace) : List (Addr × Nat × HookFunction) :=
  t.filterMap (fun e => match e with
    | .Install vtable slot replacement => some (vtable, slot, replacement)
    | _ => none)

/-- The view a `CreateDepthStencilView` call created, read from its result: the
content of the output slot when the result code is a success. -/
def createdView (ret : HRESULT × Ptr) : List Addr :=
  if SUCCEEDED ret.1 then ret.2.toList else []

/-- Issues `CreateDepthStencilView` calls in order on a D3D11 proxy device, each
with its resource, descriptor and output pointer, and collects the views
created. -/
def D3D11Device.createAll (env : Env) (s : D3D11Device × Trace × List Addr)
    (requests : List (Ptr × Ptr × Option Ptr)) : D3D11Device × Trace × List Addr :=
  requests.foldl (fun s r =>
    ((s.1.CreateDepthStencilView env s.2.1 r.1 r.2.1 r.2.2).state,
      (s.1.CreateDepthStencilView env s.2.1 r.1 r.2.1 r.2.2).trace,
      s.2.2 ++ createdView (s.1.CreateDepthStencilView env s.2.1 r.1 r.2.1 r.2.2).ret)) s

/-- Issues `CreateDepthStencilView` calls in order on a D3D10 proxy device and
collects the views created. -/
def D3D10Device.createAll (env : Env) (s : D3D10Device × Trace × List Addr)
    (requests : List (Ptr × Ptr × Option Ptr)) : D3D10Device × Trace × List Addr :=
  requests.foldl (fun s r =>
    ((s.1.CreateDepthStencilView env s.2.1 r.1 r.2.1 r.2.2).state,
      (s.1.CreateDepthStencilView env s.2.1 r.1 r.2.1 r.2.2).trace,
      s.2.2 ++ createdView (s.1.CreateDepthStencilView env s.2.1 r.1 r.2.1 r.2.2).ret)) s

/-- Property `P` holds of the object at the end of a block, unless the block
faulted. -/
def Flow.holds {σ : Type} (P : σ → Prop) : Flow σ → Prop
  | .next s _ => P s
  | .ret s _ _ => P s
  | .fault _ _ => True

/-- The immediate context of a D3D11 proxy device is at least at the device's
revision. -/
def D3D11Device.contextAhead (d : D3D11Device) : Prop :=
  d.mInterfaceVersion ≤ d.mImmediateContext.mInterfaceVersion

/-! ## Draws, copies and forwarded methods of the context -/

namespace D3D11DeviceContext

/-- Source `D3D11DeviceContext::GetDevice` (D3D11.cpp:173-183).  `device` is the
proxy device `this->mDevice` points to; the result is the output slot
afterwards, `none` for a null `ppDevice`. -/
def GetDevice (env : Env) (self : D3D11DeviceContext) (device : D3D11Device) (t : Trace)
    (ppDevice : Option Ptr) : Out D3D11Device (Option Ptr) :=
  match ppDevice with
  | none => ⟨device, t, none⟩
  | some _ =>
    let r := device.AddRef env t
    ⟨r.state, r.trace, some (some self.mDevice)⟩

/-- The body `this->mOrig->M(p1, ..., pn)` of a method `M` listed in `Method`,
called with the arguments `args`.  The result is the answer of the real call,
of which a method returns the field of its return type (nothing when it is
`void`). -/
def forward (env : Env) (self : D3D11DeviceContext) (t : Trace) (method : Method)
    (args : List Arg) : Out D3D11DeviceContext Answer :=
  let e := Event.call self.mOrig method args
  ⟨self, t ++ [e], env.answer t e⟩

/-- Source `D3D11DeviceContext::DrawIndexed` (D3D11.cpp:216-224). -/
def DrawIndexed (self : D3D11DeviceContext) (device : D3D11Device) (t : Trace)
    (IndexCount : Nat) (StartIndexLocation : Nat) (BaseVertexLocation : Int) : Trace :=
  let t := t ++ device.mRuntimes.map
    (fun runtime => Event.notify runtime (.OnDrawCall self.mOrig IndexCount))
  t ++ [Event.DrawIndexed self.mOrig IndexCount StartIndexLocation BaseVertexLocation]

/-- Source `D3D11DeviceContext::Draw` (D3D11.cpp:225-233). -/
def Draw (self : D3D11DeviceContext) (device : D3D11Device) (t : Trace)
    (VertexCount : Nat) (StartVertexLocation : Nat) : Trace :=
  let t := t ++ device.mRuntimes.map
    (fun runtime => Event.notify runtime (.OnDrawCall self.mOrig VertexCount))
  t ++ [Event.Draw self.mOrig VertexCount StartVertexLocation]

/-- Source `D3D11DeviceContext::DrawAuto` (D3D11.cpp:356-359). -/
def DrawAuto (self : D3D11DeviceContext) (t : Trace) : Trace :=
  t ++ [Event.call self.mOrig .DrawAuto []]

/-- Source `D3D11DeviceContext::DrawIndexedInstancedIndirect`
(D3D11.cpp:360-363). -/
def DrawIndexedInstancedIndirect (self : D3D11DeviceContext) (t : Trace)
    (pBufferForArgs : Ptr) (AlignedByteOffsetForArgs : Nat) : Trace :=
  t ++ [Event.call self.mOrig .DrawIndexedInstancedIndirect
    [.pointer pBufferForArgs, .word AlignedByteOffsetForArgs]]

/-- Source `D3D11DeviceContext::DrawInstancedIndirect` (D3D11.cpp:364-367). -/
def DrawInstancedIndirect (self : D3D11DeviceContext) (t : Trace)
    (pBufferForArgs : Ptr) (AlignedByteOffsetForArgs : Nat) : Trace :=
  t ++ [Event.call self.mOrig .DrawInstancedIndirect
    [.pointer pBufferForArgs, .word AlignedByteOffsetForArgs]]

/-- Source `D3D11DeviceContext::CopySubresourceRegion` (D3D11.cpp:388-391). -/
def CopySubresourceRegion (self : D3D11DeviceContext) (t : Trace) (pDstResource : Ptr)
    (DstSubresource : Nat) (DstX : Nat) (DstY : Nat) (DstZ : Nat) (pSrcResource : Ptr)
    (SrcSubresource : Nat) (pSrcBox : Ptr) : Trace :=
  t ++ [Event.call self.mOrig .CopySubresourceRegion
    [.pointer pDstResource, .word DstSubresource, .word DstX, .word DstY, .word DstZ,
      .pointer pSrcResource, .word SrcSubresource, .pointer pSrcBox]]

/-- Source `D3D11DeviceContext::CopyResource` (D3D11.cpp:392-400). -/
def CopyResource (self : D3D11DeviceContext) (device : D3D11Device) (t : Trace)
    (pDstResource : Ptr) (pSrcResource : Ptr) : Trace :=
  let t := t ++ device.mRuntimes.map
    (fun runtime => Event.notify runtime (.OnCopyResource pDstResource pSrcResource))
  t ++ [Event.CopyResource self.mOrig pDstResource pSrcResource]

end D3D11DeviceContext

/-! ## Draws and copies of the D3D10 device -/

namespace D3D10Device

/-- Source `D3D10Device::DrawIndexed` (D3D10.cpp:173-181). -/
def DrawIndexed (self : D3D10Device) (t : Trace)
    (IndexCount : Nat) (StartIndexLocation : Nat) (BaseVertexLocation : Int) : Trace :=
  let t := t ++ self.mRuntimes.map
    (fun runtime => Event.notify runtime (.OnDrawCall10 IndexCount))
  t ++ [Event.DrawIndexed self.mOrig IndexCount StartIndexLocation BaseVertexLocation]

/-- Source `D3D10Device::Draw` (D3D10.cpp:182-190). -/
def Draw (self : D3D10Device) (t : Trace)
    (VertexCount : Nat) (StartVertexLocation : Nat) : Trace :=
  let t := t ++ self.mRuntimes.map
    (fun runtime => Event.notify runtime (.OnDrawCall10 VertexCount))
  t ++ [Event.Draw self.mOrig VertexCount StartVertexLocation]

/-- Source `D3D10Device::DrawAuto` (D3D10.cpp:281-284). -/
def DrawAuto (self : D3D10Device) (t : Trace) : Trace :=
  t ++ [Event.call self.mOrig .DrawAuto []]

/-- Source `D3D10Device::CopySubresourceRegion` (D3D10.cpp:297-300). -/
def CopySubresourceRegion (self : D3D10Device) (t : Trace) (pDstResource : Ptr)
    (DstSubresource : Nat) (DstX : Nat) (DstY : Nat) (DstZ : Nat) (pSrcResource : Ptr)
    (SrcSubresource : Nat) (pSrcBox : Ptr) : Trace :=
  t ++ [Event.call self.mOrig .CopySubresourceRegion
    [.pointer pDstResource, .word DstSubresource, .word DstX, .word DstY, .word DstZ,
      .pointer pSrcResource, .word SrcSubresource, .pointer pSrcBox]]

/-- Source `D3D10Device::CopyResource` (D3D10.cpp:301-309). -/
def CopyResource (self : D3D10Device) (t : Trace)
    (pDstResource : Ptr) (pSrcResource : Ptr) : Trace :=
  let t := t ++ self.mRuntimes.map
    (fun runtime => Event.notify runtime (.OnCopyResource pDstResource pSrcResource))
  t ++ [Event.CopyResource self.mOrig pDstResource pSrcResource]

end D3D10Device

/-! ## Device-creation entry points -/

/-- Value `0xb000` of `D3D_FEATURE_LEVEL_11_0`. -/
def D3D_FEATURE_LEVEL_11_0 : Nat := 45056

/-- Modelled from the spec: the constructor `DXGIDevice(original, device)` of
the proxy extension object, declared in a header that is not part of the
sources.  The spec keeps the extension's internal count in lock-step with the
device's count, which starts at one. -/
def DXGIDevice.construct (addr : Addr) : DXGIDevice :=
  ⟨addr, 1⟩

/-- Modelled from the spec: the constructor `D3D11Device(original)`, declared
in a header that is not part of the sources, followed by the assignment of
`mDXGIDevice` and `mImmediateContext` that the creation function makes right
after it (the record holds both by value).  The spec has a new proxy device
wrap the real device, at the base revision, holding one reference, with no
listener registered yet. -/
def D3D11Device.construct (addr : Addr) (original : Addr) (mDXGIDevice : DXGIDevice)
    (mImmediateContext : D3D11DeviceContext) : D3D11Device :=
  ⟨addr, 1, original, 0, mDXGIDevice, mImmediateContext, [], false⟩

/-- Modelled from the spec: the constructor `D3D10Device(original)` followed by
the assignment of `mDXGIDevice`. -/
def D3D10Device.construct (addr : Addr) (original : Addr) (mDXGIDevice : DXGIDevice) :
    D3D10Device :=
  ⟨addr, 1, original, 0, mDXGIDevice, [], false⟩

/-- Outcome of a creation function: the trace, the result code (`none` when the
call dereferences a null pointer and does not return), the output slots
afterwards (`none` for a null pointer argument) and the proxy device the call
constructed, if any.  The D3D10 functions have no feature-level and no
context output. -/
structure Created (σ : Type) where
  trace : Trace
  hr : Option HRESULT
  ppDevice : Option Ptr
  ppSwapChain : Option Ptr
  pFeatureLevel : Option Nat
  ppImmediateContext : Option Ptr
  proxy : Option σ

/-- The block `if (pSwapChainDesc != nullptr) { ... }`, which the three
creation functions share word for word (D3D11.cpp:1457-1482,
D3D10.cpp:668-693 and 738-763).  The result is the local `hr`, the swap chain
slot and the trace after the block.  `mDXGIDevice` and `deviceProxy` are the
addresses of the proxy extension object and of the proxy device.
`Except.error t` is a fault: `pAdapter` or `factory` is still null where it is
dereferenced. -/
def swapChainBlock (env : Env) (t : Trace) (hr : HRESULT) (pAdapter : Ptr)
    (mDXGIDevice : Addr) (deviceProxy : Addr) (pSwapChainDesc : Ptr)
    (ppSwapChain : Option Ptr) : Except Trace (HRESULT × Option Ptr × Trace) :=
  match pSwapChainDesc with
  | none => .ok (hr, ppSwapChain, t)
  | some _ =>
    let s : Ptr × Trace := match pAdapter with
      | some adapter => (some adapter, t ++ [Event.AddRef .adapter adapter])
      | none =>
        let g := Event.GetAdapter mDXGIDevice
        ((env.answer t g).written, t ++ [g])
    match s.1 with
    | none => .error s.2
    | some adapter =>
      let p := Event.GetParent adapter
      let a := env.answer s.2 p
      let t := s.2 ++ [p]
      match a.written with
      | none => .error t
      | some factory =>
        let c := Event.CreateSwapChain factory deviceProxy pSwapChainDesc ppSwapChain
        let a := env.answer t c
        .ok (a.hr, ppSwapChain.map (fun _ => a.written),
          t ++ [c, Event.Release .factory factory, Event.Release .adapter adapter])

/-- Source `D3D11CreateDeviceAndSwapChain` (D3D11.cpp:1419-1508), release
build.  The real function answers with the real device in `obj` and the
feature level in `count`; `GetImmediateContext` of the real device answers
with its context in `obj`. -/
def D3D11CreateDeviceAndSwapChain (env : Env) (t : Trace) (pAdapter : Ptr) (DriverType : Nat)
    (Software : Ptr) (Flags : Nat) (pFeatureLevels : Ptr) (FeatureLevels : Nat)
    (SDKVersion : Nat) (pSwapChainDesc : Ptr) (ppSwapChain : Option Ptr)
    (ppDevice : Option Ptr) (pFeatureLevel : Option Nat)
    (ppImmediateContext : Option Ptr) : Created D3D11Device :=
  let e := Event.D3D11CreateDeviceAndSwapChain pAdapter DriverType Software Flags
    pFeatureLevels FeatureLevels SDKVersion none none ppDevice (some D3D_FEATURE_LEVEL_11_0) none
  let a := env.answer t e
  let hr := a.hr
  let t := t ++ [e]
  if FAILED hr then
    ⟨t, some hr, ppDevice.map (fun _ => a.written), ppSwapChain, pFeatureLevel,
      ppImmediateContext, none⟩
  else
    let FeatureLevel := a.count
    match ppDevice with
    | none =>
      ⟨t, some hr, none, ppSwapChain, pFeatureLevel.map (fun _ => FeatureLevel),
        ppImmediateContext, none⟩
    | some _ =>
      let device := a.obj
      let q := Event.QueryInterface .device device .IDXGIDevice
      let dxgidevice := (env.answer t q).written
      let t := t ++ [q]
      let g := Event.GetImmediateContext device
      let devicecontext := (env.answer t g).obj
      let t := t ++ [g]
      let n := Event.newD3D11Device device
      let deviceProxy := (env.answer t n).obj
      let t := t ++ [n]
      let n := Event.construct deviceProxy devicecontext
      let devicecontextProxy :=
        D3D11DeviceContext.construct (env.answer t n).obj deviceProxy devicecontext
      let t := t ++ [n]
      let n := Event.newDXGIDevice dxgidevice deviceProxy
      let mDXGIDevice := DXGIDevice.construct (env.answer t n).obj
      let t := t ++ [n]
      let proxy := D3D11Device.construct deviceProxy device mDXGIDevice devicecontextProxy
      match swapChainBlock env t hr pAdapter mDXGIDevice.addr deviceProxy pSwapChainDesc
          ppSwapChain with
      | .error t =>
        ⟨t, none, some (some device), ppSwapChain, pFeatureLevel, ppImmediateContext,
          some proxy⟩
      | .ok (hr, ppSwapChain, t) =>
        if SUCCEEDED hr then
          match ppImmediateContext with
          | some _ =>
            let r := devicecontextProxy.AddRef env t
            ⟨r.trace, some hr, some (some deviceProxy), ppSwapChain,
              pFeatureLevel.map (fun _ => FeatureLevel), some (some devicecontextProxy.addr),
              some { proxy with mImmediateContext := r.state }⟩
          | none =>
            ⟨t, some hr, some (some deviceProxy), ppSwapChain,
              pFeatureLevel.map (fun _ => FeatureLevel), none, some proxy⟩
        else
          let r := proxy.Release env t
          ⟨r.trace, some hr, some (some device), ppSwapChain,
            pFeatureLevel.map (fun _ => FeatureLevel), ppImmediateContext, some r.state⟩

/-- Source `D3D10CreateDeviceAndSwapChain` (D3D10.cpp:639-708), release
build. -/
def D3D10CreateDeviceAndSwapChain (env : Env) (t : Trace) (pAdapter : Ptr) (DriverType : Nat)
    (Software : Ptr) (Flags : Nat) (SDKVersion : Nat) (pSwapChainDesc : Ptr)
    (ppSwapChain : Option Ptr) (ppDevice : Option Ptr) : Created D3D10Device :=
  let e := Event.D3D10CreateDeviceAndSwapChain pAdapter DriverType Software Flags SDKVersion
    none none ppDevice
  let a := env.answer t e
  let hr := a.hr
  let t := t ++ [e]
  if FAILED hr then
    ⟨t, some hr, ppDevice.map (fun _ => a.written), ppSwapChain, none, none, none⟩
  else
    match ppDevice with
    | none => ⟨t, some hr, none, ppSwapChain, none, none, none⟩
    | some _ =>
      let device := a.obj
      let q := Event.QueryInterface .device device .IDXGIDevice
      let dxgidevice := (env.answer t q).written
      let t := t ++ [q]
      let n := Event.newD3D10Device device
      let deviceProxy := (env.answer t n).obj
      let t := t ++ [n]
      let n := Event.newDXGIDevice dxgidevice deviceProxy
      let mDXGIDevice := DXGIDevice.construct (env.answer t n).obj
      let t := t ++ [n]
      let proxy := D3D10Device.construct deviceProxy device mDXGIDevice
      match swapChainBlock env t hr pAdapter mDXGIDevice.addr deviceProxy pSwapChainDesc
          ppSwapChain with
      | .error t => ⟨t, none, some (some device), ppSwapChain, none, none, some proxy⟩
      | .ok (hr, ppSwapChain, t) =>
        if SUCCEEDED hr then
          ⟨t, some hr, some (some deviceProxy), ppSwapChain, none, none, some proxy⟩
        else
          let r := proxy.Release env t
          ⟨r.trace, some hr, some (some device), ppSwapChain, none, none, some r.state⟩

/-- Source `D3D10CreateDeviceAndSwapChain1` (D3D10.cpp:709-778), release
build. -/
def D3D10CreateDeviceAndSwapChain1 (env : Env) (t : Trace) (pAdapter : Ptr)
    (DriverType : Nat) (Software : Ptr) (Flags : Nat) (HardwareLevel : Nat)
    (SDKVersion : Nat) (pSwapChainDesc : Ptr) (ppSwapChain : Option Ptr)
    (ppDevice : Option Ptr) : Created D3D10Device :=
  let e := Event.D3D10CreateDeviceAndSwapChain1 pAdapter DriverType Software Flags
    HardwareLevel SDKVersion none none ppDevice
  let a := env.answer t e
  let hr := a.hr
  let t := t ++ [e]
  if FAILED hr then
    ⟨t, some hr, ppDevice.map (fun _ => a.written), ppSwapChain, none, none, none⟩
  else
    match ppDevice with
    | none => ⟨t, some hr, none, ppSwapChain, none, none, none⟩
    | some _ =>
      let device := a.obj
      let q := Event.QueryInterface .device device .IDXGIDevice
      let dxgidevice := (env.answer t q).written
      let t := t ++ [q]
      let n := Event.newD3D10Device device
      let deviceProxy := (env.answer t n).obj
      let t := t ++ [n]
      let n := Event.newDXGIDevice dxgidevice deviceProxy
      let mDXGIDevice := DXGIDevice.construct (env.answer t n).obj
      let t := t ++ [n]
      let proxy := D3D10Device.construct deviceProxy device mDXGIDevice
      match swapChainBlock env t hr pAdapter mDXGIDevice.addr deviceProxy pSwapChainDesc
          ppSwapChain with
      | .error t => ⟨t, none, some (some device), ppSwapChain, none, none, some proxy⟩
      | .ok (hr, ppSwapChain, t) =>
        if SUCCEEDED hr then
          ⟨t, some hr, some (some deviceProxy), ppSwapChain, none, none, some proxy⟩
        else
          let r := proxy.Release env t
          ⟨r.trace, some hr, some (some device), ppSwapChain, none, none, some r.state⟩

/-- Source `D3D11CreateDevice` (D3D11.cpp:1412-1418). -/
def D3D11CreateDevice (env : Env) (t : Trace) (pAdapter : Ptr) (DriverType : Nat)
    (Software : Ptr) (Flags : Nat) (pFeatureLevels : Ptr) (FeatureLevels : Nat)
    (SDKVersion : Nat) (ppDevice : Option Ptr) (pFeatureLevel : Option Nat)
    (ppImmediateContext : Option Ptr) : Created D3D11Device :=
  D3D11CreateDeviceAndSwapChain env t pAdapter DriverType Software Flags pFeatureLevels
    FeatureLevels SDKVersion none none ppDevice pFeatureLevel ppImmediateContext

/-- Source `D3D10CreateDevice` (D3D10.cpp:625-631). -/
def D3D10CreateDevice (env : Env) (t : Trace) (pAdapter : Ptr) (DriverType : Nat)
    (Software : Ptr) (Flags : Nat) (SDKVersion : Nat) (ppDevice : Option Ptr) :
    Created D3D10Device :=
  D3D10CreateDeviceAndSwapChain env t pAdapter DriverType Software Flags SDKVersion none none
    ppDevice

/-- Source `D3D10CreateDevice1` (D3D10.cpp:632-638). -/
def D3D10CreateDevice1 (env : Env) (t : Trace) (pAdapter : Ptr) (DriverType : Nat)
    (Software : Ptr) (Flags : Nat) (HardwareLevel : Nat) (SDKVersion : Nat)
    (ppDevice : Option Ptr) : Created D3D10Device :=
  D3D10CreateDeviceAndSwapChain1 env t pAdapter DriverType Software Flags HardwareLevel
    SDKVersion none none ppDevice

/-! ## Sample objects -/

/-- Environment whose every call succeeds with `S_OK`, hands out object 500,
reports count 1 and stores view 500 in a getter's slot. -/
def Sample.granting : Env := ⟨fun _ _ => ⟨S_OK, 500, 1, some 500⟩, fun obj => obj + 1000, 8⟩

/-- Environment whose every call fails with `E_NOINTERFACE` and reports
count 1. -/
def Sample.refusing : Env := ⟨fun _ _ => ⟨E_NOINTERFACE, 0, 1, none⟩, fun obj => obj + 1000, 8⟩

/-- Environment whose every call succeeds and reports count 0. -/
def Sample.reportingZero : Env := ⟨fun _ _ => ⟨S_OK, 500, 0, none⟩, fun obj => obj + 1000, 8⟩

/-- Proxy context at revision 0 holding one reference. -/
def Sample.context : D3D11DeviceContext := ⟨20, 1, 10, 21, 0, false⟩

/-- D3D11 proxy device at revision 0 holding one reference, with listeners
101 and 102 registered in that order. -/
def Sample.device : D3D11Device := ⟨10, 1, 11, 0, ⟨30, 1⟩, Sample.context, [101, 102], false⟩

/-- D3D10 proxy device at revision 0 holding one reference, with listeners
101 and 102 registered in that order. -/
def Sample.device10 : D3D10Device := ⟨10, 1, 11, 0, ⟨30, 1⟩, [101, 102], false⟩

/-- Proxy context holding two references. -/
def Sample.contextTwice : D3D11DeviceContext := ⟨20, 2, 10, 21, 0, false⟩

/-- D3D11 proxy device holding two references. -/
def Sample.deviceTwice : D3D11Device :=
  ⟨10, 2, 11, 0, ⟨30, 2⟩, Sample.contextTwice, [101, 102], false⟩

/-- D3D10 proxy device holding two references. -/
def Sample.device10Twice : D3D10Device := ⟨10, 2, 11, 0, ⟨30, 2⟩, [101, 102], false⟩

/-- Environment whose every call fails with `E_INVALIDARG`. -/
def Sample.rejecting : Env := ⟨fun _ _ => ⟨E_INVALIDARG, 0, 1, none⟩, fun obj => obj + 1000, 8⟩

/-- Environment in which a tag read on a view succeeds with the address of the
sample devices and every `Release` reports 0. -/
def Sample.tagged : Env := ⟨fun _ _ => ⟨S_OK, 10, 0, none⟩, fun obj => obj + 1000, 8⟩

/-- Environment whose getters store `nullptr`: nothing is bound. -/
def Sample.nothingBound : Env := ⟨fun _ _ => ⟨S_OK, 500, 1, none⟩, fun obj => obj + 1000, 8⟩

/-- D3D11 proxy device at revision 3. -/
def Sample.device3 : D3D11Device :=
  ⟨10, 1, 11, 3, ⟨30, 1⟩, ⟨20, 1, 10, 21, 3, false⟩, [101, 102], false⟩

/-- D3D10 proxy device at revision 1, wrapping real device 12. -/
def Sample.device10Rev1 : D3D10Device := ⟨10, 1, 12, 1, ⟨30, 1⟩, [101, 102], false⟩

/-- Environment that keeps a reference count for each view, starting at 1:
the original release of a view reports the count it leaves.  A tag read
succeeds with the address of the sample devices; every other call succeeds,
hands out object 500 and reports count 1. -/
def Sample.counting : Env :=
  ⟨fun t e => match e with
    | .GetPrivateData _ _ _ => ⟨S_OK, 10, 0, none⟩
    | .trampolineRelease v => ⟨S_OK, 0, (viewNet v t).toNat, none⟩
    | _ => ⟨S_OK, 500, 1, none⟩,
   fun obj => obj + 1000, 8⟩

/-- The sample D3D11 device after it created view 500 from resource 7. -/
def Sample.created : Out D3D11Device (HRESULT × Ptr) :=
  Sample.device.CreateDepthStencilView Sample.counting [] (some 7) none (some none)

/-- The sample D3D10 device after it created view 500 from resource 7. -/
def Sample.created10 : Out D3D10Device (HRESULT × Ptr) :=
  Sample.device10.CreateDepthStencilView Sample.counting [] (some 7) none (some none)

/-- Sample environment in which a view accepts no private data: attaching the
tag and reading it fail with `E_INVALIDARG`.  The original release of a view
reports 0; every other call succeeds, hands out object 500 and reports
count 1. -/
def Sample.untagged : Env :=
  ⟨fun _ e => match e with
    | .SetPrivateData _ _ _ _ => ⟨E_INVALIDARG, 0, 0, none⟩
    | .GetPrivateData _ _ _ => ⟨E_INVALIDARG, 0, 0, none⟩
    | .trampolineRelease _ => ⟨S_OK, 0, 0, none⟩
    | _ => ⟨S_OK, 500, 1, none⟩,
   fun obj => obj + 1000, 8⟩

/-- Sample environment in which all views share the dispatch table 9000.  The
view a creation hands out is numbered after the calls made so far, so that
successive creations give distinct views; every call succeeds and reports
count 1. -/
def Sample.sharedTable : Env :=
  ⟨fun t _ => ⟨S_OK, 500 + t.length, 1, none⟩, fun _ => 9000, 8⟩

/-- Sample environment whose real context refuses every interface query; every
other call succeeds, hands out object 500 and reports count 1. -/
def Sample.contextRefusing : Env :=
  ⟨fun _ e => match e with
    | .QueryInterface .context _ _ => ⟨E_NOINTERFACE, 0, 1, none⟩
    | _ => ⟨S_OK, 500, 1, none⟩,
   fun obj => obj + 1000, 8⟩

/-! ## Lemmas on the upgrade regions -/

theorem context_upgradeRegion_ok_tag_le {env : Env} {self s : D3D11DeviceContext}
    {t u : Trace} {riid iid : IID} {k : Nat}
    (h : self.upgradeRegion env t riid iid k = .ok (s, u)) :
    self.mInterfaceVersion ≤ s.mInterfaceVersion := by
  unfold D3D11DeviceContext.upgradeRegion at h
  split at h
  · rename_i hc
    dsimp only at h
    split at h
    · cases h
    · simp only [Except.ok.injEq, Prod.mk.injEq] at h
      rw [← h.1]
      exact Nat.le_of_lt hc.2
  · simp only [Except.ok.injEq, Prod.mk.injEq] at h
    rw [h.1]

theorem context_QueryInterface_tag_le (env : Env) (self : D3D11DeviceContext)
    (t : Trace) (riid : IID) (ppvObj : Option Ptr) :
    self.mInterfaceVersion ≤ (self.QueryInterface env t riid ppvObj).state.mInterfaceVersion := by
  unfold D3D11DeviceContext.QueryInterface
  split
  · exact Nat.le_refl _
  · split
    · split
      · exact Nat.le_refl _
      · rename_i s1 t1 h1
        have l1 := context_upgradeRegion_ok_tag_le h1
        split
        · exact l1
        · rename_i s2 t2 h2
          have l2 := context_upgradeRegion_ok_tag_le h2
          split
          · exact Nat.le_trans l1 l2
          · rename_i s3 t3 h3
            have l3 := context_upgradeRegion_ok_tag_le h3
            exact Nat.le_trans l1 (Nat.le_trans l2 l3)
    · exact Nat.le_refl _

theorem device10_upgradeRegion_ok_tag_le {env : Env} {self s : D3D10Device}
    {t u : Trace} {riid : IID}
    (h : self.upgradeRegion env t riid = .ok (s, u)) :
    self.mInterfaceVersion ≤ s.mInterfaceVersion := by
  unfold D3D10Device.upgradeRegion at h
  split at h
  · rename_i hc
    dsimp only at h
    split at h
    · cases h
    · simp only [Except.ok.injEq, Prod.mk.injEq] at h
      rw [← h.1]
      exact Nat.le_of_lt hc.2
  · simp only [Except.ok.injEq, Prod.mk.injEq] at h
    rw [h.1]

theorem device10_QueryInterface_tag_le (env : Env) (self : D3D10Device)
    (t : Trace) (riid : IID) (ppvObj : Option Ptr) :
    self.mInterfaceVersion ≤ (self.QueryInterface env t riid ppvObj).state.mInterfaceVersion := by
  unfold D3D10Device.QueryInterface
  split
  · exact Nat.le_refl _
  · split
    · split
      · exact Nat.le_refl _
      · rename_i s1 t1 h1
        exact Nat.le_trans (device10_upgradeRegion_ok_tag_le h1) (Nat.le_refl _)
    · split
      · exact Nat.le_refl _
      · exact Nat.le_refl _

theorem device11_upgradeRegion_tag_le (env : Env) (self : D3D11Device) (t : Trace)
    (riid iidDevice iidContext : IID) (k : Nat) :
    self.mInterfaceVersion ≤
      (self.upgradeRegion env t riid iidDevice iidContext k).state.mInterfaceVersion := by
  unfold D3D11Device.upgradeRegion
  split
  · rename_i hc
    dsimp only
    split
    · exact Nat.le_refl _
    · split
      · exact Nat.le_of_lt hc.2
      · exact Nat.le_of_lt hc.2
  · exact Nat.le_refl _

theorem flow_andThen_state_le {σ : Type} (ver : σ → Nat) (f : Flow σ) (k : σ → Trace → Flow σ)
    (n : Nat) (hf : n ≤ ver f.state) (hk : ∀ s t, ver s ≤ ver (k s t).state) :
    n ≤ ver (f.andThen k).state := by
  cases f with
  | next s t => exact Nat.le_trans hf (hk s t)
  | ret s t hr => exact hf
  | fault s t => exact hf

theorem device11_QueryInterface_tag_le (env : Env) (self : D3D11Device)
    (t : Trace) (riid : IID) (ppvObj : Option Ptr) :
    self.mInterfaceVersion ≤ (self.QueryInterface env t riid ppvObj).state.mInterfaceVersion := by
  unfold D3D11Device.QueryInterface
  split
  · exact Nat.le_refl _
  · split
    · have h := flow_andThen_state_le D3D11Device.mInterfaceVersion _
        (fun s t => D3D11Device.upgradeRegion env s t riid .ID3D11Device3 .ID3D11DeviceContext3 3)
        self.mInterfaceVersion
        (flow_andThen_state_le D3D11Device.mInterfaceVersion
          (D3D11Device.upgradeRegion env self t riid .ID3D11Device1 .ID3D11DeviceContext1 1)
          (fun s t => D3D11Device.upgradeRegion env s t riid .ID3D11Device2 .ID3D11DeviceContext2 2)
          self.mInterfaceVersion (device11_upgradeRegion_tag_le env self t riid _ _ 1)
          (fun s t => device11_upgradeRegion_tag_le env s t riid _ _ 2))
        (fun s t => device11_upgradeRegion_tag_le env s t riid _ _ 3)
      split
      · rename_i s u heq
        rw [heq] at h
        exact h
      · rename_i s u hr heq
        rw [heq] at h
        exact h
      · rename_i s u heq
        rw [heq] at h
        exact h
    · split
      · exact Nat.le_refl _
      · exact Nat.le_refl _

/-! ## Requests for a revision that is already held -/

theorem context_QueryInterface_held (env : Env) (c : D3D11DeviceContext) (t : Trace)
    (k : Nat) (slot : Ptr) (h : k ≤ c.mInterfaceVersion) :
    c.QueryInterface env t (D3D11DeviceContext.revision k) (some slot) =
      ⟨(c.AddRef env t).state, (c.AddRef env t).trace, (S_OK, some c.addr)⟩ := by
  match k, h with
  | 0, h => simp [D3D11DeviceContext.QueryInterface, D3D11DeviceContext.upgradeRegion,
      D3D11DeviceContext.revision]
  | 1, h =>
    have h1 : ¬ c.mInterfaceVersion < 1 := by omega
    simp [D3D11DeviceContext.QueryInterface, D3D11DeviceContext.upgradeRegion,
      D3D11DeviceContext.revision, h1]
  | 2, h =>
    have h1 : ¬ c.mInterfaceVersion < 2 := by omega
    simp [D3D11DeviceContext.QueryInterface, D3D11DeviceContext.upgradeRegion,
      D3D11DeviceContext.revision, h1]
  | n + 3, h =>
    have h1 : ¬ c.mInterfaceVersion < 3 := by omega
    simp [D3D11DeviceContext.QueryInterface, D3D11DeviceContext.upgradeRegion,
      D3D11DeviceContext.revision, h1]

theorem device11_QueryInterface_held (env : Env) (d : D3D11Device) (t : Trace)
    (k : Nat) (slot : Ptr) (h : k ≤ d.mInterfaceVersion) :
    d.QueryInterface env t (D3D11Device.revision k) (some slot) =
      ⟨(d.AddRef env t).state, (d.AddRef env t).trace, (some S_OK, some d.addr)⟩ := by
  match k, h with
  | 0, h => simp [D3D11Device.QueryInterface, D3D11Device.upgradeRegion, Flow.andThen,
      D3D11Device.revision]
  | 1, h =>
    have h1 : ¬ d.mInterfaceVersion < 1 := by omega
    simp [D3D11Device.QueryInterface, D3D11Device.upgradeRegion, Flow.andThen,
      D3D11Device.revision, h1]
  | 2, h =>
    have h1 : ¬ d.mInterfaceVersion < 2 := by omega
    simp [D3D11Device.QueryInterface, D3D11Device.upgradeRegion, Flow.andThen,
      D3D11Device.revision, h1]
  | n + 3, h =>
    have h1 : ¬ d.mInterfaceVersion < 3 := by omega
    simp [D3D11Device.QueryInterface, D3D11Device.upgradeRegion, Flow.andThen,
      D3D11Device.revision, h1]

theorem device10_QueryInterface_held (env : Env) (d : D3D10Device) (t : Trace)
    (k : Nat) (slot : Ptr) (h : k ≤ d.mInterfaceVersion) :
    d.QueryInterface env t (D3D10Device.revision k) (some slot) =
      ⟨(d.AddRef env t).state, (d.AddRef env t).trace, (S_OK, some d.addr)⟩ := by
  match k, h with
  | 0, h => simp [D3D10Device.QueryInterface, D3D10Device.upgradeRegion,
      D3D10Device.revision]
  | n + 1, h =>
    have h1 : ¬ d.mInterfaceVersion < 1 := by omega
    simp [D3D10Device.QueryInterface, D3D10Device.upgradeRegion,
      D3D10Device.revision, h1]

/-! ## Calls issued by the context on behalf of the device -/

theorem context_AddRef_trace (env : Env) (c : D3D11DeviceContext) (t : Trace) :
    (c.AddRef env t).trace = t ++ [.AddRef .context c.mOrig] := rfl

theorem context_Release_trace (env : Env) (c : D3D11DeviceContext) (t : Trace) :
    (c.Release env t).trace = t ++ [.Release .context c.mOrig] := by
  unfold D3D11DeviceContext.Release
  dsimp only
  repeat' split
  all_goals rfl

theorem device11_upgradeRegion_other (env : Env) (d : D3D11Device) (t : Trace)
    {riid iidDevice : IID} (iidContext : IID) (k : Nat) (h : riid ≠ iidDevice) :
    d.upgradeRegion env t riid iidDevice iidContext k = .next d t := by
  simp [D3D11Device.upgradeRegion, h]

theorem device11_QueryInterface_revision (env : Env) (d : D3D11Device) (t : Trace)
    (k : Nat) (slot : Ptr) (h1 : 1 ≤ k) (h3 : k ≤ 3) :
    d.QueryInterface env t (D3D11Device.revision k) (some slot) =
      match d.upgradeRegion env t (D3D11Device.revision k) (D3D11Device.revision k)
          (D3D11DeviceContext.revision k) k with
      | .next s u => ⟨(s.AddRef env u).state, (s.AddRef env u).trace, (some S_OK, some d.addr)⟩
      | .ret s u hr => ⟨s, u, (some hr, slot)⟩
      | .fault s u => ⟨s, u, (none, slot)⟩ := by
  have hk : k = 1 ∨ k = 2 ∨ k = 3 := by omega
  rcases hk with rfl | rfl | rfl
  · simp only [D3D11Device.QueryInterface, D3D11Device.revision, D3D11DeviceContext.revision]
    rcases hr : d.upgradeRegion env t .ID3D11Device1 .ID3D11Device1 .ID3D11DeviceContext1 1
      with ⟨s, u⟩ | ⟨s, u, hr⟩ | ⟨s, u⟩ <;>
      simp [Flow.andThen, device11_upgradeRegion_other]
  · simp only [D3D11Device.QueryInterface, D3D11Device.revision, D3D11DeviceContext.revision]
    rcases hr : d.upgradeRegion env t .ID3D11Device2 .ID3D11Device2 .ID3D11DeviceContext2 2
      with ⟨s, u⟩ | ⟨s, u, hr⟩ | ⟨s, u⟩ <;>
      simp [Flow.andThen, device11_upgradeRegion_other, hr]
  · simp only [D3D11Device.QueryInterface, D3D11Device.revision, D3D11DeviceContext.revision]
    rcases hr : d.upgradeRegion env t .ID3D11Device3 .ID3D11Device3 .ID3D11DeviceContext3 3
      with ⟨s, u⟩ | ⟨s, u, hr⟩ | ⟨s, u⟩ <;>
      simp [Flow.andThen, device11_upgradeRegion_other, hr]

/-! ## Interface-version tag -/

/-- C1: on each of the three proxies (context, D3D11 device, D3D10 device), for
every environment, every starting state and every finite sequence of
`QueryInterface` requests (any interface id, null or non-null output pointer),
one more request never lowers `mInterfaceVersion`: the tag after the call is at
least the tag before it. -/
theorem tag_monotone_under_QueryInterface (env : Env) :
    (∀ (c : D3D11DeviceContext) (t : Trace) (reqs : List Request) (req : Request),
      (D3D11DeviceContext.queryAll env (c, t) reqs).1.mInterfaceVersion ≤
        (D3D11DeviceContext.queryAll env (c, t) (reqs ++ [req])).1.mInterfaceVersion) ∧
    (∀ (d : D3D11Device) (t : Trace) (reqs : List Request) (req : Request),
      (D3D11Device.queryAll env (d, t, false) reqs).1.mInterfaceVersion ≤
        (D3D11Device.queryAll env (d, t, false) (reqs ++ [req])).1.mInterfaceVersion) ∧
    (∀ (d : D3D10Device) (t : Trace) (reqs : List Request) (req : Request),
      (D3D10Device.queryAll env (d, t) reqs).1.mInterfaceVersion ≤
        (D3D10Device.queryAll env (d, t) (reqs ++ [req])).1.mInterfaceVersion) := by
  refine ⟨?_, ?_, ?_⟩
  · intro c t reqs req
    simp only [D3D11DeviceContext.queryAll, List.foldl_append, List.foldl_cons, List.foldl_nil]
    exact context_QueryInterface_tag_le env _ _ _ _
  · intro d t reqs req
    simp only [D3D11Device.queryAll, List.foldl_append, List.foldl_cons, List.foldl_nil]
    split
    · exact Nat.le_refl _
    · exact device11_QueryInterface_tag_le env _ _ _ _
  · intro d t reqs req
    simp only [D3D10Device.queryAll, List.foldl_append, List.foldl_cons, List.foldl_nil]
    exact device10_QueryInterface_tag_le env _ _ _ _

/-- C2: on the context, the D3D11 device and the D3D10 device, a
`QueryInterface` request with an output slot that names a revision `k` above
the current tag, when the real object fails the upgrade query, returns
`E_NOINTERFACE`, leaves the slot as it was, leaves the whole proxy record
unchanged (tag, `mOrig`, `mRef`, and for a device its extension object and
immediate context), and issues no call but that one query: the real object is
not released. -/
theorem refused_upgrade_leaves_state (env : Env) :
    (∀ (c : D3D11DeviceContext) (t : Trace) (k : Nat) (slot : Ptr), k ≤ 3 →
      c.mInterfaceVersion < k →
      FAILED (env.answer t (.QueryInterface .context c.mOrig
        (D3D11DeviceContext.revision k))).hr = true →
      (c.QueryInterface env t (D3D11DeviceContext.revision k) (some slot)).ret
          = (E_NOINTERFACE, slot) ∧
        (c.QueryInterface env t (D3D11DeviceContext.revision k) (some slot)).state = c ∧
        (c.QueryInterface env t (D3D11DeviceContext.revision k) (some slot)).trace
          = t ++ [.QueryInterface .context c.mOrig (D3D11DeviceContext.revision k)]) ∧
    (∀ (d : D3D11Device) (t : Trace) (k : Nat) (slot : Ptr), k ≤ 3 →
      d.mInterfaceVersion < k →
      FAILED (env.answer t (.QueryInterface .device d.mOrig
        (D3D11Device.revision k))).hr = true →
      (d.QueryInterface env t (D3D11Device.revision k) (some slot)).ret
          = (some E_NOINTERFACE, slot) ∧
        (d.QueryInterface env t (D3D11Device.revision k) (some slot)).state = d ∧
        (d.QueryInterface env t (D3D11Device.revision k) (some slot)).trace
          = t ++ [.QueryInterface .device d.mOrig (D3D11Device.revision k)]) ∧
    (∀ (d : D3D10Device) (t : Trace) (k : Nat) (slot : Ptr), k ≤ 1 →
      d.mInterfaceVersion < k →
      FAILED (env.answer t (.QueryInterface .device d.mOrig
        (D3D10Device.revision k))).hr = true →
      (d.QueryInterface env t (D3D10Device.revision k) (some slot)).ret
          = (E_NOINTERFACE, slot) ∧
        (d.QueryInterface env t (D3D10Device.revision k) (some slot)).state = d ∧
        (d.QueryInterface env t (D3D10Device.revision k) (some slot)).trace
          = t ++ [.QueryInterface .device d.mOrig (D3D10Device.revision k)]) := by
  refine ⟨?_, ?_, ?_⟩
  · intro c t k slot hk hlt hfail
    have hk' : k = 1 ∨ k = 2 ∨ k = 3 := by omega
    rcases hk' with rfl | rfl | rfl <;>
    · simp [D3D11DeviceContext.revision] at hfail
      simp [D3D11DeviceContext.QueryInterface, D3D11DeviceContext.upgradeRegion,
        D3D11DeviceContext.revision, hlt, hfail]
  · intro d t k slot hk hlt hfail
    have hk' : k = 1 ∨ k = 2 ∨ k = 3 := by omega
    rcases hk' with rfl | rfl | rfl <;>
    · simp [D3D11Device.revision] at hfail
      simp [D3D11Device.QueryInterface, D3D11Device.upgradeRegion, Flow.andThen,
        D3D11Device.revision, hlt, hfail]
  · intro d t k slot hk hlt hfail
    have hk' : k = 1 := by omega
    subst hk'
    simp [D3D10Device.revision] at hfail
    simp [D3D10Device.QueryInterface, D3D10Device.upgradeRegion,
      D3D10Device.revision, hlt, hfail]

/-- Witness of C2 on the three sample proxies at revision 0, refused
revision 1. -/
theorem refused_upgrade_leaves_state_witness :
    ((Sample.context.QueryInterface Sample.refusing [] .ID3D11DeviceContext1 (some none)).ret
        = (E_NOINTERFACE, none) ∧
      (Sample.context.QueryInterface Sample.refusing [] .ID3D11DeviceContext1 (some none)).state
        = Sample.context) ∧
    ((Sample.device.QueryInterface Sample.refusing [] .ID3D11Device1 (some none)).ret
        = (some E_NOINTERFACE, none) ∧
      (Sample.device.QueryInterface Sample.refusing [] .ID3D11Device1 (some none)).state
        = Sample.device) ∧
    ((Sample.device10.QueryInterface Sample.refusing [] .ID3D10Device1 (some none)).ret
        = (E_NOINTERFACE, none) ∧
      (Sample.device10.QueryInterface Sample.refusing [] .ID3D10Device1 (some none)).state
        = Sample.device10) :=
  have h := refused_upgrade_leaves_state Sample.refusing
  have hc := h.1 Sample.context [] 1 none (by decide) (by decide) (by decide)
  have hd := h.2.1 Sample.device [] 1 none (by decide) (by decide) (by decide)
  have hx := h.2.2 Sample.device10 [] 1 none (by decide) (by decide) (by decide)
  ⟨⟨hc.1, hc.2.1⟩, ⟨hd.1, hd.2.1⟩, ⟨hx.1, hx.2.1⟩⟩

/-- C4: on the context, the D3D11 device and the D3D10 device, a
`QueryInterface` request with an output slot for a family revision `k` that is
at or below the current tag returns `S_OK` with the proxy itself in the slot,
leaves the tag and `mOrig` unchanged, and issues no interface query: the only
calls made are the `AddRef` calls of the proxy's own `AddRef`.  Issuing the same
request a second time leaves the same tag and `mOrig` as issuing it once. -/
theorem held_revision_request_idempotent (env : Env) :
    (∀ (c : D3D11DeviceContext) (t : Trace) (k : Nat) (slot slot2 : Ptr),
      k ≤ c.mInterfaceVersion →
      (c.QueryInterface env t (D3D11DeviceContext.revision k) (some slot)).ret
          = (S_OK, some c.addr) ∧
        (c.QueryInterface env t (D3D11DeviceContext.revision k) (some slot)).trace
          = t ++ [.AddRef .context c.mOrig] ∧
        (c.QueryInterface env t (D3D11DeviceContext.revision k) (some slot)).state.mInterfaceVersion
          = c.mInterfaceVersion ∧
        (c.QueryInterface env t (D3D11DeviceContext.revision k) (some slot)).state.mOrig
          = c.mOrig ∧
        ((c.QueryInterface env t (D3D11DeviceContext.revision k) (some slot)).state.QueryInterface
            env (c.QueryInterface env t (D3D11DeviceContext.revision k) (some slot)).trace
            (D3D11DeviceContext.revision k) (some slot2)).state.mInterfaceVersion
          = (c.QueryInterface env t (D3D11DeviceContext.revision k)
              (some slot)).state.mInterfaceVersion ∧
        ((c.QueryInterface env t (D3D11DeviceContext.revision k) (some slot)).state.QueryInterface
            env (c.QueryInterface env t (D3D11DeviceContext.revision k) (some slot)).trace
            (D3D11DeviceContext.revision k) (some slot2)).state.mOrig
          = (c.QueryInterface env t (D3D11DeviceContext.revision k) (some slot)).state.mOrig) ∧
    (∀ (d : D3D11Device) (t : Trace) (k : Nat) (slot slot2 : Ptr),
      k ≤ d.mInterfaceVersion →
      (d.QueryInterface env t (D3D11Device.revision k) (some slot)).ret
          = (some S_OK, some d.addr) ∧
        (d.QueryInterface env t (D3D11Device.revision k) (some slot)).trace
          = t ++ [.AddRef .context d.mImmediateContext.mOrig, .AddRef .device d.mOrig] ∧
        (d.QueryInterface env t (D3D11Device.revision k) (some slot)).state.mInterfaceVersion
          = d.mInterfaceVersion ∧
        (d.QueryInterface env t (D3D11Device.revision k) (some slot)).state.mOrig = d.mOrig ∧
        ((d.QueryInterface env t (D3D11Device.revision k) (some slot)).state.QueryInterface
            env (d.QueryInterface env t (D3D11Device.revision k) (some slot)).trace
            (D3D11Device.revision k) (some slot2)).state.mInterfaceVersion
          = (d.QueryInterface env t (D3D11Device.revision k) (some slot)).state.mInterfaceVersion ∧
        ((d.QueryInterface env t (D3D11Device.revision k) (some slot)).state.QueryInterface
            env (d.QueryInterface env t (D3D11Device.revision k) (some slot)).trace
            (D3D11Device.revision k) (some slot2)).state.mOrig
          = (d.QueryInterface env t (D3D11Device.revision k) (some slot)).state.mOrig) ∧
    (∀ (d : D3D10Device) (t : Trace) (k : Nat) (slot slot2 : Ptr),
      k ≤ d.mInterfaceVersion →
      (d.QueryInterface env t (D3D10Device.revision k) (some slot)).ret
          = (S_OK, some d.addr) ∧
        (d.QueryInterface env t (D3D10Device.revision k) (some slot)).trace
          = t ++ [.AddRef .device d.mOrig] ∧
        (d.QueryInterface env t (D3D10Device.revision k) (some slot)).state.mInterfaceVersion
          = d.mInterfaceVersion ∧
        (d.QueryInterface env t (D3D10Device.revision k) (some slot)).state.mOrig = d.mOrig ∧
        ((d.QueryInterface env t (D3D10Device.revision k) (some slot)).state.QueryInterface
            env (d.QueryInterface env t (D3D10Device.revision k) (some slot)).trace
            (D3D10Device.revision k) (some slot2)).state.mInterfaceVersion
          = (d.QueryInterface env t (D3D10Device.revision k) (some slot)).state.mInterfaceVersion ∧
        ((d.QueryInterface env t (D3D10Device.revision k) (some slot)).state.QueryInterface
            env (d.QueryInterface env t (D3D10Device.revision k) (some slot)).trace
            (D3D10Device.revision k) (some slot2)).state.mOrig
          = (d.QueryInterface env t (D3D10Device.revision k) (some slot)).state.mOrig) := by
  refine ⟨?_, ?_, ?_⟩
  · intro c t k slot slot2 h
    rw [context_QueryInterface_held env c t k slot h]
    dsimp only
    rw [context_QueryInterface_held env (c.AddRef env t).state _ k slot2 h]
    exact ⟨rfl, rfl, rfl, rfl, rfl, rfl⟩
  · intro d t k slot slot2 h
    rw [device11_QueryInterface_held env d t k slot h]
    dsimp only
    rw [device11_QueryInterface_held env (d.AddRef env t).state _ k slot2 h]
    refine ⟨rfl, ?_, rfl, rfl, rfl, rfl⟩
    simp [D3D11Device.AddRef, D3D11DeviceContext.AddRef]
  · intro d t k slot slot2 h
    rw [device10_QueryInterface_held env d t k slot h]
    dsimp only
    rw [device10_QueryInterface_held env (d.AddRef env t).state _ k slot2 h]
    exact ⟨rfl, rfl, rfl, rfl, rfl, rfl⟩

/-- Witness of C4, with real objects that refuse every interface query: the
sample device at revision 3 and its immediate context at revision 3 are asked
for revision 2, and a D3D10 device at revision 1 is asked for revision 1.  The
guard `mInterfaceVersion < k` of the region that names the requested revision
is false, so no query is issued: each call makes only the `AddRef` calls of
the proxy's own `AddRef`, returns `S_OK` with the proxy in the slot and keeps
the tag and `mOrig`; so does the same request issued a second time. -/
theorem held_revision_request_idempotent_witness :
    (2 ≤ Sample.device3.mImmediateContext.mInterfaceVersion ∧
      (Sample.device3.mImmediateContext.QueryInterface Sample.refusing []
          .ID3D11DeviceContext2 (some none)).ret = (S_OK, some 20) ∧
      (Sample.device3.mImmediateContext.QueryInterface Sample.refusing []
          .ID3D11DeviceContext2 (some none)).trace = [.AddRef .context 21] ∧
      (Sample.device3.mImmediateContext.QueryInterface Sample.refusing []
          .ID3D11DeviceContext2 (some none)).state.mInterfaceVersion = 3 ∧
      (Sample.device3.mImmediateContext.QueryInterface Sample.refusing []
          .ID3D11DeviceContext2 (some none)).state.mOrig = 21 ∧
      ((Sample.device3.mImmediateContext.QueryInterface Sample.refusing []
          .ID3D11DeviceContext2 (some none)).state.QueryInterface Sample.refusing
            (Sample.device3.mImmediateContext.QueryInterface Sample.refusing []
              .ID3D11DeviceContext2 (some none)).trace
            .ID3D11DeviceContext2 (some none)).state.mInterfaceVersion = 3 ∧
      ((Sample.device3.mImmediateContext.QueryInterface Sample.refusing []
          .ID3D11DeviceContext2 (some none)).state.QueryInterface Sample.refusing
            (Sample.device3.mImmediateContext.QueryInterface Sample.refusing []
              .ID3D11DeviceContext2 (some none)).trace
            .ID3D11DeviceContext2 (some none)).state.mOrig = 21) ∧
    (2 ≤ Sample.device3.mInterfaceVersion ∧
      (Sample.device3.QueryInterface Sample.refusing [] .ID3D11Device2 (some none)).ret
        = (some S_OK, some 10) ∧
      (Sample.device3.QueryInterface Sample.refusing [] .ID3D11Device2 (some none)).trace
        = [.AddRef .context 21, .AddRef .device 11] ∧
      (Sample.device3.QueryInterface Sample.refusing [] .ID3D11Device2
        (some none)).state.mInterfaceVersion = 3 ∧
      (Sample.device3.QueryInterface Sample.refusing [] .ID3D11Device2
        (some none)).state.mOrig = 11 ∧
      ((Sample.device3.QueryInterface Sample.refusing [] .ID3D11Device2
          (some none)).state.QueryInterface Sample.refusing
            (Sample.device3.QueryInterface Sample.refusing [] .ID3D11Device2 (some none)).trace
            .ID3D11Device2 (some none)).state.mInterfaceVersion = 3 ∧
      ((Sample.device3.QueryInterface Sample.refusing [] .ID3D11Device2
          (some none)).state.QueryInterface Sample.refusing
            (Sample.device3.QueryInterface Sample.refusing [] .ID3D11Device2 (some none)).trace
            .ID3D11Device2 (some none)).state.mOrig = 11) ∧
    (1 ≤ Sample.device10Rev1.mInterfaceVersion ∧
      (Sample.device10Rev1.QueryInterface Sample.refusing [] .ID3D10Device1 (some none)).ret
        = (S_OK, some 10) ∧
      (Sample.device10Rev1.QueryInterface Sample.refusing [] .ID3D10Device1 (some none)).trace
        = [.AddRef .device 12] ∧
      (Sample.device10Rev1.QueryInterface Sample.refusing [] .ID3D10Device1
        (some none)).state.mInterfaceVersion = 1 ∧
      (Sample.device10Rev1.QueryInterface Sample.refusing [] .ID3D10Device1
        (some none)).state.mOrig = 12 ∧
      ((Sample.device10Rev1.QueryInterface Sample.refusing [] .ID3D10Device1
          (some none)).state.QueryInterface Sample.refusing
            (Sample.device10Rev1.QueryInterface Sample.refusing [] .ID3D10Device1
              (some none)).trace
            .ID3D10Device1 (some none)).state.mInterfaceVersion = 1 ∧
      ((Sample.device10Rev1.QueryInterface Sample.refusing [] .ID3D10Device1
          (some none)).state.QueryInterface Sample.refusing
            (Sample.device10Rev1.QueryInterface Sample.refusing [] .ID3D10Device1
              (some none)).trace
            .ID3D10Device1 (some none)).state.mOrig = 12) :=
  have h := held_revision_request_idempotent Sample.refusing
  ⟨⟨by decide, h.1 Sample.device3.mImmediateContext [] 2 none none (by decide)⟩,
    ⟨by decide, h.2.1 Sample.device3 [] 2 none none (by decide)⟩,
    ⟨by decide, h.2.2 Sample.device10Rev1 [] 1 none none (by decide)⟩⟩

/-! ## Reference counting -/

theorem context_Release_counts (env : Env) (c : D3D11DeviceContext) (t : Trace) :
    (c.Release env t).state.mRef = c.mRef - 1 := by
  unfold D3D11DeviceContext.Release
  dsimp only
  repeat' split
  all_goals rfl

theorem device11_Release_counts (env : Env) (d : D3D11Device) (t : Trace) :
    (d.Release env t).state.mRef = d.mRef - 1 ∧
    (d.Release env t).state.mDXGIDevice.mRef = d.mDXGIDevice.mRef - 1 ∧
    (d.Release env t).state.mImmediateContext.mRef = d.mImmediateContext.mRef - 1 := by
  unfold D3D11Device.Release
  dsimp only
  repeat' split
  all_goals exact ⟨rfl, rfl, context_Release_counts env _ _⟩

theorem device10_Release_counts (env : Env) (d : D3D10Device) (t : Trace) :
    (d.Release env t).state.mRef = d.mRef - 1 ∧
    (d.Release env t).state.mDXGIDevice.mRef = d.mDXGIDevice.mRef - 1 := by
  unfold D3D10Device.Release
  dsimp only
  repeat' split
  all_goals exact ⟨rfl, rfl⟩

theorem context_Release_deleted_iff (env : Env) (c : D3D11DeviceContext) (t : Trace)
    (h : c.deleted = false) :
    (c.Release env t).state.deleted = true ↔
      (c.mRef - 1 = 0 ∨ (env.answer t (.Release .context c.mOrig)).count = 0) := by
  unfold D3D11DeviceContext.Release
  dsimp only
  by_cases h1 : c.mRef - 1 = 0 <;>
    by_cases h2 : (env.answer t (.Release .context c.mOrig)).count = 0 <;>
    simp [h, h1, h2]

theorem device11_Release_deleted_iff (env : Env) (d : D3D11Device) (t : Trace)
    (h : d.deleted = false) :
    (d.Release env t).state.deleted = true ↔
      (d.mRef - 1 = 0 ∨
        (env.answer (d.mImmediateContext.Release env t).trace
          (.Release .device d.mOrig)).count = 0) := by
  unfold D3D11Device.Release
  dsimp only
  by_cases h1 : d.mRef - 1 = 0 <;>
    by_cases h2 : (env.answer (d.mImmediateContext.Release env t).trace
      (.Release .device d.mOrig)).count = 0 <;>
    simp [h, h1, h2]

theorem device10_Release_deleted_iff (env : Env) (d : D3D10Device) (t : Trace)
    (h : d.deleted = false) :
    (d.Release env t).state.deleted = true ↔
      (d.mRef - 1 = 0 ∨ (env.answer t (.Release .device d.mOrig)).count = 0) := by
  unfold D3D10Device.Release
  dsimp only
  by_cases h1 : d.mRef - 1 = 0 <;>
    by_cases h2 : (env.answer t (.Release .device d.mOrig)).count = 0 <;>
    simp [h, h1, h2]

/-- C5: on the context, the D3D11 device and the D3D10 device, `Release` on a
proxy whose `mRef` is exactly 1 returns 0 and destroys the proxy, for every
environment, that is whatever count the real object's `Release` reports. -/
theorem last_release_returns_zero_and_destroys (env : Env) :
    (∀ (c : D3D11DeviceContext) (t : Trace), c.mRef = 1 →
      (c.Release env t).ret = 0 ∧ (c.Release env t).state.deleted = true) ∧
    (∀ (d : D3D11Device) (t : Trace), d.mRef = 1 →
      (d.Release env t).ret = 0 ∧ (d.Release env t).state.deleted = true) ∧
    (∀ (d : D3D10Device) (t : Trace), d.mRef = 1 →
      (d.Release env t).ret = 0 ∧ (d.Release env t).state.deleted = true) := by
  refine ⟨?_, ?_, ?_⟩
  · intro c t h
    unfold D3D11DeviceContext.Release
    simp only [h]
    by_cases hz : (env.answer t (.Release .context c.mOrig)).count = 0 <;> simp [hz]
  · intro d t h
    unfold D3D11Device.Release
    simp only [h]
    by_cases hz : (env.answer (d.mImmediateContext.Release env t).trace
      (.Release .device d.mOrig)).count = 0 <;> simp [hz]
  · intro d t h
    unfold D3D10Device.Release
    simp only [h]
    by_cases hz : (env.answer t (.Release .device d.mOrig)).count = 0 <;> simp [hz]

/-- Witness of C5: the three sample proxies hold one reference and the real
`Release` reports 1. -/
theorem last_release_returns_zero_and_destroys_witness :
    ((Sample.granting.answer [] (.Release .context 21)).count = 1 ∧
      (Sample.context.Release Sample.granting []).ret = 0 ∧
      (Sample.context.Release Sample.granting []).state.deleted = true) ∧
    ((Sample.device.Release Sample.granting []).ret = 0 ∧
      (Sample.device.Release Sample.granting []).state.deleted = true) ∧
    ((Sample.device10.Release Sample.granting []).ret = 0 ∧
      (Sample.device10.Release Sample.granting []).state.deleted = true) :=
  have h := last_release_returns_zero_and_destroys Sample.granting
  ⟨⟨by decide, h.1 Sample.context [] (by decide)⟩, h.2.1 Sample.device [] (by decide),
    h.2.2 Sample.device10 [] (by decide)⟩

/-- C6, the code at the failing input: each sample proxy holds two references
and the real `Release` reports 0.  One `Release` destroys the proxy although
its `mRef` is 1 afterwards, so the condition `mRef <= 0` asserted by the source
at the `delete this` is false there. -/
theorem release_destroys_proxy_with_positive_count :
    ((Sample.contextTwice.Release Sample.reportingZero []).state.deleted = true ∧
      (Sample.contextTwice.Release Sample.reportingZero []).state.mRef = 1 ∧
      ¬ (Sample.contextTwice.Release Sample.reportingZero []).state.mRef ≤ 0) ∧
    ((Sample.deviceTwice.Release Sample.reportingZero []).state.deleted = true ∧
      (Sample.deviceTwice.Release Sample.reportingZero []).state.mRef = 1 ∧
      ¬ (Sample.deviceTwice.Release Sample.reportingZero []).state.mRef ≤ 0) ∧
    ((Sample.device10Twice.Release Sample.reportingZero []).state.deleted = true ∧
      (Sample.device10Twice.Release Sample.reportingZero []).state.mRef = 1 ∧
      ¬ (Sample.device10Twice.Release Sample.reportingZero []).state.mRef ≤ 0) := by
  decide

theorem device11_refCall_counts (env : Env) (s : D3D11Device × Trace) (c : RefCall) :
    (D3D11Device.refCall env s c).1.mRef - (D3D11Device.refCall env s c).1.mDXGIDevice.mRef
        = s.1.mRef - s.1.mDXGIDevice.mRef ∧
    (D3D11Device.refCall env s c).1.mRef - (D3D11Device.refCall env s c).1.mImmediateContext.mRef
        = s.1.mRef - s.1.mImmediateContext.mRef := by
  cases c with
  | AddRef =>
    simp only [D3D11Device.refCall, D3D11Device.AddRef, D3D11DeviceContext.AddRef,
      DXGIDevice.InternalAddRef]
    constructor <;> omega
  | Release =>
    obtain ⟨h1, h2, h3⟩ := device11_Release_counts env s.1 s.2
    simp only [D3D11Device.refCall, h1, h2, h3]
    constructor <;> omega

theorem device10_refCall_counts (env : Env) (s : D3D10Device × Trace) (c : RefCall) :
    (D3D10Device.refCall env s c).1.mRef - (D3D10Device.refCall env s c).1.mDXGIDevice.mRef
        = s.1.mRef - s.1.mDXGIDevice.mRef := by
  cases c with
  | AddRef =>
    simp only [D3D10Device.refCall, D3D10Device.AddRef, DXGIDevice.InternalAddRef]
    omega
  | Release =>
    obtain ⟨h1, h2⟩ := device10_Release_counts env s.1 s.2
    simp only [D3D10Device.refCall, h1, h2]
    omega

theorem device11_refAll_counts (env : Env) (calls : List RefCall) (s : D3D11Device × Trace) :
    (D3D11Device.refAll env s calls).1.mRef - (D3D11Device.refAll env s calls).1.mDXGIDevice.mRef
        = s.1.mRef - s.1.mDXGIDevice.mRef ∧
    (D3D11Device.refAll env s calls).1.mRef
        - (D3D11Device.refAll env s calls).1.mImmediateContext.mRef
        = s.1.mRef - s.1.mImmediateContext.mRef := by
  induction calls generalizing s with
  | nil => exact ⟨rfl, rfl⟩
  | cons c cs ih =>
    simp only [D3D11Device.refAll, List.foldl_cons]
    split
    · exact ih s
    · have h := ih (D3D11Device.refCall env s c)
      have hc := device11_refCall_counts env s c
      simp only [D3D11Device.refAll] at h
      exact ⟨h.1.trans hc.1, h.2.trans hc.2⟩

theorem device10_refAll_counts (env : Env) (calls : List RefCall) (s : D3D10Device × Trace) :
    (D3D10Device.refAll env s calls).1.mRef - (D3D10Device.refAll env s calls).1.mDXGIDevice.mRef
        = s.1.mRef - s.1.mDXGIDevice.mRef := by
  induction calls generalizing s with
  | nil => rfl
  | cons c cs ih =>
    simp only [D3D10Device.refAll, List.foldl_cons]
    split
    · exact ih s
    · have h := ih (D3D10Device.refCall env s c)
      have hc := device10_refCall_counts env s c
      simp only [D3D10Device.refAll] at h
      exact h.trans hc

/-- C7: on the D3D11 device, `AddRef` raises the device's `mRef`, the extension
object's internal count and the immediate context's `mRef` by exactly one each,
and `Release` lowers each of the three by exactly one (whether or not it
destroys an object); hence over every sequence of device `AddRef` / `Release`
calls the differences device - extension and device - context keep their
initial values (and so does extension - context).  On the D3D10 device the
same holds for the pair device / extension. -/
theorem device_counts_in_lock_step (env : Env) :
    (∀ (d : D3D11Device) (t : Trace),
      ((d.AddRef env t).state.mRef = d.mRef + 1 ∧
        (d.AddRef env t).state.mDXGIDevice.mRef = d.mDXGIDevice.mRef + 1 ∧
        (d.AddRef env t).state.mImmediateContext.mRef = d.mImmediateContext.mRef + 1) ∧
      ((d.Release env t).state.mRef = d.mRef - 1 ∧
        (d.Release env t).state.mDXGIDevice.mRef = d.mDXGIDevice.mRef - 1 ∧
        (d.Release env t).state.mImmediateContext.mRef = d.mImmediateContext.mRef - 1)) ∧
    (∀ (d : D3D11Device) (t : Trace) (calls : List RefCall),
      (D3D11Device.refAll env (d, t) calls).1.mRef
          - (D3D11Device.refAll env (d, t) calls).1.mDXGIDevice.mRef
          = d.mRef - d.mDXGIDevice.mRef ∧
        (D3D11Device.refAll env (d, t) calls).1.mRef
          - (D3D11Device.refAll env (d, t) calls).1.mImmediateContext.mRef
          = d.mRef - d.mImmediateContext.mRef ∧
        (D3D11Device.refAll env (d, t) calls).1.mDXGIDevice.mRef
          - (D3D11Device.refAll env (d, t) calls).1.mImmediateContext.mRef
          = d.mDXGIDevice.mRef - d.mImmediateContext.mRef) ∧
    (∀ (d : D3D10Device) (t : Trace),
      ((d.AddRef env t).state.mRef = d.mRef + 1 ∧
        (d.AddRef env t).state.mDXGIDevice.mRef = d.mDXGIDevice.mRef + 1) ∧
      ((d.Release env t).state.mRef = d.mRef - 1 ∧
        (d.Release env t).state.mDXGIDevice.mRef = d.mDXGIDevice.mRef - 1)) ∧
    (∀ (d : D3D10Device) (t : Trace) (calls : List RefCall),
      (D3D10Device.refAll env (d, t) calls).1.mRef
          - (D3D10Device.refAll env (d, t) calls).1.mDXGIDevice.mRef
          = d.mRef - d.mDXGIDevice.mRef) := by
  refine ⟨?_, ?_, ?_, ?_⟩
  · intro d t
    exact ⟨⟨rfl, rfl, rfl⟩, device11_Release_counts env d t⟩
  · intro d t calls
    obtain ⟨h1, h2⟩ := device11_refAll_counts env calls (d, t)
    simp only at h1 h2
    refine ⟨h1, h2, ?_⟩
    omega
  · intro d t
    exact ⟨⟨rfl, rfl⟩, device10_Release_counts env d t⟩
  · intro d t calls
    exact device10_refAll_counts env calls (d, t)

/-! ## Depth-stencil views -/

theorem device11_Release_trace (env : Env) (d : D3D11Device) (t : Trace) :
    (d.Release env t).trace
      = t ++ [.Release .context d.mImmediateContext.mOrig, .Release .device d.mOrig] := by
  unfold D3D11Device.Release
  dsimp only
  repeat' split
  all_goals simp [context_Release_trace]

theorem device10_Release_trace (env : Env) (d : D3D10Device) (t : Trace) :
    (d.Release env t).trace = t ++ [.Release .device d.mOrig] := by
  unfold D3D10Device.Release
  dsimp only
  repeat' split
  all_goals rfl

/-- C8: when the real `CreateDepthStencilView` succeeds, the proxy's
`CreateDepthStencilView` (D3D11 and D3D10) makes, after the real call and in
this order: one `OnCreateDepthStencilView(pResource, view)` notification per
registered listener in registration order, the calls of one `AddRef` on the
proxy device, `SetPrivateData` on the new view with the device's class id and
the device's address, and `Install` on slot 2 of the view's dispatch table with
the patched release; it returns `S_OK` with the view in the output slot, and
the device's `mRef` is one higher (the other members change only as `AddRef`
changes them). -/
theorem CreateDepthStencilView_on_success (env : Env) :
    (∀ (d : D3D11Device) (t : Trace) (pResource pDesc slot : Ptr),
      FAILED (env.answer t (.CreateDepthStencilView d.mOrig pResource pDesc)).hr = false →
      (d.CreateDepthStencilView env t pResource pDesc (some slot)).ret
          = (S_OK, some (env.answer t (.CreateDepthStencilView d.mOrig pResource pDesc)).obj) ∧
        (d.CreateDepthStencilView env t pResource pDesc (some slot)).trace
          = t ++ [.CreateDepthStencilView d.mOrig pResource pDesc] ++
            d.mRuntimes.map (fun runtime => Event.notify runtime
              (.OnCreateDepthStencilView pResource
                (env.answer t (.CreateDepthStencilView d.mOrig pResource pDesc)).obj)) ++
            [.AddRef .context d.mImmediateContext.mOrig, .AddRef .device d.mOrig,
              .SetPrivateData (env.answer t (.CreateDepthStencilView d.mOrig pResource pDesc)).obj
                .D3D11Device env.sizeofPtr d.addr,
              .Install (env.VTABLE
                (env.answer t (.CreateDepthStencilView d.mOrig pResource pDesc)).obj) 2
                .ID3D11DepthStencilView_Release] ∧
        (d.CreateDepthStencilView env t pResource pDesc (some slot)).state
          = { d with
              mRef := d.mRef + 1
              mDXGIDevice := { d.mDXGIDevice with mRef := d.mDXGIDevice.mRef + 1 }
              mImmediateContext :=
                { d.mImmediateContext with mRef := d.mImmediateContext.mRef + 1 } }) ∧
    (∀ (d : D3D10Device) (t : Trace) (pResource pDesc slot : Ptr),
      FAILED (env.answer t (.CreateDepthStencilView d.mOrig pResource pDesc)).hr = false →
      (d.CreateDepthStencilView env t pResource pDesc (some slot)).ret
          = (S_OK, some (env.answer t (.CreateDepthStencilView d.mOrig pResource pDesc)).obj) ∧
        (d.CreateDepthStencilView env t pResource pDesc (some slot)).trace
          = t ++ [.CreateDepthStencilView d.mOrig pResource pDesc] ++
            d.mRuntimes.map (fun runtime => Event.notify runtime
              (.OnCreateDepthStencilView pResource
                (env.answer t (.CreateDepthStencilView d.mOrig pResource pDesc)).obj)) ++
            [.AddRef .device d.mOrig,
              .SetPrivateData (env.answer t (.CreateDepthStencilView d.mOrig pResource pDesc)).obj
                .D3D10Device env.sizeofPtr d.addr,
              .Install (env.VTABLE
                (env.answer t (.CreateDepthStencilView d.mOrig pResource pDesc)).obj) 2
                .ID3D10DepthStencilView_Release] ∧
        (d.CreateDepthStencilView env t pResource pDesc (some slot)).state
          = { d with
              mRef := d.mRef + 1
              mDXGIDevice := { d.mDXGIDevice with mRef := d.mDXGIDevice.mRef + 1 } }) := by
  refine ⟨?_, ?_⟩
  · intro d t pResource pDesc slot h
    simp [D3D11Device.CreateDepthStencilView, h, D3D11Device.AddRef,
      D3D11DeviceContext.AddRef, DXGIDevice.InternalAddRef]
  · intro d t pResource pDesc slot h
    simp [D3D10Device.CreateDepthStencilView, h, D3D10Device.AddRef,
      DXGIDevice.InternalAddRef]

/-- Witness of C8 on the two sample devices: listeners 101 and 102 are
notified in that order with the new view 500. -/
theorem CreateDepthStencilView_on_success_witness :
    (Sample.device.CreateDepthStencilView Sample.granting [] (some 7) none (some none)).trace
      = [.CreateDepthStencilView 11 (some 7) none,
          .notify 101 (.OnCreateDepthStencilView (some 7) 500),
          .notify 102 (.OnCreateDepthStencilView (some 7) 500),
          .AddRef .context 21, .AddRef .device 11,
          .SetPrivateData 500 .D3D11Device 8 10,
          .Install 1500 2 .ID3D11DepthStencilView_Release] ∧
    (Sample.device10.CreateDepthStencilView Sample.granting [] (some 7) none (some none)).trace
      = [.CreateDepthStencilView 11 (some 7) none,
          .notify 101 (.OnCreateDepthStencilView (some 7) 500),
          .notify 102 (.OnCreateDepthStencilView (some 7) 500),
          .AddRef .device 11,
          .SetPrivateData 500 .D3D10Device 8 10,
          .Install 1500 2 .ID3D10DepthStencilView_Release] :=
  have h := CreateDepthStencilView_on_success Sample.granting
  ⟨(h.1 Sample.device [] (some 7) none none (by decide)).2.1,
    (h.2 Sample.device10 [] (some 7) none none (by decide)).2.1⟩

/-- C9: when the real `CreateDepthStencilView` fails with code `hr`, the
proxy's `CreateDepthStencilView` (D3D11 and D3D10) returns exactly `hr`, leaves
the whole device record unchanged and has issued no call but the real one: no
listener notification, no `AddRef`, no `SetPrivateData`, no `Install`. -/
theorem CreateDepthStencilView_on_failure (env : Env) :
    (∀ (d : D3D11Device) (t : Trace) (pResource pDesc slot : Ptr),
      FAILED (env.answer t (.CreateDepthStencilView d.mOrig pResource pDesc)).hr = true →
      (d.CreateDepthStencilView env t pResource pDesc (some slot)).ret.1
          = (env.answer t (.CreateDepthStencilView d.mOrig pResource pDesc)).hr ∧
        (d.CreateDepthStencilView env t pResource pDesc (some slot)).state = d ∧
        (d.CreateDepthStencilView env t pResource pDesc (some slot)).trace
          = t ++ [.CreateDepthStencilView d.mOrig pResource pDesc]) ∧
    (∀ (d : D3D10Device) (t : Trace) (pResource pDesc slot : Ptr),
      FAILED (env.answer t (.CreateDepthStencilView d.mOrig pResource pDesc)).hr = true →
      (d.CreateDepthStencilView env t pResource pDesc (some slot)).ret.1
          = (env.answer t (.CreateDepthStencilView d.mOrig pResource pDesc)).hr ∧
        (d.CreateDepthStencilView env t pResource pDesc (some slot)).state = d ∧
        (d.CreateDepthStencilView env t pResource pDesc (some slot)).trace
          = t ++ [.CreateDepthStencilView d.mOrig pResource pDesc]) := by
  refine ⟨?_, ?_⟩
  · intro d t pResource pDesc slot h
    simp [D3D11Device.CreateDepthStencilView, h]
  · intro d t pResource pDesc slot h
    simp [D3D10Device.CreateDepthStencilView, h]

/-- Witness of C9 on the two sample devices with a real call that fails with
`E_INVALIDARG`. -/
theorem CreateDepthStencilView_on_failure_witness :
    ((Sample.device.CreateDepthStencilView Sample.rejecting [] (some 7) none (some none)).ret.1
        = E_INVALIDARG ∧
      (Sample.device.CreateDepthStencilView Sample.rejecting [] (some 7) none (some none)).state
        = Sample.device) ∧
    ((Sample.device10.CreateDepthStencilView Sample.rejecting [] (some 7) none (some none)).ret.1
        = E_INVALIDARG ∧
      (Sample.device10.CreateDepthStencilView Sample.rejecting [] (some 7) none
        (some none)).state = Sample.device10) :=
  have h := CreateDepthStencilView_on_failure Sample.rejecting
  have h11 := h.1 Sample.device [] (some 7) none none (by decide)
  have h10 := h.2 Sample.device10 [] (some 7) none none (by decide)
  ⟨⟨h11.1, h11.2.1⟩, ⟨h10.1, h10.2.1⟩⟩

/-- C10: the patched view release (D3D11 and D3D10) first reads the ownership
tag and then invokes the original release, in every case.  When the read
succeeded, the original release returned 0 and the address read is that of the
proxy device, it then notifies every listener of that device once, in
registration order, with `OnDeleteDepthStencilView(view)` and afterwards
releases one device reference (`mRef` one lower, the calls of one device
`Release`), returning 0.  When the read failed or the original release returned
a non-zero count, it makes no further call, leaves the device record unchanged
and returns the original count. -/
theorem patched_view_release_notifies_iff (env : Env) :
    (∀ (d : D3D11Device) (t : Trace) (view : Addr),
      (∃ u, (ID3D11DepthStencilView_Release env d t view).trace
          = t ++ [.GetPrivateData view .D3D11Device env.sizeofPtr, .trampolineRelease view] ++ u) ∧
      (SUCCEEDED (env.answer t (.GetPrivateData view .D3D11Device env.sizeofPtr)).hr = true →
        (env.answer (t ++ [.GetPrivateData view .D3D11Device env.sizeofPtr]) (.trampolineRelease view)).count = 0 →
        (env.answer t (.GetPrivateData view .D3D11Device env.sizeofPtr)).obj = d.addr →
        (ID3D11DepthStencilView_Release env d t view).trace
            = t ++ [.GetPrivateData view .D3D11Device env.sizeofPtr, .trampolineRelease view] ++
              d.mRuntimes.map (fun runtime => Event.notify runtime
                (.OnDeleteDepthStencilView view)) ++
              [.Release .context d.mImmediateContext.mOrig, .Release .device d.mOrig] ∧
          (ID3D11DepthStencilView_Release env d t view).state.mRef = d.mRef - 1 ∧
          (ID3D11DepthStencilView_Release env d t view).ret = some 0) ∧
      (¬ (SUCCEEDED (env.answer t (.GetPrivateData view .D3D11Device env.sizeofPtr)).hr = true ∧
          (env.answer (t ++ [.GetPrivateData view .D3D11Device env.sizeofPtr]) (.trampolineRelease view)).count = 0) →
        (ID3D11DepthStencilView_Release env d t view).trace
            = t ++ [.GetPrivateData view .D3D11Device env.sizeofPtr, .trampolineRelease view] ∧
          (ID3D11DepthStencilView_Release env d t view).state = d ∧
          (ID3D11DepthStencilView_Release env d t view).ret
            = some (env.answer (t ++ [.GetPrivateData view .D3D11Device env.sizeofPtr]) (.trampolineRelease view)).count)) ∧
    (∀ (d : D3D10Device) (t : Trace) (view : Addr),
      (∃ u, (ID3D10DepthStencilView_Release env d t view).trace
          = t ++ [.GetPrivateData view .D3D10Device env.sizeofPtr, .trampolineRelease view] ++ u) ∧
      (SUCCEEDED (env.answer t (.GetPrivateData view .D3D10Device env.sizeofPtr)).hr = true →
        (env.answer (t ++ [.GetPrivateData view .D3D10Device env.sizeofPtr]) (.trampolineRelease view)).count = 0 →
        (env.answer t (.GetPrivateData view .D3D10Device env.sizeofPtr)).obj = d.addr →
        (ID3D10DepthStencilView_Release env d t view).trace
            = t ++ [.GetPrivateData view .D3D10Device env.sizeofPtr, .trampolineRelease view] ++
              d.mRuntimes.map (fun runtime => Event.notify runtime
                (.OnDeleteDepthStencilView view)) ++
              [.Release .device d.mOrig] ∧
          (ID3D10DepthStencilView_Release env d t view).state.mRef = d.mRef - 1 ∧
          (ID3D10DepthStencilView_Release env d t view).ret = some 0) ∧
      (¬ (SUCCEEDED (env.answer t (.GetPrivateData view .D3D10Device env.sizeofPtr)).hr = true ∧
          (env.answer (t ++ [.GetPrivateData view .D3D10Device env.sizeofPtr]) (.trampolineRelease view)).count = 0) →
        (ID3D10DepthStencilView_Release env d t view).trace
            = t ++ [.GetPrivateData view .D3D10Device env.sizeofPtr, .trampolineRelease view] ∧
          (ID3D10DepthStencilView_Release env d t view).state = d ∧
          (ID3D10DepthStencilView_Release env d t view).ret
            = some (env.answer (t ++ [.GetPrivateData view .D3D10Device env.sizeofPtr]) (.trampolineRelease view)).count)) := by
  refine ⟨?_, ?_⟩
  · intro d t view
    refine ⟨?_, ?_, ?_⟩
    · unfold ID3D11DepthStencilView_Release
      dsimp only
      split
      · split
        · exact ⟨_, by
            rw [device11_Release_trace]
            simp only [List.append_assoc, List.singleton_append, List.cons_append,
              List.nil_append]
            rfl⟩
        · exact ⟨[], by simp⟩
      · exact ⟨[], by simp⟩
    · intro hs hz ha
      have hrel := device11_Release_counts env d
        (t ++ [.GetPrivateData view .D3D11Device env.sizeofPtr] ++ [.trampolineRelease view] ++
          d.mRuntimes.map (fun runtime => Event.notify runtime (.OnDeleteDepthStencilView view)))
      simp only [ID3D11DepthStencilView_Release, hs, hz, ha, and_self, if_true,
        device11_Release_trace, hrel.1]
      simp
    · intro hn
      simp only [ID3D11DepthStencilView_Release, hn, if_false]
      simp
  · intro d t view
    refine ⟨?_, ?_, ?_⟩
    · unfold ID3D10DepthStencilView_Release
      dsimp only
      split
      · split
        · exact ⟨_, by
            rw [device10_Release_trace]
            simp only [List.append_assoc, List.singleton_append, List.cons_append,
              List.nil_append]
            rfl⟩
        · exact ⟨[], by simp⟩
      · exact ⟨[], by simp⟩
    · intro hs hz ha
      have hrel := device10_Release_counts env d
        (t ++ [.GetPrivateData view .D3D10Device env.sizeofPtr] ++ [.trampolineRelease view] ++
          d.mRuntimes.map (fun runtime => Event.notify runtime (.OnDeleteDepthStencilView view)))
      simp only [ID3D10DepthStencilView_Release, hs, hz, ha, and_self, if_true,
        device10_Release_trace, hrel.1]
      simp
    · intro hn
      simp only [ID3D10DepthStencilView_Release, hn, if_false]
      simp

/-- Witness of C10 on the sample devices: with a tag that reads back the
device's address and an original release returning 0, listeners 101 and 102
are notified in that order and one reference is released; with an original
release returning 1 nothing further happens. -/
theorem patched_view_release_notifies_iff_witness :
    ((ID3D11DepthStencilView_Release Sample.tagged Sample.deviceTwice [] 500).trace
        = [.GetPrivateData 500 .D3D11Device 8, .trampolineRelease 500,
            .notify 101 (.OnDeleteDepthStencilView 500),
            .notify 102 (.OnDeleteDepthStencilView 500),
            .Release .context 21, .Release .device 11] ∧
      (ID3D11DepthStencilView_Release Sample.tagged Sample.deviceTwice [] 500).state.mRef = 1) ∧
    ((ID3D11DepthStencilView_Release Sample.granting Sample.deviceTwice [] 500).trace
        = [.GetPrivateData 500 .D3D11Device 8, .trampolineRelease 500] ∧
      (ID3D11DepthStencilView_Release Sample.granting Sample.deviceTwice [] 500).state
        = Sample.deviceTwice) ∧
    ((ID3D10DepthStencilView_Release Sample.tagged Sample.device10Twice [] 500).trace
        = [.GetPrivateData 500 .D3D10Device 8, .trampolineRelease 500,
            .notify 101 (.OnDeleteDepthStencilView 500),
            .notify 102 (.OnDeleteDepthStencilView 500),
            .Release .device 11] ∧
      (ID3D10DepthStencilView_Release Sample.tagged Sample.device10Twice [] 500).state.mRef = 1) ∧
    ((ID3D10DepthStencilView_Release Sample.granting Sample.device10Twice [] 500).trace
        = [.GetPrivateData 500 .D3D10Device 8, .trampolineRelease 500] ∧
      (ID3D10DepthStencilView_Release Sample.granting Sample.device10Twice [] 500).state
        = Sample.device10Twice) :=
  have hy := patched_view_release_notifies_iff Sample.tagged
  have hn := patched_view_release_notifies_iff Sample.granting
  have a := (hy.1 Sample.deviceTwice [] 500).2.1 (by decide) (by decide) (by decide)
  have b := (hn.1 Sample.deviceTwice [] 500).2.2 (by decide)
  have c := (hy.2 Sample.device10Twice [] 500).2.1 (by decide) (by decide) (by decide)
  have d := (hn.2 Sample.device10Twice [] 500).2.2 (by decide)
  ⟨⟨a.1, a.2.1⟩, ⟨b.1, b.2.1⟩, ⟨c.1, c.2.1⟩, ⟨d.1, d.2.1⟩⟩

/-! ## Render-target binding, clears and instanced draws -/

/-- C13: `OMSetRenderTargets` on the context and on the D3D10 device, and
`OMSetRenderTargetsAndUnorderedAccessViews` on the context, called with a
non-null depth-stencil view append one `OnSetDepthStencilView(view)`
notification per listener, in registration order, and then the real call with
the arguments as given; called with a null view they append the real call
only. -/
theorem OMSetRenderTargets_notifies_bound_view :
    (∀ (c : D3D11DeviceContext) (d : D3D11Device) (t : Trace) (NumViews : Nat)
        (ppRenderTargetViews : Ptr),
      (∀ view : Addr, c.OMSetRenderTargets d t NumViews ppRenderTargetViews (some view)
          = t ++ d.mRuntimes.map
              (fun runtime => Event.notify runtime (.OnSetDepthStencilView view)) ++
            [.OMSetRenderTargets c.mOrig NumViews ppRenderTargetViews (some view)]) ∧
      c.OMSetRenderTargets d t NumViews ppRenderTargetViews none
          = t ++ [.OMSetRenderTargets c.mOrig NumViews ppRenderTargetViews none]) ∧
    (∀ (c : D3D11DeviceContext) (d : D3D11Device) (t : Trace) (NumRTVs : Nat)
        (ppRenderTargetViews : Ptr) (UAVStartSlot NumUAVs : Nat)
        (ppUnorderedAccessViews pUAVInitialCounts : Ptr),
      (∀ view : Addr, c.OMSetRenderTargetsAndUnorderedAccessViews d t NumRTVs
            ppRenderTargetViews (some view) UAVStartSlot NumUAVs ppUnorderedAccessViews
            pUAVInitialCounts
          = t ++ d.mRuntimes.map
              (fun runtime => Event.notify runtime (.OnSetDepthStencilView view)) ++
            [.OMSetRenderTargetsAndUnorderedAccessViews c.mOrig NumRTVs ppRenderTargetViews
              (some view) UAVStartSlot NumUAVs ppUnorderedAccessViews pUAVInitialCounts]) ∧
      c.OMSetRenderTargetsAndUnorderedAccessViews d t NumRTVs ppRenderTargetViews none
            UAVStartSlot NumUAVs ppUnorderedAccessViews pUAVInitialCounts
          = t ++ [.OMSetRenderTargetsAndUnorderedAccessViews c.mOrig NumRTVs
              ppRenderTargetViews none UAVStartSlot NumUAVs ppUnorderedAccessViews
              pUAVInitialCounts]) ∧
    (∀ (d : D3D10Device) (t : Trace) (NumViews : Nat) (ppRenderTargetViews : Ptr),
      (∀ view : Addr, d.OMSetRenderTargets t NumViews ppRenderTargetViews (some view)
          = t ++ d.mRuntimes.map
              (fun runtime => Event.notify runtime (.OnSetDepthStencilView view)) ++
            [.OMSetRenderTargets d.mOrig NumViews ppRenderTargetViews (some view)]) ∧
      d.OMSetRenderTargets t NumViews ppRenderTargetViews none
          = t ++ [.OMSetRenderTargets d.mOrig NumViews ppRenderTargetViews none]) := by
  refine ⟨?_, ?_, ?_⟩
  · intro c d t NumViews ppRenderTargetViews
    exact ⟨fun _ => rfl, rfl⟩
  · intro c d t NumRTVs ppRenderTargetViews UAVStartSlot NumUAVs ppUnorderedAccessViews
      pUAVInitialCounts
    exact ⟨fun _ => rfl, rfl⟩
  · intro d t NumViews ppRenderTargetViews
    exact ⟨fun _ => rfl, rfl⟩

/-- C14, counterexample: the sample context's `OMGetRenderTargets` is given an
output slot and the real call stores `nullptr` in it (nothing bound); both
listeners are notified and the view they receive is null. -/
theorem OMGetRenderTargets_notifies_with_null_view :
    (Sample.nothingBound.answer [] (.OMGetRenderTargets 21 1 none (some none))).stored = none ∧
    Sample.context.OMGetRenderTargets Sample.nothingBound Sample.device [] 1 none (some none)
      = ([.OMGetRenderTargets 21 1 none (some none),
          .notify 101 (.OnGetDepthStencilView none),
          .notify 102 (.OnGetDepthStencilView none)], some none) := by
  decide

/-- C14, amended: `OMGetRenderTargets` on the context and on the D3D10 device,
and `OMGetRenderTargetsAndUnorderedAccessViews` on the context, issue the real
call first; afterwards they notify every listener, in registration order, with
`OnGetDepthStencilView` if and only if the caller's output pointer for the
depth-stencil view is non-null, and the view notified is whatever the real
call stored in that slot, null included. -/
theorem OMGetRenderTargets_notifies_iff_slot_given (env : Env) :
    (∀ (c : D3D11DeviceContext) (d : D3D11Device) (t : Trace) (NumViews : Nat)
        (ppRenderTargetViews : Ptr),
      (∀ slot : Ptr, c.OMGetRenderTargets env d t NumViews ppRenderTargetViews (some slot)
          = (t ++ [.OMGetRenderTargets c.mOrig NumViews ppRenderTargetViews (some slot)] ++
              d.mRuntimes.map (fun runtime => Event.notify runtime (.OnGetDepthStencilView
                (env.answer t (.OMGetRenderTargets c.mOrig NumViews ppRenderTargetViews
                  (some slot))).stored)),
            some (env.answer t (.OMGetRenderTargets c.mOrig NumViews ppRenderTargetViews
              (some slot))).stored)) ∧
      c.OMGetRenderTargets env d t NumViews ppRenderTargetViews none
          = (t ++ [.OMGetRenderTargets c.mOrig NumViews ppRenderTargetViews none], none)) ∧
    (∀ (c : D3D11DeviceContext) (d : D3D11Device) (t : Trace) (NumRTVs : Nat)
        (ppRenderTargetViews : Ptr) (UAVStartSlot NumUAVs : Nat) (ppUnorderedAccessViews : Ptr),
      (∀ slot : Ptr, c.OMGetRenderTargetsAndUnorderedAccessViews env d t NumRTVs
            ppRenderTargetViews (some slot) UAVStartSlot NumUAVs ppUnorderedAccessViews
          = (t ++ [.OMGetRenderTargetsAndUnorderedAccessViews c.mOrig NumRTVs
                ppRenderTargetViews (some slot) UAVStartSlot NumUAVs ppUnorderedAccessViews] ++
              d.mRuntimes.map (fun runtime => Event.notify runtime (.OnGetDepthStencilView
                (env.answer t (.OMGetRenderTargetsAndUnorderedAccessViews c.mOrig NumRTVs
                  ppRenderTargetViews (some slot) UAVStartSlot NumUAVs
                  ppUnorderedAccessViews)).stored)),
            some (env.answer t (.OMGetRenderTargetsAndUnorderedAccessViews c.mOrig NumRTVs
              ppRenderTargetViews (some slot) UAVStartSlot NumUAVs
              ppUnorderedAccessViews)).stored)) ∧
      c.OMGetRenderTargetsAndUnorderedAccessViews env d t NumRTVs ppRenderTargetViews none
            UAVStartSlot NumUAVs ppUnorderedAccessViews
          = (t ++ [.OMGetRenderTargetsAndUnorderedAccessViews c.mOrig NumRTVs
              ppRenderTargetViews none UAVStartSlot NumUAVs ppUnorderedAccessViews], none)) ∧
    (∀ (d : D3D10Device) (t : Trace) (NumViews : Nat) (ppRenderTargetViews : Ptr),
      (∀ slot : Ptr, d.OMGetRenderTargets env t NumViews ppRenderTargetViews (some slot)
          = (t ++ [.OMGetRenderTargets d.mOrig NumViews ppRenderTargetViews (some slot)] ++
              d.mRuntimes.map (fun runtime => Event.notify runtime (.OnGetDepthStencilView
                (env.answer t (.OMGetRenderTargets d.mOrig NumViews ppRenderTargetViews
                  (some slot))).stored)),
            some (env.answer t (.OMGetRenderTargets d.mOrig NumViews ppRenderTargetViews
              (some slot))).stored)) ∧
      d.OMGetRenderTargets env t NumViews ppRenderTargetViews none
          = (t ++ [.OMGetRenderTargets d.mOrig NumViews ppRenderTargetViews none], none)) := by
  refine ⟨?_, ?_, ?_⟩
  · intro c d t NumViews ppRenderTargetViews
    exact ⟨fun _ => rfl, rfl⟩
  · intro c d t NumRTVs ppRenderTargetViews UAVStartSlot NumUAVs ppUnorderedAccessViews
    exact ⟨fun _ => rfl, rfl⟩
  · intro d t NumViews ppRenderTargetViews
    exact ⟨fun _ => rfl, rfl⟩

/-- C15: `ClearDepthStencilView` on the context and on the D3D10 device appends
one `OnClearDepthStencilView(view)` notification per listener of the owning
device, in registration order, and after the last of them the real call with
the view, flags, depth and stencil as given. -/
theorem ClearDepthStencilView_notifies_in_order :
    (∀ (c : D3D11DeviceContext) (d : D3D11Device) (t : Trace) (pDepthStencilView : Ptr)
        (ClearFlags Depth Stencil : Nat),
      c.ClearDepthStencilView d t pDepthStencilView ClearFlags Depth Stencil
        = t ++ d.mRuntimes.map
            (fun runtime => Event.notify runtime (.OnClearDepthStencilView pDepthStencilView)) ++
          [.ClearDepthStencilView c.mOrig pDepthStencilView ClearFlags Depth Stencil]) ∧
    (∀ (d : D3D10Device) (t : Trace) (pDepthStencilView : Ptr)
        (ClearFlags Depth Stencil : Nat),
      d.ClearDepthStencilView t pDepthStencilView ClearFlags Depth Stencil
        = t ++ d.mRuntimes.map
            (fun runtime => Event.notify runtime (.OnClearDepthStencilView pDepthStencilView)) ++
          [.ClearDepthStencilView d.mOrig pDepthStencilView ClearFlags Depth Stencil]) :=
  ⟨fun _ _ _ _ _ _ _ => rfl, fun _ _ _ _ _ _ => rfl⟩

/-- Witness of C15: listeners 101 and 102, registered in that order, give the
trace 101, 102, real call. -/
theorem ClearDepthStencilView_notifies_in_order_witness :
    Sample.context.ClearDepthStencilView Sample.device [] (some 500) 1 0 0
      = [.notify 101 (.OnClearDepthStencilView (some 500)),
          .notify 102 (.OnClearDepthStencilView (some 500)),
          .ClearDepthStencilView 21 (some 500) 1 0 0] :=
  ClearDepthStencilView_notifies_in_order.1 Sample.context Sample.device [] (some 500) 1 0 0

/-- C16, counterexample: `DrawInstanced` with 65536 vertices per instance and
65536 instances, both 32-bit values, notifies the listeners with the count 0,
not with 65536 × 65536. -/
theorem DrawInstanced_count_wraps :
    65536 < 2 ^ 32 ∧
    Sample.context.DrawInstanced Sample.device [] 65536 65536 0 0
      = [.notify 101 (.OnDrawCall 21 0), .notify 102 (.OnDrawCall 21 0),
          .DrawInstanced 21 65536 65536 0 0] ∧
    (0 : Nat) ≠ 65536 * 65536 := by
  decide

/-- C16, amended: `DrawInstanced` and `DrawIndexedInstanced`, on the context and
on the D3D10 device, with `M` vertices or indices per instance and `N`
instances notify every listener, in registration order and before the real
call, with the count `M * N` reduced modulo `2 ^ 32`; the count is `M * N`
exactly whenever `M * N < 2 ^ 32`. -/
theorem instanced_draw_count (M N : Nat) :
    (∀ (c : D3D11DeviceContext) (d : D3D11Device) (t : Trace)
        (StartVertexLocation StartInstanceLocation : Nat),
      c.DrawInstanced d t M N StartVertexLocation StartInstanceLocation
        = t ++ d.mRuntimes.map
            (fun runtime => Event.notify runtime (.OnDrawCall c.mOrig (M * N % 2 ^ 32))) ++
          [.DrawInstanced c.mOrig M N StartVertexLocation StartInstanceLocation]) ∧
    (∀ (c : D3D11DeviceContext) (d : D3D11Device) (t : Trace)
        (StartIndexLocation : Nat) (BaseVertexLocation : Int) (StartInstanceLocation : Nat),
      c.DrawIndexedInstanced d t M N StartIndexLocation BaseVertexLocation StartInstanceLocation
        = t ++ d.mRuntimes.map
            (fun runtime => Event.notify runtime (.OnDrawCall c.mOrig (M * N % 2 ^ 32))) ++
          [.DrawIndexedInstanced c.mOrig M N StartIndexLocation BaseVertexLocation
            StartInstanceLocation]) ∧
    (∀ (d : D3D10Device) (t : Trace) (StartVertexLocation StartInstanceLocation : Nat),
      d.DrawInstanced t M N StartVertexLocation StartInstanceLocation
        = t ++ d.mRuntimes.map
            (fun runtime => Event.notify runtime (.OnDrawCall10 (M * N % 2 ^ 32))) ++
          [.DrawInstanced d.mOrig M N StartVertexLocation StartInstanceLocation]) ∧
    (∀ (d : D3D10Device) (t : Trace)
        (StartIndexLocation : Nat) (BaseVertexLocation : Int) (StartInstanceLocation : Nat),
      d.DrawIndexedInstanced t M N StartIndexLocation BaseVertexLocation StartInstanceLocation
        = t ++ d.mRuntimes.map
            (fun runtime => Event.notify runtime (.OnDrawCall10 (M * N % 2 ^ 32))) ++
          [.DrawIndexedInstanced d.mOrig M N StartIndexLocation BaseVertexLocation
            StartInstanceLocation]) ∧
    (M * N < 2 ^ 32 → M * N % 2 ^ 32 = M * N) :=
  ⟨fun _ _ _ _ _ => rfl, fun _ _ _ _ _ _ => rfl, fun _ _ _ _ => rfl, fun _ _ _ _ _ => rfl,
    fun h => Nat.mod_eq_of_lt h⟩

/-- Witness of the amended C16: 3 vertices per instance and 4 instances give
the count 12 to both listeners. -/
theorem instanced_draw_count_witness :
    Sample.context.DrawInstanced Sample.device [] 3 4 0 0
      = [.notify 101 (.OnDrawCall 21 12), .notify 102 (.OnDrawCall 21 12),
          .DrawInstanced 21 3 4 0 0] ∧
    3 * 4 % 2 ^ 32 = 3 * 4 :=
  ⟨(instanced_draw_count 3 4).1 Sample.context Sample.device [] 0 0,
    (instanced_draw_count 3 4).2.2.2.2 (by decide)⟩

/-! ## Deferred contexts -/

theorem CreateDeferredContext_wraps (env : Env) (d : D3D11Device) (t : Trace)
    (ContextFlags : Nat) (slot : Ptr)
    (h : FAILED (env.answer t (.CreateDeferredContext 0 d.mOrig ContextFlags (some slot))).hr
      = false) :
    (d.CreateDeferredContext env t ContextFlags (some slot)).ret
      = (S_OK,
        some (env.answer
          (t ++ [.CreateDeferredContext 0 d.mOrig ContextFlags (some slot)])
          (.construct d.addr
            (env.answer t (.CreateDeferredContext 0 d.mOrig ContextFlags (some slot))).obj)).obj,
        some (D3D11DeviceContext.construct
          (env.answer
            (t ++ [.CreateDeferredContext 0 d.mOrig ContextFlags (some slot)])
            (.construct d.addr
              (env.answer t
                (.CreateDeferredContext 0 d.mOrig ContextFlags (some slot))).obj)).obj
          d.addr
          (env.answer t (.CreateDeferredContext 0 d.mOrig ContextFlags (some slot))).obj)) := by
  simp [D3D11Device.CreateDeferredContext, h, D3D11DeviceContext.construct]

theorem CreateDeferredContext23_forward (env : Env) (d : D3D11Device) (t : Trace)
    (ContextFlags : Nat) (ppDeferredContext : Option Ptr) :
    (d.CreateDeferredContext2 env t ContextFlags ppDeferredContext).ret.2.2 = none ∧
    (d.CreateDeferredContext2 env t ContextFlags ppDeferredContext).trace
      = t ++ [.CreateDeferredContext 2 d.mOrig ContextFlags ppDeferredContext] ∧
    (d.CreateDeferredContext3 env t ContextFlags ppDeferredContext).ret.2.2 = none ∧
    (d.CreateDeferredContext3 env t ContextFlags ppDeferredContext).trace
      = t ++ [.CreateDeferredContext 3 d.mOrig ContextFlags ppDeferredContext] :=
  ⟨rfl, rfl, rfl, rfl⟩

/-- C17, the code at the failing input: on the sample device at revision 3, with
a real device whose calls succeed and hand out the real context 500,
`CreateDeferredContext2` and `CreateDeferredContext3` return `S_OK` with the
real context 500 itself in the output slot; no proxy context is constructed and
the only call made is the forwarded one.  `CreateDeferredContext` and
`CreateDeferredContext1` on the same input construct a proxy context that
wraps 500 and whose owning device is the proxy device 10. -/
theorem CreateDeferredContext23_return_real_context :
    ((Sample.device3.CreateDeferredContext2 Sample.granting [] 0 (some none)).ret
        = (S_OK, some 500, none) ∧
      (Sample.device3.CreateDeferredContext2 Sample.granting [] 0 (some none)).trace
        = [.CreateDeferredContext 2 11 0 (some none)]) ∧
    ((Sample.device3.CreateDeferredContext3 Sample.granting [] 0 (some none)).ret
        = (S_OK, some 500, none) ∧
      (Sample.device3.CreateDeferredContext3 Sample.granting [] 0 (some none)).trace
        = [.CreateDeferredContext 3 11 0 (some none)]) ∧
    ((Sample.device3.CreateDeferredContext Sample.granting [] 0 (some none)).ret.2.2
        = some ⟨500, 1, 10, 500, 0, false⟩ ∧
      (Sample.device3.CreateDeferredContext Sample.granting [] 0 (some none)).trace
        = [.CreateDeferredContext 0 11 0 (some none), .construct 10 500]) ∧
    ((Sample.device3.CreateDeferredContext1 Sample.granting [] 0 (some none)).ret.2.2
        = some ⟨500, 1, 10, 500, 0, false⟩ ∧
      (Sample.device3.CreateDeferredContext1 Sample.granting [] 0 (some none)).trace
        = [.CreateDeferredContext 1 11 0 (some none), .construct 10 500]) := by
  decide

/-! ## Null output pointers -/

/-- C19: `QueryInterface` with a null output pointer returns `E_POINTER` on the
context, the D3D11 device and the D3D10 device, for every interface id and
every environment; the proxy record is unchanged (tag, `mRef`, `mOrig`
included) and no call at all is issued, neither to the real object nor to the
extension object. -/
theorem QueryInterface_null_output (env : Env) (riid : IID) :
    (∀ (c : D3D11DeviceContext) (t : Trace),
      (c.QueryInterface env t riid none).ret.1 = E_POINTER ∧
        (c.QueryInterface env t riid none).state = c ∧
        (c.QueryInterface env t riid none).trace = t) ∧
    (∀ (d : D3D11Device) (t : Trace),
      (d.QueryInterface env t riid none).ret.1 = some E_POINTER ∧
        (d.QueryInterface env t riid none).state = d ∧
        (d.QueryInterface env t riid none).trace = t) ∧
    (∀ (d : D3D10Device) (t : Trace),
      (d.QueryInterface env t riid none).ret.1 = E_POINTER ∧
        (d.QueryInterface env t riid none).state = d ∧
        (d.QueryInterface env t riid none).trace = t) :=
  ⟨fun _ _ => ⟨rfl, rfl, rfl⟩, fun _ _ => ⟨rfl, rfl, rfl⟩, fun _ _ => ⟨rfl, rfl, rfl⟩⟩

/-- C20: `CreateDepthStencilView` (D3D11 and D3D10 device),
`CreateDeferredContext` and `CreateDeferredContext1` called with a null output
pointer return `E_INVALIDARG`; no call is issued (the real object is not
called, no listener is notified), the device record with all its counts is
unchanged and no proxy context is constructed. -/
theorem null_output_is_invalid_argument (env : Env) :
    (∀ (d : D3D11Device) (t : Trace) (pResource pDesc : Ptr),
      (d.CreateDepthStencilView env t pResource pDesc none).ret.1 = E_INVALIDARG ∧
        (d.CreateDepthStencilView env t pResource pDesc none).state = d ∧
        (d.CreateDepthStencilView env t pResource pDesc none).trace = t) ∧
    (∀ (d : D3D10Device) (t : Trace) (pResource pDesc : Ptr),
      (d.CreateDepthStencilView env t pResource pDesc none).ret.1 = E_INVALIDARG ∧
        (d.CreateDepthStencilView env t pResource pDesc none).state = d ∧
        (d.CreateDepthStencilView env t pResource pDesc none).trace = t) ∧
    (∀ (d : D3D11Device) (t : Trace) (ContextFlags : Nat),
      (d.CreateDeferredContext env t ContextFlags none).ret = (E_INVALIDARG, none, none) ∧
        (d.CreateDeferredContext env t ContextFlags none).state = d ∧
        (d.CreateDeferredContext env t ContextFlags none).trace = t) ∧
    (∀ (d : D3D11Device) (t : Trace) (ContextFlags : Nat),
      (d.CreateDeferredContext1 env t ContextFlags none).ret = (E_INVALIDARG, none, none) ∧
        (d.CreateDeferredContext1 env t ContextFlags none).state = d ∧
        (d.CreateDeferredContext1 env t ContextFlags none).trace = t) :=
  ⟨fun _ _ _ _ => ⟨rfl, rfl, rfl⟩, fun _ _ _ _ => ⟨rfl, rfl, rfl⟩,
    fun _ _ _ => ⟨rfl, rfl, rfl⟩, fun _ _ _ => ⟨rfl, rfl, rfl⟩⟩

/-! ## Dispatch of `QueryInterface` on the devices -/

theorem context_QueryInterface_granted (env : Env) (c : D3D11DeviceContext) (t : Trace)
    (k : Nat) (slot : Ptr) (h1 : 1 ≤ k) (h3 : k ≤ 3) (hlt : c.mInterfaceVersion < k)
    (hgrant : FAILED (env.answer t (.QueryInterface .context c.mOrig
      (D3D11DeviceContext.revision k))).hr = false) :
    (c.QueryInterface env t (D3D11DeviceContext.revision k) (some slot)).ret
      = (S_OK, some c.addr) := by
  have hk : k = 1 ∨ k = 2 ∨ k = 3 := by omega
  rcases hk with rfl | rfl | rfl <;>
  · simp [D3D11DeviceContext.revision] at hgrant
    simp [D3D11DeviceContext.QueryInterface, D3D11DeviceContext.upgradeRegion,
      D3D11DeviceContext.revision, hlt, hgrant]

theorem device11_upgradeRegion_next (env : Env) (d : D3D11Device) (t : Trace) (k : Nat)
    (h1 : 1 ≤ k) (h3 : k ≤ 3) (hlt : d.mInterfaceVersion < k)
    (hgrant : FAILED (env.answer t (.QueryInterface .device d.mOrig
      (D3D11Device.revision k))).hr = false)
    (hctx : k ≤ d.mImmediateContext.mInterfaceVersion ∨
      FAILED (env.answer
        (t ++ [.QueryInterface .device d.mOrig (D3D11Device.revision k),
          .Release .device d.mOrig])
        (.QueryInterface .context d.mImmediateContext.mOrig
          (D3D11DeviceContext.revision k))).hr = false) :
    ∃ s u, d.upgradeRegion env t (D3D11Device.revision k) (D3D11Device.revision k)
        (D3D11DeviceContext.revision k) k = .next s u ∧
      s.mRef = d.mRef ∧ s.mInterfaceVersion = k ∧ s.addr = d.addr := by
  have hret : (d.mImmediateContext.QueryInterface env
      (t ++ [.QueryInterface .device d.mOrig (D3D11Device.revision k),
        .Release .device d.mOrig])
      (D3D11DeviceContext.revision k) (some none)).ret.2 = some d.mImmediateContext.addr := by
    by_cases hheld : k ≤ d.mImmediateContext.mInterfaceVersion
    · rw [context_QueryInterface_held env _ _ k none hheld]
    · have hg := hctx.resolve_left hheld
      rw [context_QueryInterface_granted env _ _ k none h1 h3 (by omega) hg]
  unfold D3D11Device.upgradeRegion
  simp only [hlt, hgrant, and_self, if_true, Bool.false_eq_true, if_false,
    List.append_assoc, List.singleton_append]
  split
  · exact ⟨_, _, rfl, rfl, rfl, rfl⟩
  · rename_i hnone
    rw [hret] at hnone
    cases hnone

/-- Dispatch of `QueryInterface` with an output slot on the D3D11 device and on
the D3D10 device, on the paths that return.  (1) For the proxy class id,
`IUnknown` or a family revision at or below the tag, and (2) for a family
revision above the tag whose upgrade is granted (by the real device and, on
D3D11, by the real context when the immediate context is below that
revision), the call returns `S_OK`, stores the proxy in the slot and leaves
`mRef` one higher.  (3) For a DXGI object or
device id it issues exactly the query on the extension object and returns its
result code and output.  (4) For every other id it issues exactly the query on
the real device and returns its result code and output.  In (3) and (4) the
device record is unchanged. -/
theorem QueryInterface_dispatch (env : Env) :
    (∀ (d : D3D11Device) (t : Trace) (slot : Ptr),
      (∀ riid : IID,
        (riid = .D3D11Device ∨ riid = .IUnknown ∨
          ∃ k, riid = D3D11Device.revision k ∧ k ≤ d.mInterfaceVersion) →
        (d.QueryInterface env t riid (some slot)).ret = (some S_OK, some d.addr) ∧
          (d.QueryInterface env t riid (some slot)).state.mRef = d.mRef + 1) ∧
      (∀ k : Nat, 1 ≤ k → k ≤ 3 → d.mInterfaceVersion < k →
        FAILED (env.answer t (.QueryInterface .device d.mOrig
          (D3D11Device.revision k))).hr = false →
        (k ≤ d.mImmediateContext.mInterfaceVersion ∨
          FAILED (env.answer
            (t ++ [.QueryInterface .device d.mOrig (D3D11Device.revision k),
              .Release .device d.mOrig])
            (.QueryInterface .context d.mImmediateContext.mOrig
              (D3D11DeviceContext.revision k))).hr = false) →
        (d.QueryInterface env t (D3D11Device.revision k) (some slot)).ret
            = (some S_OK, some d.addr) ∧
          (d.QueryInterface env t (D3D11Device.revision k) (some slot)).state.mRef
            = d.mRef + 1) ∧
      (∀ riid : IID,
        riid ∈ [IID.IDXGIObject, .IDXGIDevice, .IDXGIDevice1, .IDXGIDevice2, .IDXGIDevice3] →
        (d.QueryInterface env t riid (some slot)).ret
            = (some (env.answer t (.QueryInterface .dxgiDevice d.mDXGIDevice.addr riid)).hr,
              (env.answer t (.QueryInterface .dxgiDevice d.mDXGIDevice.addr riid)).written) ∧
          (d.QueryInterface env t riid (some slot)).state = d ∧
          (d.QueryInterface env t riid (some slot)).trace
            = t ++ [.QueryInterface .dxgiDevice d.mDXGIDevice.addr riid]) ∧
      (∀ riid : IID,
        riid ∉ [IID.D3D11Device, .IUnknown, .ID3D11Device, .ID3D11Device1, .ID3D11Device2,
          .ID3D11Device3] →
        riid ∉ [IID.IDXGIObject, .IDXGIDevice, .IDXGIDevice1, .IDXGIDevice2, .IDXGIDevice3] →
        (d.QueryInterface env t riid (some slot)).ret
            = (some (env.answer t (.QueryInterface .device d.mOrig riid)).hr,
              (env.answer t (.QueryInterface .device d.mOrig riid)).written) ∧
          (d.QueryInterface env t riid (some slot)).state = d ∧
          (d.QueryInterface env t riid (some slot)).trace
            = t ++ [.QueryInterface .device d.mOrig riid])) ∧
    (∀ (d : D3D10Device) (t : Trace) (slot : Ptr),
      (∀ riid : IID,
        (riid = .D3D10Device ∨ riid = .IUnknown ∨
          ∃ k, riid = D3D10Device.revision k ∧ k ≤ d.mInterfaceVersion) →
        (d.QueryInterface env t riid (some slot)).ret = (S_OK, some d.addr) ∧
          (d.QueryInterface env t riid (some slot)).state.mRef = d.mRef + 1) ∧
      (d.mInterfaceVersion < 1 →
        FAILED (env.answer t (.QueryInterface .device d.mOrig .ID3D10Device1)).hr = false →
        (d.QueryInterface env t .ID3D10Device1 (some slot)).ret = (S_OK, some d.addr) ∧
          (d.QueryInterface env t .ID3D10Device1 (some slot)).state.mRef = d.mRef + 1) ∧
      (∀ riid : IID,
        riid ∈ [IID.IDXGIObject, .IDXGIDevice, .IDXGIDevice1, .IDXGIDevice2, .IDXGIDevice3] →
        (d.QueryInterface env t riid (some slot)).ret
            = ((env.answer t (.QueryInterface .dxgiDevice d.mDXGIDevice.addr riid)).hr,
              (env.answer t (.QueryInterface .dxgiDevice d.mDXGIDevice.addr riid)).written) ∧
          (d.QueryInterface env t riid (some slot)).state = d ∧
          (d.QueryInterface env t riid (some slot)).trace
            = t ++ [.QueryInterface .dxgiDevice d.mDXGIDevice.addr riid]) ∧
      (∀ riid : IID,
        riid ∉ [IID.D3D10Device, .IUnknown, .ID3D10Device, .ID3D10Device1] →
        riid ∉ [IID.IDXGIObject, .IDXGIDevice, .IDXGIDevice1, .IDXGIDevice2, .IDXGIDevice3] →
        (d.QueryInterface env t riid (some slot)).ret
            = ((env.answer t (.QueryInterface .device d.mOrig riid)).hr,
              (env.answer t (.QueryInterface .device d.mOrig riid)).written) ∧
          (d.QueryInterface env t riid (some slot)).state = d ∧
          (d.QueryInterface env t riid (some slot)).trace
            = t ++ [.QueryInterface .device d.mOrig riid])) := by
  refine ⟨?_, ?_⟩
  · intro d t slot
    refine ⟨?_, ?_, ?_, ?_⟩
    · rintro riid (rfl | rfl | ⟨k, rfl, hk⟩)
      · simp [D3D11Device.QueryInterface, D3D11Device.upgradeRegion, Flow.andThen,
          D3D11Device.AddRef]
      · simp [D3D11Device.QueryInterface, D3D11Device.upgradeRegion, Flow.andThen,
          D3D11Device.AddRef]
      · rw [device11_QueryInterface_held env d t k slot hk]
        exact ⟨rfl, rfl⟩
    · intro k h1 h3 hlt hgrant hctx
      obtain ⟨s, u, hr, hm, _, ha⟩ := device11_upgradeRegion_next env d t k h1 h3 hlt hgrant hctx
      rw [device11_QueryInterface_revision env d t k slot h1 h3, hr]
      refine ⟨rfl, ?_⟩
      show (s.AddRef env u).state.mRef = d.mRef + 1
      rw [← hm]
      rfl
    · intro riid hmem
      simp only [List.mem_cons, List.mem_singleton, List.not_mem_nil, or_false] at hmem
      rcases hmem with rfl | rfl | rfl | rfl | rfl <;>
        simp [D3D11Device.QueryInterface]
    · intro riid hf hx
      simp only [List.mem_cons, List.mem_singleton, List.not_mem_nil, or_false, not_or] at hf hx
      simp [D3D11Device.QueryInterface, hf, hx]
  · intro d t slot
    refine ⟨?_, ?_, ?_, ?_⟩
    · rintro riid (rfl | rfl | ⟨k, rfl, hk⟩)
      · simp [D3D10Device.QueryInterface, D3D10Device.upgradeRegion, D3D10Device.AddRef]
      · simp [D3D10Device.QueryInterface, D3D10Device.upgradeRegion, D3D10Device.AddRef]
      · rw [device10_QueryInterface_held env d t k slot hk]
        exact ⟨rfl, rfl⟩
    · intro hlt hgrant
      simp [D3D10Device.QueryInterface, D3D10Device.upgradeRegion, D3D10Device.AddRef,
        hlt, hgrant]
    · intro riid hmem
      simp only [List.mem_cons, List.mem_singleton, List.not_mem_nil, or_false] at hmem
      rcases hmem with rfl | rfl | rfl | rfl | rfl <;>
        simp [D3D10Device.QueryInterface]
    · intro riid hf hx
      simp only [List.mem_cons, List.mem_singleton, List.not_mem_nil, or_false, not_or] at hf hx
      simp [D3D10Device.QueryInterface, hf, hx]

/-- Dispatch on the sample devices: an upgrade to revision 1 granted by the
real device and the real context, a DXGI id and an id the source does not
name. -/
theorem QueryInterface_dispatch_witness :
    ((Sample.device.QueryInterface Sample.granting [] .ID3D11Device1 (some none)).ret
        = (some S_OK, some 10) ∧
      (Sample.device.QueryInterface Sample.granting [] .ID3D11Device1 (some none)).state.mRef
        = 2) ∧
    (Sample.device.QueryInterface Sample.refusing [] .IDXGIDevice (some none)).trace
      = [.QueryInterface .dxgiDevice 30 .IDXGIDevice] ∧
    (Sample.device.QueryInterface Sample.refusing [] (.other 7) (some none)).ret
      = (some E_NOINTERFACE, none) ∧
    (Sample.device10.QueryInterface Sample.granting [] .ID3D10Device1 (some none)).ret
      = (S_OK, some 10) ∧
    (Sample.device10.QueryInterface Sample.refusing [] (.other 7) (some none)).state
      = Sample.device10 :=
  have g := QueryInterface_dispatch Sample.granting
  have r := QueryInterface_dispatch Sample.refusing
  ⟨(g.1 Sample.device [] none).2.1 1 (by decide) (by decide) (by decide) (by decide)
      (Or.inr (by decide)),
    ((r.1 Sample.device [] none).2.2.1 .IDXGIDevice (by decide)).2.2,
    ((r.1 Sample.device [] none).2.2.2 (.other 7) (by decide) (by decide)).1,
    ((g.2 Sample.device10 [] none).2.1 (by decide) (by decide)).1,
    ((r.2 Sample.device10 [] none).2.2.2 (.other 7) (by decide) (by decide)).2.1⟩

/-- C18, failing input: on the sample device at revision 0, `QueryInterface`
with an output slot for `ID3D11Device2`, an id of the wrapped device family
whose upgrade the real device grants, while the real context refuses the
upgrade query of the immediate context.  The call does not return a result
code: after the device's query and `Release` of the old real device and the
refused query on the real context 21, `devicecontext2->Release()` dereferences
a null pointer.  Nothing is stored in the output slot, no `AddRef` is made and
`mRef` stays at 1. -/
theorem QueryInterface_dispatch_granted_upgrade_faults :
    Sample.device.mInterfaceVersion < 2 ∧
    FAILED (Sample.contextRefusing.answer []
      (.QueryInterface .device 11 .ID3D11Device2)).hr = false ∧
    (Sample.device.QueryInterface Sample.contextRefusing [] .ID3D11Device2 (some none)).ret
      = (none, none) ∧
    Sample.device.mRef = 1 ∧
    (Sample.device.QueryInterface Sample.contextRefusing [] .ID3D11Device2
      (some none)).state.mRef = 1 ∧
    (Sample.device.QueryInterface Sample.contextRefusing [] .ID3D11Device2 (some none)).trace
      = [.QueryInterface .device 11 .ID3D11Device2, .Release .device 11,
          .QueryInterface .context 21 .ID3D11DeviceContext2] := by
  decide

/-! ## Lifetime of a view and of its ownership tag -/

theorem viewNet_append (view : Addr) (u v : Trace) :
    viewNet view (u ++ v) = viewNet view u + viewNet view v := by
  induction u with
  | nil => simp [viewNet]
  | cons e u ih =>
    cases e with
    | AddRef tg w => cases tg <;> simp [viewNet, ih, add_assoc]
    | trampolineRelease w => simp [viewNet, ih, add_assoc]
    | _ => simp [viewNet, ih]

theorem view11_release_early (env : Env) (d : D3D11Device) (t : Trace) (view : Addr)
    (h : (env.answer (t ++ [.GetPrivateData view .D3D11Device env.sizeofPtr])
      (.trampolineRelease view)).count ≠ 0) :
    (ID3D11DepthStencilView_Release env d t view).state = d ∧
    (ID3D11DepthStencilView_Release env d t view).trace
      = t ++ [.GetPrivateData view .D3D11Device env.sizeofPtr, .trampolineRelease view] := by
  simp [ID3D11DepthStencilView_Release, h]

theorem view11_release_final (env : Env) (d : D3D11Device) (t : Trace) (view : Addr)
    (hs : SUCCEEDED (env.answer t (.GetPrivateData view .D3D11Device env.sizeofPtr)).hr = true)
    (ha : (env.answer t (.GetPrivateData view .D3D11Device env.sizeofPtr)).obj = d.addr)
    (h : (env.answer (t ++ [.GetPrivateData view .D3D11Device env.sizeofPtr])
      (.trampolineRelease view)).count = 0) :
    (ID3D11DepthStencilView_Release env d t view).state
      = (d.Release env (t ++ [.GetPrivateData view .D3D11Device env.sizeofPtr,
          .trampolineRelease view] ++ d.mRuntimes.map
            (fun runtime => Event.notify runtime (.OnDeleteDepthStencilView view)))).state ∧
    (ID3D11DepthStencilView_Release env d t view).trace
      = t ++ [.GetPrivateData view .D3D11Device env.sizeofPtr, .trampolineRelease view] ++
        d.mRuntimes.map
          (fun runtime => Event.notify runtime (.OnDeleteDepthStencilView view)) ++
        [.Release .context d.mImmediateContext.mOrig, .Release .device d.mOrig] := by
  simp [ID3D11DepthStencilView_Release, hs, ha, h, device11_Release_trace]

theorem view11_run (env : Env) (d : D3D11Device) (view : Addr) (t : Trace) (c0 : Nat)
    (htag : TagAttached env view .D3D11Device d.addr t)
    (hcount : CountsView env view t c0) :
    ∀ (calls : List ViewCall) (u : Trace) (c : Nat),
      (c : Int) = c0 + viewNet view u → (∀ r n, Event.notify r n ∉ u) →
      drivesToZero c calls = true →
      ∃ pre v, calls = pre ++ [ViewCall.Release] ∧
        ID3D11DepthStencilView_callAll env view (d, t ++ u) pre = (d, t ++ v) ∧
        (∀ r n, Event.notify r n ∉ v) ∧
        ID3D11DepthStencilView_callAll env view (d, t ++ u) calls
          = ((d.Release env (t ++ v ++ [.GetPrivateData view .D3D11Device env.sizeofPtr,
                .trampolineRelease view] ++ d.mRuntimes.map
                  (fun runtime => Event.notify runtime
                    (.OnDeleteDepthStencilView view)))).state,
            t ++ v ++ [.GetPrivateData view .D3D11Device env.sizeofPtr,
                .trampolineRelease view] ++
              d.mRuntimes.map
                (fun runtime => Event.notify runtime (.OnDeleteDepthStencilView view)) ++
              [.Release .context d.mImmediateContext.mOrig, .Release .device d.mOrig]) := by
  intro calls
  induction calls with
  | nil =>
    intro u c _ _ h
    simp [drivesToZero] at h
  | cons call rest ih =>
    intro u c hc hn h
    cases call with
    | AddRef =>
      simp only [drivesToZero] at h
      have hc1 : ((c + 1 : Nat) : Int) = c0 + viewNet view (u ++ [Event.AddRef .view view]) := by
        rw [viewNet_append]
        simp [viewNet]
        omega
      have hn1 : ∀ r n, Event.notify r n ∉ u ++ [Event.AddRef .view view] := by
        intro r n hm
        simp at hm
        exact hn r n hm
      obtain ⟨pre, v, hpre, hrun, hv, hfin⟩ :=
        ih (u ++ [Event.AddRef .view view]) (c + 1) hc1 hn1 h
      refine ⟨ViewCall.AddRef :: pre, v, by rw [hpre]; rfl, ?_, hv, ?_⟩
      · simp only [ID3D11DepthStencilView_callAll, List.foldl_cons,
          ID3D11DepthStencilView_call, List.append_assoc]
        simpa only [ID3D11DepthStencilView_callAll, List.append_assoc] using hrun
      · simp only [ID3D11DepthStencilView_callAll, List.foldl_cons,
          ID3D11DepthStencilView_call, List.append_assoc]
        simpa only [ID3D11DepthStencilView_callAll, List.append_assoc] using hfin
    | Release =>
      have hg : viewNet view (u ++ [.GetPrivateData view .D3D11Device env.sizeofPtr])
          = viewNet view u := by
        rw [viewNet_append]
        simp [viewNet]
      have hrep := hcount (u ++ [.GetPrivateData view .D3D11Device env.sizeofPtr])
      rw [hg, ← hc, ← List.append_assoc] at hrep
      obtain ⟨hs, ha⟩ := htag u
      simp only [drivesToZero] at h
      by_cases h1 : c = 1
      · subst h1
        simp only [if_true, List.isEmpty_iff] at h
        subst h
        have hz : (env.answer (t ++ u ++ [.GetPrivateData view .D3D11Device env.sizeofPtr])
            (.trampolineRelease view)).count = 0 := by
          have := hrep (by norm_num)
          simpa using this
        obtain ⟨e1, e2⟩ := view11_release_final env d (t ++ u) view hs ha hz
        refine ⟨[], u, rfl, rfl, hn, ?_⟩
        simp only [ID3D11DepthStencilView_callAll, List.foldl_cons, List.foldl_nil,
          ID3D11DepthStencilView_call, e1, e2]
      · simp only [h1, if_false, Bool.and_eq_true, decide_eq_true_eq] at h
        obtain ⟨h2, hrest⟩ := h
        have hnz : (env.answer (t ++ u ++ [.GetPrivateData view .D3D11Device env.sizeofPtr])
            (.trampolineRelease view)).count ≠ 0 := by
          intro hzero
          have := hrep (by omega)
          rw [hzero] at this
          simp at this
          omega
        obtain ⟨e1, e2⟩ := view11_release_early env d (t ++ u) view hnz
        have hc1 : ((c - 1 : Nat) : Int) = c0 + viewNet view
            (u ++ [.GetPrivateData view .D3D11Device env.sizeofPtr,
              .trampolineRelease view]) := by
          rw [viewNet_append]
          simp [viewNet]
          omega
        have hn1 : ∀ r n, Event.notify r n ∉ u ++
            [.GetPrivateData view .D3D11Device env.sizeofPtr, .trampolineRelease view] := by
          intro r n hm
          simp at hm
          exact hn r n hm
        obtain ⟨pre, v, hpre, hrun, hv, hfin⟩ := ih _ (c - 1) hc1 hn1 hrest
        refine ⟨ViewCall.Release :: pre, v, by rw [hpre]; rfl, ?_, hv, ?_⟩
        · simp only [ID3D11DepthStencilView_callAll, List.foldl_cons,
            ID3D11DepthStencilView_call, e1, e2, List.append_assoc]
          simpa only [ID3D11DepthStencilView_callAll, List.append_assoc] using hrun
        · simp only [ID3D11DepthStencilView_callAll, List.foldl_cons,
            ID3D11DepthStencilView_call, e1, e2, List.append_assoc]
          simpa only [ID3D11DepthStencilView_callAll, List.append_assoc] using hfin

theorem view10_release_early (env : Env) (d : D3D10Device) (t : Trace) (view : Addr)
    (h : (env.answer (t ++ [.GetPrivateData view .D3D10Device env.sizeofPtr])
      (.trampolineRelease view)).count ≠ 0) :
    (ID3D10DepthStencilView_Release env d t view).state = d ∧
    (ID3D10DepthStencilView_Release env d t view).trace
      = t ++ [.GetPrivateData view .D3D10Device env.sizeofPtr, .trampolineRelease view] := by
  simp [ID3D10DepthStencilView_Release, h]

theorem view10_release_final (env : Env) (d : D3D10Device) (t : Trace) (view : Addr)
    (hs : SUCCEEDED (env.answer t (.GetPrivateData view .D3D10Device env.sizeofPtr)).hr = true)
    (ha : (env.answer t (.GetPrivateData view .D3D10Device env.sizeofPtr)).obj = d.addr)
    (h : (env.answer (t ++ [.GetPrivateData view .D3D10Device env.sizeofPtr])
      (.trampolineRelease view)).count = 0) :
    (ID3D10DepthStencilView_Release env d t view).state
      = (d.Release env (t ++ [.GetPrivateData view .D3D10Device env.sizeofPtr,
          .trampolineRelease view] ++ d.mRuntimes.map
            (fun runtime => Event.notify runtime (.OnDeleteDepthStencilView view)))).state ∧
    (ID3D10DepthStencilView_Release env d t view).trace
      = t ++ [.GetPrivateData view .D3D10Device env.sizeofPtr, .trampolineRelease view] ++
        d.mRuntimes.map
          (fun runtime => Event.notify runtime (.OnDeleteDepthStencilView view)) ++
        [.Release .device d.mOrig] := by
  simp [ID3D10DepthStencilView_Release, hs, ha, h, device10_Release_trace]

theorem view10_run (env : Env) (d : D3D10Device) (view : Addr) (t : Trace) (c0 : Nat)
    (htag : TagAttached env view .D3D10Device d.addr t)
    (hcount : CountsView env view t c0) :
    ∀ (calls : List ViewCall) (u : Trace) (c : Nat),
      (c : Int) = c0 + viewNet view u → (∀ r n, Event.notify r n ∉ u) →
      drivesToZero c calls = true →
      ∃ pre v, calls = pre ++ [ViewCall.Release] ∧
        ID3D10DepthStencilView_callAll env view (d, t ++ u) pre = (d, t ++ v) ∧
        (∀ r n, Event.notify r n ∉ v) ∧
        ID3D10DepthStencilView_callAll env view (d, t ++ u) calls
          = ((d.Release env (t ++ v ++ [.GetPrivateData view .D3D10Device env.sizeofPtr,
                .trampolineRelease view] ++ d.mRuntimes.map
                  (fun runtime => Event.notify runtime
                    (.OnDeleteDepthStencilView view)))).state,
            t ++ v ++ [.GetPrivateData view .D3D10Device env.sizeofPtr,
                .trampolineRelease view] ++
              d.mRuntimes.map
                (fun runtime => Event.notify runtime (.OnDeleteDepthStencilView view)) ++
              [.Release .device d.mOrig]) := by
  intro calls
  induction calls with
  | nil =>
    intro u c _ _ h
    simp [drivesToZero] at h
  | cons call rest ih =>
    intro u c hc hn h
    cases call with
    | AddRef =>
      simp only [drivesToZero] at h
      have hc1 : ((c + 1 : Nat) : Int) = c0 + viewNet view (u ++ [Event.AddRef .view view]) := by
        rw [viewNet_append]
        simp [viewNet]
        omega
      have hn1 : ∀ r n, Event.notify r n ∉ u ++ [Event.AddRef .view view] := by
        intro r n hm
        simp at hm
        exact hn r n hm
      obtain ⟨pre, v, hpre, hrun, hv, hfin⟩ :=
        ih (u ++ [Event.AddRef .view view]) (c + 1) hc1 hn1 h
      refine ⟨ViewCall.AddRef :: pre, v, by rw [hpre]; rfl, ?_, hv, ?_⟩
      · simp only [ID3D10DepthStencilView_callAll, List.foldl_cons,
          ID3D10DepthStencilView_call, List.append_assoc]
        simpa only [ID3D10DepthStencilView_callAll, List.append_assoc] using hrun
      · simp only [ID3D10DepthStencilView_callAll, List.foldl_cons,
          ID3D10DepthStencilView_call, List.append_assoc]
        simpa only [ID3D10DepthStencilView_callAll, List.append_assoc] using hfin
    | Release =>
      have hg : viewNet view (u ++ [.GetPrivateData view .D3D10Device env.sizeofPtr])
          = viewNet view u := by
        rw [viewNet_append]
        simp [viewNet]
      have hrep := hcount (u ++ [.GetPrivateData view .D3D10Device env.sizeofPtr])
      rw [hg, ← hc, ← List.append_assoc] at hrep
      obtain ⟨hs, ha⟩ := htag u
      simp only [drivesToZero] at h
      by_cases h1 : c = 1
      · subst h1
        simp only [if_true, List.isEmpty_iff] at h
        subst h
        have hz : (env.answer (t ++ u ++ [.GetPrivateData view .D3D10Device env.sizeofPtr])
            (.trampolineRelease view)).count = 0 := by
          have := hrep (by norm_num)
          simpa using this
        obtain ⟨e1, e2⟩ := view10_release_final env d (t ++ u) view hs ha hz
        refine ⟨[], u, rfl, rfl, hn, ?_⟩
        simp only [ID3D10DepthStencilView_callAll, List.foldl_cons, List.foldl_nil,
          ID3D10DepthStencilView_call, e1, e2]
      · simp only [h1, if_false, Bool.and_eq_true, decide_eq_true_eq] at h
        obtain ⟨h2, hrest⟩ := h
        have hnz : (env.answer (t ++ u ++ [.GetPrivateData view .D3D10Device env.sizeofPtr])
            (.trampolineRelease view)).count ≠ 0 := by
          intro hzero
          have := hrep (by omega)
          rw [hzero] at this
          simp at this
          omega
        obtain ⟨e1, e2⟩ := view10_release_early env d (t ++ u) view hnz
        have hc1 : ((c - 1 : Nat) : Int) = c0 + viewNet view
            (u ++ [.GetPrivateData view .D3D10Device env.sizeofPtr,
              .trampolineRelease view]) := by
          rw [viewNet_append]
          simp [viewNet]
          omega
        have hn1 : ∀ r n, Event.notify r n ∉ u ++
            [.GetPrivateData view .D3D10Device env.sizeofPtr, .trampolineRelease view] := by
          intro r n hm
          simp at hm
          exact hn r n hm
        obtain ⟨pre, v, hpre, hrun, hv, hfin⟩ := ih _ (c - 1) hc1 hn1 hrest
        refine ⟨ViewCall.Release :: pre, v, by rw [hpre]; rfl, ?_, hv, ?_⟩
        · simp only [ID3D10DepthStencilView_callAll, List.foldl_cons,
            ID3D10DepthStencilView_call, e1, e2, List.append_assoc]
          simpa only [ID3D10DepthStencilView_callAll, List.append_assoc] using hrun
        · simp only [ID3D10DepthStencilView_callAll, List.foldl_cons,
            ID3D10DepthStencilView_call, e1, e2, List.append_assoc]
          simpa only [ID3D10DepthStencilView_callAll, List.append_assoc] using hfin


theorem device11_CreateDepthStencilView_created (env : Env) (d : D3D11Device) (t : Trace)
    (pResource pDesc slot : Ptr)
    (h : FAILED (env.answer t (.CreateDepthStencilView d.mOrig pResource pDesc)).hr = false) :
    (d.CreateDepthStencilView env t pResource pDesc (some slot)).state
      = { d with
          mRef := d.mRef + 1
          mDXGIDevice := { d.mDXGIDevice with mRef := d.mDXGIDevice.mRef + 1 }
          mImmediateContext :=
            { d.mImmediateContext with mRef := d.mImmediateContext.mRef + 1 } } := by
  simp [D3D11Device.CreateDepthStencilView, h, D3D11Device.AddRef,
    D3D11DeviceContext.AddRef, DXGIDevice.InternalAddRef]

theorem device10_CreateDepthStencilView_created (env : Env) (d : D3D10Device) (t : Trace)
    (pResource pDesc slot : Ptr)
    (h : FAILED (env.answer t (.CreateDepthStencilView d.mOrig pResource pDesc)).hr = false) :
    (d.CreateDepthStencilView env t pResource pDesc (some slot)).state
      = { d with
          mRef := d.mRef + 1
          mDXGIDevice := { d.mDXGIDevice with mRef := d.mDXGIDevice.mRef + 1 } } := by
  simp [D3D10Device.CreateDepthStencilView, h, D3D10Device.AddRef,
    DXGIDevice.InternalAddRef]

/-- C11: a depth-stencil view is created successfully through the proxy device
(D3D11 or D3D10), its ownership tag is attached (from then on the tag read
gives the device's address) and the real view keeps a reference count that is
`c0` after the creation.  Then for every sequence of `AddRef` / `Release` calls
on the view that brings that count to zero with its last call and not before:
the calls before the last one deliver no notification at all and leave the
device as it was, and the last call, a `Release`, delivers after the tag read
and the original release exactly one `OnDeleteDepthStencilView(view)` per
listener registered on the device, in registration order, followed by the
calls of one device `Release`. -/
theorem view_deleted_notified_on_final_release (env : Env) :
    (∀ (d : D3D11Device) (t : Trace) (pResource pDesc slot : Ptr) (c0 : Nat)
        (calls : List ViewCall),
      let view := (env.answer t (.CreateDepthStencilView d.mOrig pResource pDesc)).obj
      let created := d.CreateDepthStencilView env t pResource pDesc (some slot)
      FAILED (env.answer t (.CreateDepthStencilView d.mOrig pResource pDesc)).hr = false →
      TagAttached env view .D3D11Device d.addr created.trace →
      CountsView env view created.trace c0 →
      drivesToZero c0 calls = true →
      ∃ pre v, calls = pre ++ [ViewCall.Release] ∧
        ID3D11DepthStencilView_callAll env view (created.state, created.trace) pre
          = (created.state, created.trace ++ v) ∧
        (∀ r n, Event.notify r n ∉ v) ∧
        (ID3D11DepthStencilView_callAll env view (created.state, created.trace) calls).2
          = created.trace ++ v ++
            [.GetPrivateData view .D3D11Device env.sizeofPtr, .trampolineRelease view] ++
            d.mRuntimes.map
              (fun runtime => Event.notify runtime (.OnDeleteDepthStencilView view)) ++
            [.Release .context d.mImmediateContext.mOrig, .Release .device d.mOrig]) ∧
    (∀ (d : D3D10Device) (t : Trace) (pResource pDesc slot : Ptr) (c0 : Nat)
        (calls : List ViewCall),
      let view := (env.answer t (.CreateDepthStencilView d.mOrig pResource pDesc)).obj
      let created := d.CreateDepthStencilView env t pResource pDesc (some slot)
      FAILED (env.answer t (.CreateDepthStencilView d.mOrig pResource pDesc)).hr = false →
      TagAttached env view .D3D10Device d.addr created.trace →
      CountsView env view created.trace c0 →
      drivesToZero c0 calls = true →
      ∃ pre v, calls = pre ++ [ViewCall.Release] ∧
        ID3D10DepthStencilView_callAll env view (created.state, created.trace) pre
          = (created.state, created.trace ++ v) ∧
        (∀ r n, Event.notify r n ∉ v) ∧
        (ID3D10DepthStencilView_callAll env view (created.state, created.trace) calls).2
          = created.trace ++ v ++
            [.GetPrivateData view .D3D10Device env.sizeofPtr, .trampolineRelease view] ++
            d.mRuntimes.map
              (fun runtime => Event.notify runtime (.OnDeleteDepthStencilView view)) ++
            [.Release .device d.mOrig]) := by
  refine ⟨?_, ?_⟩
  · intro d t pResource pDesc slot c0 calls view created hok htag hcount hdrive
    have hst := device11_CreateDepthStencilView_created env d t pResource pDesc slot hok
    have haddr : created.state.addr = d.addr := by
      show (d.CreateDepthStencilView env t pResource pDesc (some slot)).state.addr = d.addr
      rw [hst]
    have htag1 : TagAttached env view .D3D11Device created.state.addr created.trace := by
      rw [haddr]
      exact htag
    obtain ⟨pre, v, hpre, hrun, hv, hfin⟩ :=
      view11_run env created.state view created.trace c0 htag1 hcount calls [] c0
        (by simp [viewNet]) (by simp) hdrive
    simp only [List.append_nil] at hrun hfin
    refine ⟨pre, v, hpre, hrun, hv, ?_⟩
    rw [hfin]
    show _ = (d.CreateDepthStencilView env t pResource pDesc (some slot)).trace ++ _ ++ _ ++ _ ++ _
    have hfields : created.state
        = (d.CreateDepthStencilView env t pResource pDesc (some slot)).state := rfl
    rw [hfields, hst]
  · intro d t pResource pDesc slot c0 calls view created hok htag hcount hdrive
    have hst := device10_CreateDepthStencilView_created env d t pResource pDesc slot hok
    have haddr : created.state.addr = d.addr := by
      show (d.CreateDepthStencilView env t pResource pDesc (some slot)).state.addr = d.addr
      rw [hst]
    have htag1 : TagAttached env view .D3D10Device created.state.addr created.trace := by
      rw [haddr]
      exact htag
    obtain ⟨pre, v, hpre, hrun, hv, hfin⟩ :=
      view10_run env created.state view created.trace c0 htag1 hcount calls [] c0
        (by simp [viewNet]) (by simp) hdrive
    simp only [List.append_nil] at hrun hfin
    refine ⟨pre, v, hpre, hrun, hv, ?_⟩
    rw [hfin]
    show _ = (d.CreateDepthStencilView env t pResource pDesc (some slot)).trace ++ _ ++ _ ++ _ ++ _
    have hfields : created.state
        = (d.CreateDepthStencilView env t pResource pDesc (some slot)).state := rfl
    rw [hfields, hst]

/-- C12: under the conditions of C11 (successful creation through the proxy
device, tag attached, real view count `c0` driven to zero by the calls), the
device's `mRef` is one higher after `CreateDepthStencilView` than before, the
device record stays as the creation left it through every call before the last
one, and after the last call the device's `mRef`, the internal count of its
extension object and (D3D11) the `mRef` of its immediate context are the
values they had before the view was created. -/
theorem ownership_tag_holds_one_reference (env : Env) :
    (∀ (d : D3D11Device) (t : Trace) (pResource pDesc slot : Ptr) (c0 : Nat)
        (calls : List ViewCall),
      let view := (env.answer t (.CreateDepthStencilView d.mOrig pResource pDesc)).obj
      let created := d.CreateDepthStencilView env t pResource pDesc (some slot)
      FAILED (env.answer t (.CreateDepthStencilView d.mOrig pResource pDesc)).hr = false →
      TagAttached env view .D3D11Device d.addr created.trace →
      CountsView env view created.trace c0 →
      drivesToZero c0 calls = true →
      created.state.mRef = d.mRef + 1 ∧
      (ID3D11DepthStencilView_callAll env view (created.state, created.trace)
        calls.dropLast).1 = created.state ∧
      (ID3D11DepthStencilView_callAll env view (created.state, created.trace) calls).1.mRef
        = d.mRef ∧
      (ID3D11DepthStencilView_callAll env view (created.state, created.trace)
        calls).1.mDXGIDevice.mRef = d.mDXGIDevice.mRef ∧
      (ID3D11DepthStencilView_callAll env view (created.state, created.trace)
        calls).1.mImmediateContext.mRef = d.mImmediateContext.mRef) ∧
    (∀ (d : D3D10Device) (t : Trace) (pResource pDesc slot : Ptr) (c0 : Nat)
        (calls : List ViewCall),
      let view := (env.answer t (.CreateDepthStencilView d.mOrig pResource pDesc)).obj
      let created := d.CreateDepthStencilView env t pResource pDesc (some slot)
      FAILED (env.answer t (.CreateDepthStencilView d.mOrig pResource pDesc)).hr = false →
      TagAttached env view .D3D10Device d.addr created.trace →
      CountsView env view created.trace c0 →
      drivesToZero c0 calls = true →
      created.state.mRef = d.mRef + 1 ∧
      (ID3D10DepthStencilView_callAll env view (created.state, created.trace)
        calls.dropLast).1 = created.state ∧
      (ID3D10DepthStencilView_callAll env view (created.state, created.trace) calls).1.mRef
        = d.mRef ∧
      (ID3D10DepthStencilView_callAll env view (created.state, created.trace)
        calls).1.mDXGIDevice.mRef = d.mDXGIDevice.mRef) := by
  refine ⟨?_, ?_⟩
  · intro d t pResource pDesc slot c0 calls view created hok htag hcount hdrive
    have hst := device11_CreateDepthStencilView_created env d t pResource pDesc slot hok
    have hfields : created.state
        = (d.CreateDepthStencilView env t pResource pDesc (some slot)).state := rfl
    have haddr : created.state.addr = d.addr := by
      rw [hfields, hst]
    have htag1 : TagAttached env view .D3D11Device created.state.addr created.trace := by
      rw [haddr]
      exact htag
    obtain ⟨pre, v, hpre, hrun, hv, hfin⟩ :=
      view11_run env created.state view created.trace c0 htag1 hcount calls [] c0
        (by simp [viewNet]) (by simp) hdrive
    simp only [List.append_nil] at hrun hfin
    have hrel := device11_Release_counts env created.state
      (created.trace ++ v ++
        [.GetPrivateData view .D3D11Device env.sizeofPtr, .trampolineRelease view] ++
        created.state.mRuntimes.map
          (fun runtime => Event.notify runtime (.OnDeleteDepthStencilView view)))
    have hdrop : calls.dropLast = pre := by
      rw [hpre]
      simp
    have hm : created.state.mRef = d.mRef + 1 := by rw [hfields, hst]
    have hx : created.state.mDXGIDevice.mRef = d.mDXGIDevice.mRef + 1 := by rw [hfields, hst]
    have hi : created.state.mImmediateContext.mRef = d.mImmediateContext.mRef + 1 := by
      rw [hfields, hst]
    rw [hdrop, hrun, hfin]
    exact ⟨hm, rfl, hrel.1.trans (by rw [hm]; omega), hrel.2.1.trans (by rw [hx]; omega),
      hrel.2.2.trans (by rw [hi]; omega)⟩
  · intro d t pResource pDesc slot c0 calls view created hok htag hcount hdrive
    have hst := device10_CreateDepthStencilView_created env d t pResource pDesc slot hok
    have hfields : created.state
        = (d.CreateDepthStencilView env t pResource pDesc (some slot)).state := rfl
    have haddr : created.state.addr = d.addr := by
      rw [hfields, hst]
    have htag1 : TagAttached env view .D3D10Device created.state.addr created.trace := by
      rw [haddr]
      exact htag
    obtain ⟨pre, v, hpre, hrun, hv, hfin⟩ :=
      view10_run env created.state view created.trace c0 htag1 hcount calls [] c0
        (by simp [viewNet]) (by simp) hdrive
    simp only [List.append_nil] at hrun hfin
    have hrel := device10_Release_counts env created.state
      (created.trace ++ v ++
        [.GetPrivateData view .D3D10Device env.sizeofPtr, .trampolineRelease view] ++
        created.state.mRuntimes.map
          (fun runtime => Event.notify runtime (.OnDeleteDepthStencilView view)))
    have hdrop : calls.dropLast = pre := by
      rw [hpre]
      simp
    have hm : created.state.mRef = d.mRef + 1 := by rw [hfields, hst]
    have hx : created.state.mDXGIDevice.mRef = d.mDXGIDevice.mRef + 1 := by rw [hfields, hst]
    rw [hdrop, hrun, hfin]
    exact ⟨hm, rfl, hrel.1.trans (by rw [hm]; omega), hrel.2.trans (by rw [hx]; omega)⟩

theorem sample_counting_tag (guid : IID) (t : Trace) :
    TagAttached Sample.counting 500 guid 10 t :=
  fun _ => ⟨rfl, rfl⟩

theorem sample_counting_counts :
    CountsView Sample.counting 500 Sample.created.trace 1 ∧
    CountsView Sample.counting 500 Sample.created10.trace 1 := by
  have h11 : viewNet 500 Sample.created.trace = 0 := by decide
  have h10 : viewNet 500 Sample.created10.trace = 0 := by decide
  constructor
  · intro u hu
    show ((viewNet 500 (Sample.created.trace ++ u)).toNat : Int) = _
    rw [viewNet_append, h11]
    simp only [Nat.cast_one] at hu ⊢
    rw [Int.toNat_of_nonneg (by omega)]
    omega
  · intro u hu
    show ((viewNet 500 (Sample.created10.trace ++ u)).toNat : Int) = _
    rw [viewNet_append, h10]
    simp only [Nat.cast_one] at hu ⊢
    rw [Int.toNat_of_nonneg (by omega)]
    omega

/-- Witness of C11: view 500 of the sample devices, with real count 1 after
creation, receives `AddRef`, `Release`, `Release`; listeners 101 and 102 are
notified by the last call only. -/
theorem view_deleted_notified_on_final_release_witness :
    (∃ pre v, [ViewCall.AddRef, .Release, .Release] = pre ++ [ViewCall.Release] ∧
      ID3D11DepthStencilView_callAll Sample.counting 500
          (Sample.created.state, Sample.created.trace) pre
        = (Sample.created.state, Sample.created.trace ++ v) ∧
      (∀ r n, Event.notify r n ∉ v) ∧
      (ID3D11DepthStencilView_callAll Sample.counting 500
          (Sample.created.state, Sample.created.trace) [.AddRef, .Release, .Release]).2
        = Sample.created.trace ++ v ++
          [.GetPrivateData 500 .D3D11Device 8, .trampolineRelease 500] ++
          [.notify 101 (.OnDeleteDepthStencilView 500),
            .notify 102 (.OnDeleteDepthStencilView 500)] ++
          [.Release .context 21, .Release .device 11]) ∧
    (∃ pre v, [ViewCall.AddRef, .Release, .Release] = pre ++ [ViewCall.Release] ∧
      ID3D10DepthStencilView_callAll Sample.counting 500
          (Sample.created10.state, Sample.created10.trace) pre
        = (Sample.created10.state, Sample.created10.trace ++ v) ∧
      (∀ r n, Event.notify r n ∉ v) ∧
      (ID3D10DepthStencilView_callAll Sample.counting 500
          (Sample.created10.state, Sample.created10.trace) [.AddRef, .Release, .Release]).2
        = Sample.created10.trace ++ v ++
          [.GetPrivateData 500 .D3D10Device 8, .trampolineRelease 500] ++
          [.notify 101 (.OnDeleteDepthStencilView 500),
            .notify 102 (.OnDeleteDepthStencilView 500)] ++
          [.Release .device 11]) ∧
    (ID3D11DepthStencilView_callAll Sample.counting 500
        (Sample.created.state, Sample.created.trace) [.AddRef, .Release, .Release]).2
      = Sample.created.trace ++
        [.AddRef .view 500,
          .GetPrivateData 500 .D3D11Device 8, .trampolineRelease 500,
          .GetPrivateData 500 .D3D11Device 8, .trampolineRelease 500,
          .notify 101 (.OnDeleteDepthStencilView 500),
          .notify 102 (.OnDeleteDepthStencilView 500),
          .Release .context 21, .Release .device 11] :=
  ⟨(view_deleted_notified_on_final_release Sample.counting).1 Sample.device [] (some 7) none
      none 1 [.AddRef, .Release, .Release] (by decide) (sample_counting_tag _ _)
      sample_counting_counts.1 (by decide),
    (view_deleted_notified_on_final_release Sample.counting).2 Sample.device10 [] (some 7) none
      none 1 [.AddRef, .Release, .Release] (by decide) (sample_counting_tag _ _)
      sample_counting_counts.2 (by decide),
    by decide⟩

/-- Witness of C12 on the same scenario: the sample devices hold one reference
before the view is created, two while it lives and one after its last
release. -/
theorem ownership_tag_holds_one_reference_witness :
    (Sample.device.mRef = 1 ∧ Sample.created.state.mRef = 2 ∧
      (ID3D11DepthStencilView_callAll Sample.counting 500
        (Sample.created.state, Sample.created.trace) [.AddRef, .Release, .Release]).1.mRef = 1 ∧
      (ID3D11DepthStencilView_callAll Sample.counting 500
        (Sample.created.state, Sample.created.trace)
        [.AddRef, .Release, .Release]).1.mImmediateContext.mRef = 1) ∧
    (Sample.device10.mRef = 1 ∧ Sample.created10.state.mRef = 2 ∧
      (ID3D10DepthStencilView_callAll Sample.counting 500
        (Sample.created10.state, Sample.created10.trace) [.AddRef, .Release, .Release]).1.mRef
        = 1) :=
  have h11 := (ownership_tag_holds_one_reference Sample.counting).1 Sample.device [] (some 7)
    none none 1 [.AddRef, .Release, .Release] (by decide) (sample_counting_tag _ _)
    sample_counting_counts.1 (by decide)
  have h10 := (ownership_tag_holds_one_reference Sample.counting).2 Sample.device10 [] (some 7)
    none none 1 [.AddRef, .Release, .Release] (by decide) (sample_counting_tag _ _)
    sample_counting_counts.2 (by decide)
  ⟨⟨rfl, h11.1, h11.2.2.1, h11.2.2.2.2⟩, ⟨rfl, h10.1, h10.2.2.1⟩⟩

/-! ## Copies and draws without instancing -/

theorem notifications_append (t u : Trace) :
    Trace.notifications (t ++ u) = Trace.notifications t ++ Trace.notifications u := by
  simp [Trace.notifications]

theorem notifications_call (obj : Addr) (m : Method) (args : List Arg) :
    Trace.notifications [Event.call obj m args] = [] := rfl

/-- C21: `CopyResource(dst, src)` on the context and on the D3D10 device appends
one `OnCopyResource(dst, src)` notification per listener of the owning device,
in registration order, destination first and source second, and after the
last of them the one real `CopyResource(dst, src)`; `CopySubresourceRegion`
appends its one real call and delivers no notification. -/
theorem CopyResource_notifies_destination_then_source :
    (∀ (c : D3D11DeviceContext) (d : D3D11Device) (t : Trace) (dst src : Ptr),
      c.CopyResource d t dst src
        = t ++ d.mRuntimes.map
            (fun runtime => Event.notify runtime (.OnCopyResource dst src)) ++
          [.CopyResource c.mOrig dst src]) ∧
    (∀ (d : D3D10Device) (t : Trace) (dst src : Ptr),
      d.CopyResource t dst src
        = t ++ d.mRuntimes.map
            (fun runtime => Event.notify runtime (.OnCopyResource dst src)) ++
          [.CopyResource d.mOrig dst src]) ∧
    (∀ (c : D3D11DeviceContext) (t : Trace) (dst : Ptr) (DstSubresource DstX DstY DstZ : Nat)
        (src : Ptr) (SrcSubresource : Nat) (pSrcBox : Ptr),
      c.CopySubresourceRegion t dst DstSubresource DstX DstY DstZ src SrcSubresource pSrcBox
        = t ++ [.call c.mOrig .CopySubresourceRegion
            [.pointer dst, .word DstSubresource, .word DstX, .word DstY, .word DstZ,
              .pointer src, .word SrcSubresource, .pointer pSrcBox]] ∧
      Trace.notifications
          (c.CopySubresourceRegion t dst DstSubresource DstX DstY DstZ src SrcSubresource
            pSrcBox)
        = Trace.notifications t) ∧
    (∀ (d : D3D10Device) (t : Trace) (dst : Ptr) (DstSubresource DstX DstY DstZ : Nat)
        (src : Ptr) (SrcSubresource : Nat) (pSrcBox : Ptr),
      d.CopySubresourceRegion t dst DstSubresource DstX DstY DstZ src SrcSubresource pSrcBox
        = t ++ [.call d.mOrig .CopySubresourceRegion
            [.pointer dst, .word DstSubresource, .word DstX, .word DstY, .word DstZ,
              .pointer src, .word SrcSubresource, .pointer pSrcBox]] ∧
      Trace.notifications
          (d.CopySubresourceRegion t dst DstSubresource DstX DstY DstZ src SrcSubresource
            pSrcBox)
        = Trace.notifications t) := by
  refine ⟨fun _ _ _ _ _ => rfl, fun _ _ _ _ => rfl, ?_, ?_⟩
  · intro c t dst DstSubresource DstX DstY DstZ src SrcSubresource pSrcBox
    refine ⟨rfl, ?_⟩
    unfold D3D11DeviceContext.CopySubresourceRegion
    rw [notifications_append, notifications_call, List.append_nil]
  · intro d t dst DstSubresource DstX DstY DstZ src SrcSubresource pSrcBox
    refine ⟨rfl, ?_⟩
    unfold D3D10Device.CopySubresourceRegion
    rw [notifications_append, notifications_call, List.append_nil]

/-- Witness of C21: copying resource 8 into resource 7 with listeners 101 and
102 registered in that order gives the trace 101, 102, real call, each with
destination 7 first and source 8 second. -/
theorem CopyResource_notifies_destination_then_source_witness :
    Sample.context.CopyResource Sample.device [] (some 7) (some 8)
      = [.notify 101 (.OnCopyResource (some 7) (some 8)),
          .notify 102 (.OnCopyResource (some 7) (some 8)),
          .CopyResource 21 (some 7) (some 8)] :=
  CopyResource_notifies_destination_then_source.1 Sample.context Sample.device []
    (some 7) (some 8)

/-- C26: `Draw` and `DrawIndexed`, on the context and on the D3D10 device,
append one draw notification per listener of the owning device, in
registration order, carrying the vertex or index count exactly as given, and
after the last of them the one real draw with the arguments as given. -/
theorem Draw_notifies_given_count :
    (∀ (c : D3D11DeviceContext) (d : D3D11Device) (t : Trace)
        (VertexCount StartVertexLocation : Nat),
      c.Draw d t VertexCount StartVertexLocation
        = t ++ d.mRuntimes.map
            (fun runtime => Event.notify runtime (.OnDrawCall c.mOrig VertexCount)) ++
          [.Draw c.mOrig VertexCount StartVertexLocation]) ∧
    (∀ (c : D3D11DeviceContext) (d : D3D11Device) (t : Trace)
        (IndexCount StartIndexLocation : Nat) (BaseVertexLocation : Int),
      c.DrawIndexed d t IndexCount StartIndexLocation BaseVertexLocation
        = t ++ d.mRuntimes.map
            (fun runtime => Event.notify runtime (.OnDrawCall c.mOrig IndexCount)) ++
          [.DrawIndexed c.mOrig IndexCount StartIndexLocation BaseVertexLocation]) ∧
    (∀ (d : D3D10Device) (t : Trace) (VertexCount StartVertexLocation : Nat),
      d.Draw t VertexCount StartVertexLocation
        = t ++ d.mRuntimes.map
            (fun runtime => Event.notify runtime (.OnDrawCall10 VertexCount)) ++
          [.Draw d.mOrig VertexCount StartVertexLocation]) ∧
    (∀ (d : D3D10Device) (t : Trace)
        (IndexCount StartIndexLocation : Nat) (BaseVertexLocation : Int),
      d.DrawIndexed t IndexCount StartIndexLocation BaseVertexLocation
        = t ++ d.mRuntimes.map
            (fun runtime => Event.notify runtime (.OnDrawCall10 IndexCount)) ++
          [.DrawIndexed d.mOrig IndexCount StartIndexLocation BaseVertexLocation]) :=
  ⟨fun _ _ _ _ _ => rfl, fun _ _ _ _ _ _ => rfl, fun _ _ _ _ => rfl, fun _ _ _ _ _ => rfl⟩

/-- Witness of C26: `DrawIndexed(36, 6, -2)` with listeners 101 and 102 gives
the count 36 to both, then the real call with 36, 6, -2. -/
theorem Draw_notifies_given_count_witness :
    Sample.context.DrawIndexed Sample.device [] 36 6 (-2)
      = [.notify 101 (.OnDrawCall 21 36), .notify 102 (.OnDrawCall 21 36),
          .DrawIndexed 21 36 6 (-2)] :=
  Draw_notifies_given_count.2.1 Sample.context Sample.device [] 36 6 (-2)

/-- C27: `DrawAuto`, `DrawIndexedInstancedIndirect` and `DrawInstancedIndirect`
of the context, and `DrawAuto` of the D3D10 device, append exactly one event,
the real call of the same method with the arguments as given, and deliver no
notification. -/
theorem countless_draws_not_intercepted :
    (∀ (c : D3D11DeviceContext) (t : Trace),
      c.DrawAuto t = t ++ [.call c.mOrig .DrawAuto []] ∧
      Trace.notifications (c.DrawAuto t) = Trace.notifications t) ∧
    (∀ (c : D3D11DeviceContext) (t : Trace) (pBufferForArgs : Ptr)
        (AlignedByteOffsetForArgs : Nat),
      c.DrawIndexedInstancedIndirect t pBufferForArgs AlignedByteOffsetForArgs
        = t ++ [.call c.mOrig .DrawIndexedInstancedIndirect
            [.pointer pBufferForArgs, .word AlignedByteOffsetForArgs]] ∧
      Trace.notifications
          (c.DrawIndexedInstancedIndirect t pBufferForArgs AlignedByteOffsetForArgs)
        = Trace.notifications t) ∧
    (∀ (c : D3D11DeviceContext) (t : Trace) (pBufferForArgs : Ptr)
        (AlignedByteOffsetForArgs : Nat),
      c.DrawInstancedIndirect t pBufferForArgs AlignedByteOffsetForArgs
        = t ++ [.call c.mOrig .DrawInstancedIndirect
            [.pointer pBufferForArgs, .word AlignedByteOffsetForArgs]] ∧
      Trace.notifications
          (c.DrawInstancedIndirect t pBufferForArgs AlignedByteOffsetForArgs)
        = Trace.notifications t) ∧
    (∀ (d : D3D10Device) (t : Trace),
      d.DrawAuto t = t ++ [.call d.mOrig .DrawAuto []] ∧
      Trace.notifications (d.DrawAuto t) = Trace.notifications t) := by
  refine ⟨?_, ?_, ?_, ?_⟩
  · intro c t
    refine ⟨rfl, ?_⟩
    unfold D3D11DeviceContext.DrawAuto
    rw [notifications_append, notifications_call, List.append_nil]
  · intro c t pBufferForArgs AlignedByteOffsetForArgs
    refine ⟨rfl, ?_⟩
    unfold D3D11DeviceContext.DrawIndexedInstancedIndirect
    rw [notifications_append, notifications_call, List.append_nil]
  · intro c t pBufferForArgs AlignedByteOffsetForArgs
    refine ⟨rfl, ?_⟩
    unfold D3D11DeviceContext.DrawInstancedIndirect
    rw [notifications_append, notifications_call, List.append_nil]
  · intro d t
    refine ⟨rfl, ?_⟩
    unfold D3D10Device.DrawAuto
    rw [notifications_append, notifications_call, List.append_nil]

/-! ## Forwarded methods of the context -/

/-- C22, counterexample: `GetDevice` with a non-null output on the sample
context makes no call of `GetDevice` on the real context 21.  It calls `AddRef`
of the proxy device 10, which raises the device's `mRef` from 1 to 2 and
reaches the real context and the real device as `AddRef`, and stores the proxy
device 10 in the output. -/
theorem GetDevice_returns_proxy_device :
    (Sample.context.GetDevice Sample.granting Sample.device [] (some none)).trace
      = [.AddRef .context 21, .AddRef .device 11] ∧
    (Sample.context.GetDevice Sample.granting Sample.device [] (some none)).ret
      = some (some 10) ∧
    Sample.device.mRef = 1 ∧
    (Sample.context.GetDevice Sample.granting Sample.device [] (some none)).state.mRef = 2 := by
  decide

/-- C22, amended: every method of the proxy context listed in `Method`, that is
every method other than `QueryInterface`, `AddRef`, `Release`, `GetDevice` and
the intercepted draws, render-target operations, `ClearDepthStencilView` and
`CopyResource`, appends exactly one event, the call of the same method on the
real context with the arguments as given, delivers no notification, leaves
the proxy context as it was and returns the answer of that call.  `GetDevice`
is not a forward, it never calls `GetDevice` of the real context.  With a
non-null output it calls `AddRef` of the owning proxy device and stores that
proxy device in the output: the calls that leave the proxy layer are the two
of the device's `AddRef`, `AddRef` of the real context behind the device's
immediate context and `AddRef` of the real device, the device's `mRef` is one
higher and no notification is delivered.  With a null output it makes no call
and changes nothing.  The forwarded methods that have a definition of their
own above are instances of the common body. -/
theorem context_methods_forward_except_GetDevice :
    (∀ (env : Env) (c : D3D11DeviceContext) (t : Trace) (m : Method) (args : List Arg),
      (c.forward env t m args).trace = t ++ [.call c.mOrig m args] ∧
      Trace.notifications (c.forward env t m args).trace = Trace.notifications t ∧
      (c.forward env t m args).state = c ∧
      (c.forward env t m args).ret = env.answer t (.call c.mOrig m args)) ∧
    (∀ (env : Env) (c : D3D11DeviceContext) (d : D3D11Device) (t : Trace) (slot : Ptr),
      (c.GetDevice env d t (some slot)).trace
        = t ++ [.AddRef .context d.mImmediateContext.mOrig, .AddRef .device d.mOrig] ∧
      Trace.notifications (c.GetDevice env d t (some slot)).trace = Trace.notifications t ∧
      (c.GetDevice env d t (some slot)).state = (d.AddRef env t).state ∧
      (c.GetDevice env d t (some slot)).state.mRef = d.mRef + 1 ∧
      (c.GetDevice env d t (some slot)).ret = some (some c.mDevice)) ∧
    (∀ (env : Env) (c : D3D11DeviceContext) (d : D3D11Device) (t : Trace),
      (c.GetDevice env d t none).trace = t ∧
      (c.GetDevice env d t none).state = d ∧
      (c.GetDevice env d t none).ret = none) ∧
    (∀ (env : Env) (c : D3D11DeviceContext) (t : Trace) (p q : Ptr) (n : Nat)
        (DstSubresource DstX DstY DstZ SrcSubresource : Nat) (pSrcBox : Ptr),
      c.DrawAuto t = (c.forward env t .DrawAuto []).trace ∧
      c.DrawIndexedInstancedIndirect t p n
        = (c.forward env t .DrawIndexedInstancedIndirect [.pointer p, .word n]).trace ∧
      c.DrawInstancedIndirect t p n
        = (c.forward env t .DrawInstancedIndirect [.pointer p, .word n]).trace ∧
      c.CopySubresourceRegion t p DstSubresource DstX DstY DstZ q SrcSubresource pSrcBox
        = (c.forward env t .CopySubresourceRegion
            [.pointer p, .word DstSubresource, .word DstX, .word DstY, .word DstZ,
              .pointer q, .word SrcSubresource, .pointer pSrcBox]).trace) := by
  refine ⟨?_, ?_, ?_, fun _ _ _ _ _ _ _ _ _ _ _ _ => ⟨rfl, rfl, rfl, rfl⟩⟩
  · intro env c t m args
    refine ⟨rfl, ?_, rfl, rfl⟩
    unfold D3D11DeviceContext.forward
    dsimp only
    rw [notifications_append, notifications_call, List.append_nil]
  · intro env c d t slot
    have htrace : (c.GetDevice env d t (some slot)).trace
        = t ++ [.AddRef .context d.mImmediateContext.mOrig, .AddRef .device d.mOrig] := by
      simp [D3D11DeviceContext.GetDevice, D3D11Device.AddRef, D3D11DeviceContext.AddRef]
    refine ⟨htrace, ?_, rfl, rfl, rfl⟩
    rw [htrace, notifications_append]
    simp [Trace.notifications]
  · intro env c d t
    exact ⟨rfl, rfl, rfl⟩

/-! ## Reference counting on the context -/

theorem contextRefCall_frame (env : Env) (s : D3D11Device × Trace) (call : RefCall) :
    (D3D11Device.contextRefCall env s call).1.mRef = s.1.mRef ∧
    (D3D11Device.contextRefCall env s call).1.mDXGIDevice = s.1.mDXGIDevice ∧
    (D3D11Device.contextRefCall env s call).1.mInterfaceVersion = s.1.mInterfaceVersion ∧
    (D3D11Device.contextRefCall env s call).1.mOrig = s.1.mOrig ∧
    (D3D11Device.contextRefCall env s call).1.deleted = s.1.deleted ∧
    (D3D11Device.contextRefCall env s call).1.mImmediateContext.mOrig
      = s.1.mImmediateContext.mOrig ∧
    (D3D11Device.contextRefCall env s call).1.mImmediateContext.mInterfaceVersion
      = s.1.mImmediateContext.mInterfaceVersion ∧
    ∃ e, (D3D11Device.contextRefCall env s call).2 = s.2 ++ [e] ∧
      (e = .AddRef .context s.1.mImmediateContext.mOrig ∨
        e = .Release .context s.1.mImmediateContext.mOrig) := by
  cases call
  · refine ⟨rfl, rfl, rfl, rfl, rfl, rfl, rfl, _, rfl, Or.inl rfl⟩
  · refine ⟨rfl, rfl, rfl, rfl, rfl, ?_, ?_, _, context_Release_trace env _ _, Or.inr rfl⟩
    · show (s.1.mImmediateContext.Release env s.2).state.mOrig = _
      unfold D3D11DeviceContext.Release
      dsimp only
      repeat' split
      all_goals rfl
    · show (s.1.mImmediateContext.Release env s.2).state.mInterfaceVersion = _
      unfold D3D11DeviceContext.Release
      dsimp only
      repeat' split
      all_goals rfl

theorem contextRefAll_frame (env : Env) (calls : List RefCall) :
    ∀ s : D3D11Device × Trace,
      (D3D11Device.contextRefAll env s calls).1.mRef = s.1.mRef ∧
      (D3D11Device.contextRefAll env s calls).1.mDXGIDevice = s.1.mDXGIDevice ∧
      (D3D11Device.contextRefAll env s calls).1.mInterfaceVersion = s.1.mInterfaceVersion ∧
      (D3D11Device.contextRefAll env s calls).1.mOrig = s.1.mOrig ∧
      (D3D11Device.contextRefAll env s calls).1.deleted = s.1.deleted ∧
      (D3D11Device.contextRefAll env s calls).1.mImmediateContext.mOrig
        = s.1.mImmediateContext.mOrig ∧
      (D3D11Device.contextRefAll env s calls).1.mImmediateContext.mInterfaceVersion
        = s.1.mImmediateContext.mInterfaceVersion ∧
      ∃ u, (D3D11Device.contextRefAll env s calls).2 = s.2 ++ u ∧
        ∀ e ∈ u, e = .AddRef .context s.1.mImmediateContext.mOrig ∨
          e = .Release .context s.1.mImmediateContext.mOrig := by
  induction calls with
  | nil =>
    intro s
    exact ⟨rfl, rfl, rfl, rfl, rfl, rfl, rfl, [], (List.append_nil _).symm, by simp⟩
  | cons call rest ih =>
    intro s
    have hstep : D3D11Device.contextRefAll env s (call :: rest)
        = D3D11Device.contextRefAll env
            (if s.1.mImmediateContext.deleted then s
              else D3D11Device.contextRefCall env s call) rest := by
      simp [D3D11Device.contextRefAll]
    rw [hstep]
    by_cases hd : s.1.mImmediateContext.deleted = true
    · rw [if_pos hd]
      exact ih s
    · rw [if_neg hd]
      obtain ⟨h1, h2, h3, h4, h5, h6, h7, u, hu, hall⟩ :=
        ih (D3D11Device.contextRefCall env s call)
      obtain ⟨g1, g2, g3, g4, g5, g6, g7, e, he, hev⟩ := contextRefCall_frame env s call
      refine ⟨h1.trans g1, h2.trans g2, h3.trans g3, h4.trans g4, h5.trans g5, h6.trans g6,
        h7.trans g7, e :: u, ?_, ?_⟩
      · rw [hu, he]
        simp
      · intro x hx
        rcases List.mem_cons.mp hx with hx | hx
        · rw [hx]
          exact hev
        · have := hall x hx
          rw [g6] at this
          exact this

/-- C23: `AddRef` and `Release` of a proxy context change the context's own
`mRef` by one, keep its other members, and make one call, on the real context.
Whatever sequence of them the application issues on the immediate context of
a proxy device, the device's `mRef`, the count of its extension object and its
interface-version tag stay as they were, and every call that leaves the proxy
layer is an `AddRef` or a `Release` of the real context. -/
theorem context_counting_leaves_device_untouched (env : Env) (d : D3D11Device) (t : Trace)
    (calls : List RefCall) :
    (∀ c : D3D11DeviceContext,
      (c.AddRef env t).state = { c with mRef := c.mRef + 1 } ∧
      (c.AddRef env t).trace = t ++ [.AddRef .context c.mOrig] ∧
      (c.Release env t).state.mRef = c.mRef - 1 ∧
      (c.Release env t).state.mInterfaceVersion = c.mInterfaceVersion ∧
      (c.Release env t).trace = t ++ [.Release .context c.mOrig]) ∧
    (D3D11Device.contextRefAll env (d, t) calls).1.mRef = d.mRef ∧
    (D3D11Device.contextRefAll env (d, t) calls).1.mDXGIDevice.mRef = d.mDXGIDevice.mRef ∧
    (D3D11Device.contextRefAll env (d, t) calls).1.mInterfaceVersion = d.mInterfaceVersion ∧
    ∃ u, (D3D11Device.contextRefAll env (d, t) calls).2 = t ++ u ∧
      ∀ e ∈ u, e = .AddRef .context d.mImmediateContext.mOrig ∨
        e = .Release .context d.mImmediateContext.mOrig := by
  obtain ⟨h1, h2, h3, _, _, _, _, hu⟩ := contextRefAll_frame env calls (d, t)
  refine ⟨?_, h1, by rw [h2], h3, hu⟩
  intro c
  refine ⟨rfl, rfl, context_Release_counts env c t, ?_, context_Release_trace env c t⟩
  unfold D3D11DeviceContext.Release
  dsimp only
  repeat' split
  all_goals rfl

/-- Example for C23: on the sample device, `AddRef`, `AddRef`, `Release` on the
immediate context leave the device's `mRef` at 1 and the extension's count at
1, while the context's `mRef` goes from 1 to 2. -/
theorem context_counting_example :
    (D3D11Device.contextRefAll Sample.granting (Sample.device, [])
        [.AddRef, .AddRef, .Release]).1.mRef = 1 ∧
    (D3D11Device.contextRefAll Sample.granting (Sample.device, [])
        [.AddRef, .AddRef, .Release]).1.mDXGIDevice.mRef = 1 ∧
    (D3D11Device.contextRefAll Sample.granting (Sample.device, [])
        [.AddRef, .AddRef, .Release]).1.mImmediateContext.mRef = 2 ∧
    (D3D11Device.contextRefAll Sample.granting (Sample.device, [])
        [.AddRef, .AddRef, .Release]).2
      = [.AddRef .context 21, .AddRef .context 21, .Release .context 21] := by
  decide

/-! ## What `Release` returns -/

/-- C29: on the context, the D3D11 device and the D3D10 device, `Release` of a
live proxy returns 0 exactly when the call destroys the proxy, for every
`mRef` and every count the real object reports; when the proxy survives the
value returned is the count reported by the real object's `Release`, which is
not 0. -/
theorem Release_returns_zero_iff_destroyed :
    (∀ (env : Env) (c : D3D11DeviceContext) (t : Trace), c.deleted = false →
      ((c.Release env t).ret = 0 ↔ (c.Release env t).state.deleted = true) ∧
      ((c.Release env t).state.deleted = false →
        (c.Release env t).ret = (env.answer t (.Release .context c.mOrig)).count ∧
        (c.Release env t).ret ≠ 0)) ∧
    (∀ (env : Env) (d : D3D11Device) (t : Trace), d.deleted = false →
      ((d.Release env t).ret = 0 ↔ (d.Release env t).state.deleted = true) ∧
      ((d.Release env t).state.deleted = false →
        (d.Release env t).ret
          = (env.answer (t ++ [.Release .context d.mImmediateContext.mOrig])
              (.Release .device d.mOrig)).count ∧
        (d.Release env t).ret ≠ 0)) ∧
    (∀ (env : Env) (d : D3D10Device) (t : Trace), d.deleted = false →
      ((d.Release env t).ret = 0 ↔ (d.Release env t).state.deleted = true) ∧
      ((d.Release env t).state.deleted = false →
        (d.Release env t).ret = (env.answer t (.Release .device d.mOrig)).count ∧
        (d.Release env t).ret ≠ 0)) := by
  refine ⟨?_, ?_, ?_⟩
  · intro env c t h
    unfold D3D11DeviceContext.Release
    dsimp only
    by_cases h1 : c.mRef - 1 = 0 <;>
      by_cases h2 : (env.answer t (.Release .context c.mOrig)).count = 0 <;>
      simp [h, h1, h2]
  · intro env d t h
    rw [← context_Release_trace env d.mImmediateContext t]
    unfold D3D11Device.Release
    dsimp only
    by_cases h1 : d.mRef - 1 = 0 <;>
      by_cases h2 : (env.answer (d.mImmediateContext.Release env t).trace
        (.Release .device d.mOrig)).count = 0 <;>
      simp [h, h1, h2]
  · intro env d t h
    unfold D3D10Device.Release
    dsimp only
    by_cases h1 : d.mRef - 1 = 0 <;>
      by_cases h2 : (env.answer t (.Release .device d.mOrig)).count = 0 <;>
      simp [h, h1, h2]

/-- Witness of C29: with two references held and the real object reporting 1,
`Release` of the sample context, D3D11 device and D3D10 device returns 1 and
the proxy survives. -/
theorem Release_returns_zero_iff_destroyed_witness :
    (Sample.contextTwice.deleted = false ∧
      (Sample.contextTwice.Release Sample.granting []).state.deleted = false ∧
      (Sample.contextTwice.Release Sample.granting []).ret = 1) ∧
    (Sample.deviceTwice.deleted = false ∧
      (Sample.deviceTwice.Release Sample.granting []).state.deleted = false ∧
      (Sample.deviceTwice.Release Sample.granting []).ret = 1) ∧
    (Sample.device10Twice.deleted = false ∧
      (Sample.device10Twice.Release Sample.granting []).state.deleted = false ∧
      (Sample.device10Twice.Release Sample.granting []).ret = 1) :=
  ⟨⟨rfl, by decide,
      ((Release_returns_zero_iff_destroyed.1 Sample.granting Sample.contextTwice [] rfl).2
        (by decide)).1⟩,
    ⟨rfl, by decide,
      ((Release_returns_zero_iff_destroyed.2.1 Sample.granting Sample.deviceTwice [] rfl).2
        (by decide)).1⟩,
    ⟨rfl, by decide,
      ((Release_returns_zero_iff_destroyed.2.2 Sample.granting Sample.device10Twice [] rfl).2
        (by decide)).1⟩⟩

/-! ## A view whose ownership tag could not be attached -/

/-- C30: a successful `CreateDepthStencilView` with a non-null output, on the
D3D11 and on the D3D10 proxy device, returns `S_OK` with the device's `mRef`
raised by one for every environment, that is whatever `SetPrivateData`
answers: the attachment is attempted after the device `AddRef` and its result
is not read.  When the tag is not on the view, so that the tag read of the
patched release fails, the patched release makes the tag read and the original
release and nothing else: no notification is delivered, the device is left as
it was, still holding the reference taken at creation, and the count reported
by the original release is returned. -/
theorem CreateDepthStencilView_keeps_reference_without_tag (env : Env) :
    (∀ (d : D3D11Device) (t : Trace) (pResource pDesc slot : Ptr),
      let view := (env.answer t (.CreateDepthStencilView d.mOrig pResource pDesc)).obj
      let created := d.CreateDepthStencilView env t pResource pDesc (some slot)
      FAILED (env.answer t (.CreateDepthStencilView d.mOrig pResource pDesc)).hr = false →
      created.ret = (S_OK, some view) ∧
      created.state.mRef = d.mRef + 1 ∧
      (∃ u, created.trace
        = u ++ [.AddRef .device d.mOrig,
            .SetPrivateData view .D3D11Device env.sizeofPtr d.addr,
            .Install (env.VTABLE view) 2 .ID3D11DepthStencilView_Release]) ∧
      ∀ later : Trace,
        SUCCEEDED (env.answer later (.GetPrivateData view .D3D11Device env.sizeofPtr)).hr
          = false →
        (ID3D11DepthStencilView_Release env created.state later view).state = created.state ∧
        (ID3D11DepthStencilView_Release env created.state later view).state.mRef
          = d.mRef + 1 ∧
        (ID3D11DepthStencilView_Release env created.state later view).trace
          = later ++ [.GetPrivateData view .D3D11Device env.sizeofPtr,
              .trampolineRelease view] ∧
        (ID3D11DepthStencilView_Release env created.state later view).ret
          = some (env.answer (later ++ [.GetPrivateData view .D3D11Device env.sizeofPtr])
              (.trampolineRelease view)).count) ∧
    (∀ (d : D3D10Device) (t : Trace) (pResource pDesc slot : Ptr),
      let view := (env.answer t (.CreateDepthStencilView d.mOrig pResource pDesc)).obj
      let created := d.CreateDepthStencilView env t pResource pDesc (some slot)
      FAILED (env.answer t (.CreateDepthStencilView d.mOrig pResource pDesc)).hr = false →
      created.ret = (S_OK, some view) ∧
      created.state.mRef = d.mRef + 1 ∧
      (∃ u, created.trace
        = u ++ [.AddRef .device d.mOrig,
            .SetPrivateData view .D3D10Device env.sizeofPtr d.addr,
            .Install (env.VTABLE view) 2 .ID3D10DepthStencilView_Release]) ∧
      ∀ later : Trace,
        SUCCEEDED (env.answer later (.GetPrivateData view .D3D10Device env.sizeofPtr)).hr
          = false →
        (ID3D10DepthStencilView_Release env created.state later view).state = created.state ∧
        (ID3D10DepthStencilView_Release env created.state later view).state.mRef
          = d.mRef + 1 ∧
        (ID3D10DepthStencilView_Release env created.state later view).trace
          = later ++ [.GetPrivateData view .D3D10Device env.sizeofPtr,
              .trampolineRelease view] ∧
        (ID3D10DepthStencilView_Release env created.state later view).ret
          = some (env.answer (later ++ [.GetPrivateData view .D3D10Device env.sizeofPtr])
              (.trampolineRelease view)).count) := by
  refine ⟨?_, ?_⟩
  · intro d t pResource pDesc slot view created h
    have hst := device11_CreateDepthStencilView_created env d t pResource pDesc slot h
    have hm : created.state.mRef = d.mRef + 1 := by
      show (d.CreateDepthStencilView env t pResource pDesc (some slot)).state.mRef = _
      rw [hst]
    refine ⟨?_, hm, ?_, ?_⟩
    · simp [created, view, D3D11Device.CreateDepthStencilView, h]
    · refine ⟨t ++ [.CreateDepthStencilView d.mOrig pResource pDesc] ++
        d.mRuntimes.map (fun runtime =>
          Event.notify runtime (.OnCreateDepthStencilView pResource view)) ++
        [.AddRef .context d.mImmediateContext.mOrig], ?_⟩
      simp [created, view, D3D11Device.CreateDepthStencilView, h, D3D11Device.AddRef,
        D3D11DeviceContext.AddRef]
    · intro later hread
      have hrel : ID3D11DepthStencilView_Release env created.state later view
          = ⟨created.state,
              later ++ [.GetPrivateData view .D3D11Device env.sizeofPtr,
                .trampolineRelease view],
              some (env.answer (later ++ [.GetPrivateData view .D3D11Device env.sizeofPtr])
                (.trampolineRelease view)).count⟩ := by
        simp [ID3D11DepthStencilView_Release, hread]
      rw [hrel]
      exact ⟨rfl, hm, rfl, rfl⟩
  · intro d t pResource pDesc slot view created h
    have hst := device10_CreateDepthStencilView_created env d t pResource pDesc slot h
    have hm : created.state.mRef = d.mRef + 1 := by
      show (d.CreateDepthStencilView env t pResource pDesc (some slot)).state.mRef = _
      rw [hst]
    refine ⟨?_, hm, ?_, ?_⟩
    · simp [created, view, D3D10Device.CreateDepthStencilView, h]
    · refine ⟨t ++ [.CreateDepthStencilView d.mOrig pResource pDesc] ++
        d.mRuntimes.map (fun runtime =>
          Event.notify runtime (.OnCreateDepthStencilView pResource view)), ?_⟩
      simp [created, view, D3D10Device.CreateDepthStencilView, h, D3D10Device.AddRef]
    · intro later hread
      have hrel : ID3D10DepthStencilView_Release env created.state later view
          = ⟨created.state,
              later ++ [.GetPrivateData view .D3D10Device env.sizeofPtr,
                .trampolineRelease view],
              some (env.answer (later ++ [.GetPrivateData view .D3D10Device env.sizeofPtr])
                (.trampolineRelease view)).count⟩ := by
        simp [ID3D10DepthStencilView_Release, hread]
      rw [hrel]
      exact ⟨rfl, hm, rfl, rfl⟩

/-- Witness of C30: in the sample environment where a view accepts no private
data, the sample D3D11 device creates view 500 with `S_OK` and its `mRef` goes
from 1 to 2; the patched release of the view, called right after, returns the
count 0 of the original release, makes no other call and leaves `mRef`
at 2. -/
theorem CreateDepthStencilView_keeps_reference_without_tag_witness :
    FAILED (Sample.untagged.answer [] (.SetPrivateData 500 .D3D11Device 8 10)).hr = true ∧
    FAILED (Sample.untagged.answer [] (.CreateDepthStencilView 11 (some 7) none)).hr = false ∧
    (Sample.device.CreateDepthStencilView Sample.untagged [] (some 7) none (some none)).ret
      = (S_OK, some 500) ∧
    (Sample.device.CreateDepthStencilView Sample.untagged [] (some 7) none
      (some none)).state.mRef = 1 + 1 ∧
    (ID3D11DepthStencilView_Release Sample.untagged
      (Sample.device.CreateDepthStencilView Sample.untagged [] (some 7) none (some none)).state
      (Sample.device.CreateDepthStencilView Sample.untagged [] (some 7) none (some none)).trace
      500).state.mRef = 1 + 1 ∧
    (ID3D11DepthStencilView_Release Sample.untagged
      (Sample.device.CreateDepthStencilView Sample.untagged [] (some 7) none (some none)).state
      (Sample.device.CreateDepthStencilView Sample.untagged [] (some 7) none (some none)).trace
      500).ret = some 0 :=
  ⟨by decide, by decide,
    ((CreateDepthStencilView_keeps_reference_without_tag Sample.untagged).1
      Sample.device [] (some 7) none none (by decide)).1,
    ((CreateDepthStencilView_keeps_reference_without_tag Sample.untagged).1
      Sample.device [] (some 7) none none (by decide)).2.1,
    (((CreateDepthStencilView_keeps_reference_without_tag Sample.untagged).1
      Sample.device [] (some 7) none none (by decide)).2.2.2
        (Sample.device.CreateDepthStencilView Sample.untagged [] (some 7) none
          (some none)).trace (by decide)).2.1,
    (((CreateDepthStencilView_keeps_reference_without_tag Sample.untagged).1
      Sample.device [] (some 7) none none (by decide)).2.2.2
        (Sample.device.CreateDepthStencilView Sample.untagged [] (some 7) none
          (some none)).trace (by decide)).2.2.2⟩

/-! ## Requests to the hook installer -/

theorem installs_append (t u : Trace) :
    Trace.installs (t ++ u) = Trace.installs t ++ Trace.installs u := by
  simp [Trace.installs]

theorem installs_notify (l : List Addr) (n : Notification) :
    Trace.installs (l.map (fun runtime => Event.notify runtime n)) = [] := by
  induction l with
  | nil => rfl
  | cons a l ih =>
    simp [Trace.installs]

theorem device11_CreateDepthStencilView_installs (env : Env) (d : D3D11Device) (t : Trace)
    (pResource pDesc : Ptr) (ppDepthStencilView : Option Ptr) :
    Trace.installs (d.CreateDepthStencilView env t pResource pDesc ppDepthStencilView).trace
      = Trace.installs t ++
        (createdView (d.CreateDepthStencilView env t pResource pDesc ppDepthStencilView).ret).map
          (fun view => (env.VTABLE view, 2, HookFunction.ID3D11DepthStencilView_Release)) := by
  cases ppDepthStencilView with
  | none => simp [D3D11Device.CreateDepthStencilView, createdView, SUCCEEDED, E_INVALIDARG]
  | some slot =>
    by_cases h : FAILED (env.answer t (.CreateDepthStencilView d.mOrig pResource pDesc)).hr
        = true
    · have hs : SUCCEEDED (env.answer t (.CreateDepthStencilView d.mOrig pResource pDesc)).hr
          = false := by
        simp only [FAILED, SUCCEEDED, decide_eq_true_eq, decide_eq_false_iff_not] at h ⊢
        exact not_le.mpr h
      simp [D3D11Device.CreateDepthStencilView, createdView, h, hs, installs_append,
        Trace.installs]
    · simp only [Bool.not_eq_true] at h
      simp [D3D11Device.CreateDepthStencilView, createdView, h, SUCCEEDED, S_OK,
        D3D11Device.AddRef, D3D11DeviceContext.AddRef, installs_append, installs_notify]
      simp [Trace.installs]

theorem device10_CreateDepthStencilView_installs (env : Env) (d : D3D10Device) (t : Trace)
    (pResource pDesc : Ptr) (ppDepthStencilView : Option Ptr) :
    Trace.installs (d.CreateDepthStencilView env t pResource pDesc ppDepthStencilView).trace
      = Trace.installs t ++
        (createdView (d.CreateDepthStencilView env t pResource pDesc ppDepthStencilView).ret).map
          (fun view => (env.VTABLE view, 2, HookFunction.ID3D10DepthStencilView_Release)) := by
  cases ppDepthStencilView with
  | none => simp [D3D10Device.CreateDepthStencilView, createdView, SUCCEEDED, E_INVALIDARG]
  | some slot =>
    by_cases h : FAILED (env.answer t (.CreateDepthStencilView d.mOrig pResource pDesc)).hr
        = true
    · have hs : SUCCEEDED (env.answer t (.CreateDepthStencilView d.mOrig pResource pDesc)).hr
          = false := by
        simp only [FAILED, SUCCEEDED, decide_eq_true_eq, decide_eq_false_iff_not] at h ⊢
        exact not_le.mpr h
      simp [D3D10Device.CreateDepthStencilView, createdView, h, hs, installs_append,
        Trace.installs]
    · simp only [Bool.not_eq_true] at h
      simp [D3D10Device.CreateDepthStencilView, createdView, h, SUCCEEDED, S_OK,
        D3D10Device.AddRef, installs_append, installs_notify]
      simp [Trace.installs]

theorem device11_createAll_installs (env : Env) (requests : List (Ptr × Ptr × Option Ptr)) :
    ∀ s : D3D11Device × Trace × List Addr,
      ∃ views, (D3D11Device.createAll env s requests).2.2 = s.2.2 ++ views ∧
        Trace.installs (D3D11Device.createAll env s requests).2.1
          = Trace.installs s.2.1 ++ views.map
              (fun view => (env.VTABLE view, 2, HookFunction.ID3D11DepthStencilView_Release)) := by
  induction requests with
  | nil =>
    intro s
    exact ⟨[], by simp [D3D11Device.createAll], by simp [D3D11Device.createAll]⟩
  | cons r rest ih =>
    intro s
    obtain ⟨views, hv, hi⟩ := ih
      ((s.1.CreateDepthStencilView env s.2.1 r.1 r.2.1 r.2.2).state,
        (s.1.CreateDepthStencilView env s.2.1 r.1 r.2.1 r.2.2).trace,
        s.2.2 ++ createdView (s.1.CreateDepthStencilView env s.2.1 r.1 r.2.1 r.2.2).ret)
    refine ⟨createdView (s.1.CreateDepthStencilView env s.2.1 r.1 r.2.1 r.2.2).ret ++ views,
      ?_, ?_⟩
    · simp only [D3D11Device.createAll, List.foldl_cons] at hv ⊢
      rw [hv, List.append_assoc]
    · simp only [D3D11Device.createAll, List.foldl_cons] at hi ⊢
      rw [hi, device11_CreateDepthStencilView_installs, List.map_append, List.append_assoc]

theorem device10_createAll_installs (env : Env) (requests : List (Ptr × Ptr × Option Ptr)) :
    ∀ s : D3D10Device × Trace × List Addr,
      ∃ views, (D3D10Device.createAll env s requests).2.2 = s.2.2 ++ views ∧
        Trace.installs (D3D10Device.createAll env s requests).2.1
          = Trace.installs s.2.1 ++ views.map
              (fun view => (env.VTABLE view, 2, HookFunction.ID3D10DepthStencilView_Release)) := by
  induction requests with
  | nil =>
    intro s
    exact ⟨[], by simp [D3D10Device.createAll], by simp [D3D10Device.createAll]⟩
  | cons r rest ih =>
    intro s
    obtain ⟨views, hv, hi⟩ := ih
      ((s.1.CreateDepthStencilView env s.2.1 r.1 r.2.1 r.2.2).state,
        (s.1.CreateDepthStencilView env s.2.1 r.1 r.2.1 r.2.2).trace,
        s.2.2 ++ createdView (s.1.CreateDepthStencilView env s.2.1 r.1 r.2.1 r.2.2).ret)
    refine ⟨createdView (s.1.CreateDepthStencilView env s.2.1 r.1 r.2.1 r.2.2).ret ++ views,
      ?_, ?_⟩
    · simp only [D3D10Device.createAll, List.foldl_cons] at hv ⊢
      rw [hv, List.append_assoc]
    · simp only [D3D10Device.createAll, List.foldl_cons] at hi ⊢
      rw [hi, device10_CreateDepthStencilView_installs, List.map_append, List.append_assoc]

/-- C24, counterexample: the sample device creates two views, 500 and 507, that
share the dispatch table 9000; the hook installer is asked twice to replace
slot 2 of table 9000, once per created view. -/
theorem Install_requested_for_every_view :
    Sample.sharedTable.VTABLE 500 = Sample.sharedTable.VTABLE 507 ∧
    (D3D11Device.createAll Sample.sharedTable (Sample.device, [], [])
      [(some 7, none, some none), (some 8, none, some none)]).2.2 = [500, 507] ∧
    Trace.installs (D3D11Device.createAll Sample.sharedTable (Sample.device, [], [])
      [(some 7, none, some none), (some 8, none, some none)]).2.1
      = [(9000, 2, .ID3D11DepthStencilView_Release),
          (9000, 2, .ID3D11DepthStencilView_Release)] := by
  decide

/-- C24, amended: for every sequence of `CreateDepthStencilView` calls on a
proxy device (D3D11 or D3D10), the requests made to the hook installer during
the sequence are, in order, one per view created: slot 2 of that view's
dispatch table, with the patched release of the device's family.  Views that
share a table give as many identical requests as there are views. -/
theorem Install_requested_once_per_created_view (env : Env) (t : Trace)
    (requests : List (Ptr × Ptr × Option Ptr)) :
    (∀ d : D3D11Device,
      Trace.installs (D3D11Device.createAll env (d, t, []) requests).2.1
        = Trace.installs t ++ (D3D11Device.createAll env (d, t, []) requests).2.2.map
            (fun view => (env.VTABLE view, 2, HookFunction.ID3D11DepthStencilView_Release))) ∧
    (∀ d : D3D10Device,
      Trace.installs (D3D10Device.createAll env (d, t, []) requests).2.1
        = Trace.installs t ++ (D3D10Device.createAll env (d, t, []) requests).2.2.map
            (fun view => (env.VTABLE view, 2, HookFunction.ID3D10DepthStencilView_Release))) := by
  refine ⟨?_, ?_⟩
  · intro d
    obtain ⟨views, hv, hi⟩ := device11_createAll_installs env requests (d, t, [])
    rw [hi, hv]
    rfl
  · intro d
    obtain ⟨views, hv, hi⟩ := device10_createAll_installs env requests (d, t, [])
    rw [hi, hv]
    rfl

/-! ## The immediate context during an upgrade of the device -/

theorem context_QueryInterface_revision_reached (env : Env) (c : D3D11DeviceContext)
    (t : Trace) (k : Nat) (h1 : 1 ≤ k) (h3 : k ≤ 3) (x : Addr)
    (h : (c.QueryInterface env t (D3D11DeviceContext.revision k) (some none)).ret.2 = some x) :
    k ≤ (c.QueryInterface env t (D3D11DeviceContext.revision k)
      (some none)).state.mInterfaceVersion := by
  interval_cases k
  · by_cases hlt : c.mInterfaceVersion < 1
    · by_cases hf : FAILED (env.answer t
          (.QueryInterface .context c.mOrig .ID3D11DeviceContext1)).hr = true
      · simp [D3D11DeviceContext.QueryInterface, D3D11DeviceContext.upgradeRegion,
          D3D11DeviceContext.revision, hlt, hf] at h
      · simp [D3D11DeviceContext.QueryInterface, D3D11DeviceContext.upgradeRegion,
          D3D11DeviceContext.revision, hlt, hf, D3D11DeviceContext.AddRef]
    · simp [D3D11DeviceContext.QueryInterface, D3D11DeviceContext.upgradeRegion,
        D3D11DeviceContext.revision, hlt, D3D11DeviceContext.AddRef]
      omega
  · by_cases hlt : c.mInterfaceVersion < 2
    · by_cases hf : FAILED (env.answer t
          (.QueryInterface .context c.mOrig .ID3D11DeviceContext2)).hr = true
      · simp [D3D11DeviceContext.QueryInterface, D3D11DeviceContext.upgradeRegion,
          D3D11DeviceContext.revision, hlt, hf] at h
      · simp [D3D11DeviceContext.QueryInterface, D3D11DeviceContext.upgradeRegion,
          D3D11DeviceContext.revision, hlt, hf, D3D11DeviceContext.AddRef]
    · simp [D3D11DeviceContext.QueryInterface, D3D11DeviceContext.upgradeRegion,
        D3D11DeviceContext.revision, hlt, D3D11DeviceContext.AddRef]
      omega
  · by_cases hlt : c.mInterfaceVersion < 3
    · by_cases hf : FAILED (env.answer t
          (.QueryInterface .context c.mOrig .ID3D11DeviceContext3)).hr = true
      · simp [D3D11DeviceContext.QueryInterface, D3D11DeviceContext.upgradeRegion,
          D3D11DeviceContext.revision, hlt, hf] at h
      · simp [D3D11DeviceContext.QueryInterface, D3D11DeviceContext.upgradeRegion,
          D3D11DeviceContext.revision, hlt, hf, D3D11DeviceContext.AddRef]
    · simp [D3D11DeviceContext.QueryInterface, D3D11DeviceContext.upgradeRegion,
        D3D11DeviceContext.revision, hlt, D3D11DeviceContext.AddRef]
      omega

theorem context_QueryInterface_refused_revision (env : Env) (c : D3D11DeviceContext)
    (t : Trace) (k : Nat) (h1 : 1 ≤ k) (h3 : k ≤ 3) (slot : Ptr)
    (hlt : c.mInterfaceVersion < k)
    (hf : FAILED (env.answer t (.QueryInterface .context c.mOrig
      (D3D11DeviceContext.revision k))).hr = true) :
    c.QueryInterface env t (D3D11DeviceContext.revision k) (some slot)
      = ⟨c, t ++ [.QueryInterface .context c.mOrig (D3D11DeviceContext.revision k)],
          (E_NOINTERFACE, slot)⟩ := by
  interval_cases k
  · simp only [D3D11DeviceContext.revision] at hf ⊢
    simp [D3D11DeviceContext.QueryInterface, D3D11DeviceContext.upgradeRegion, hlt, hf]
  · simp only [D3D11DeviceContext.revision] at hf ⊢
    by_cases h0 : c.mInterfaceVersion < 1 <;>
      simp [D3D11DeviceContext.QueryInterface, D3D11DeviceContext.upgradeRegion, hlt, hf, h0]
  · simp only [D3D11DeviceContext.revision] at hf ⊢
    by_cases h0 : c.mInterfaceVersion < 1 <;> by_cases h2 : c.mInterfaceVersion < 2 <;>
      simp [D3D11DeviceContext.QueryInterface, D3D11DeviceContext.upgradeRegion, hlt, hf, h0, h2]

theorem flow_andThen_holds {σ : Type} (P : σ → Prop) (f : Flow σ) (k : σ → Trace → Flow σ)
    (hf : Flow.holds P f) (hk : ∀ s t, P s → Flow.holds P (k s t)) :
    Flow.holds P (f.andThen k) := by
  cases f with
  | next s t => exact hk s t hf
  | ret s t hr => exact hf
  | fault s t => trivial

theorem context_Release_revision (env : Env) (c : D3D11DeviceContext) (t : Trace) :
    (c.Release env t).state.mInterfaceVersion = c.mInterfaceVersion := by
  unfold D3D11DeviceContext.Release
  dsimp only
  repeat' split
  all_goals rfl

theorem device11_upgradeRegion_context_ahead (env : Env) (d : D3D11Device) (t : Trace)
    (riid : IID) (k : Nat) (h1 : 1 ≤ k) (h3 : k ≤ 3) (h : d.contextAhead) :
    Flow.holds D3D11Device.contextAhead
      (d.upgradeRegion env t riid (D3D11Device.revision k)
        (D3D11DeviceContext.revision k) k) := by
  unfold D3D11Device.upgradeRegion
  split
  · dsimp only
    split
    · exact h
    · split
      · rename_i x hx
        show k ≤ (D3D11DeviceContext.Release env _ _).state.mInterfaceVersion
        rw [context_Release_revision]
        exact context_QueryInterface_revision_reached env _ _ k h1 h3 x hx
      · trivial
  · exact h

theorem device11_QueryInterface_context_ahead (env : Env) (d : D3D11Device) (t : Trace)
    (riid : IID) (ppvObj : Option Ptr) (h : d.contextAhead)
    (hret : (d.QueryInterface env t riid ppvObj).ret.1 ≠ none) :
    (d.QueryInterface env t riid ppvObj).state.contextAhead := by
  have hchain : Flow.holds D3D11Device.contextAhead
      (((d.upgradeRegion env t riid .ID3D11Device1 .ID3D11DeviceContext1 1).andThen
        (fun s t => s.upgradeRegion env t riid .ID3D11Device2 .ID3D11DeviceContext2 2)).andThen
        (fun s t => s.upgradeRegion env t riid .ID3D11Device3 .ID3D11DeviceContext3 3)) := by
    refine flow_andThen_holds _ _ _ (flow_andThen_holds _ _ _ ?_ ?_) ?_
    · exact device11_upgradeRegion_context_ahead env d t riid 1 (by decide) (by decide) h
    · intro s u hs
      exact device11_upgradeRegion_context_ahead env s u riid 2 (by decide) (by decide) hs
    · intro s u hs
      exact device11_upgradeRegion_context_ahead env s u riid 3 (by decide) (by decide) hs
  unfold D3D11Device.QueryInterface at hret ⊢
  cases ppvObj with
  | none => exact h
  | some slot =>
    dsimp only at hret ⊢
    split
    · rename_i hr
      rw [if_pos hr] at hret
      split
      · rename_i s u heq
        rw [heq] at hchain
        exact hchain
      · rename_i s u hr2 heq
        rw [heq] at hchain
        exact hchain
      · rename_i s u heq
        rw [heq] at hret
        exact absurd rfl hret
    · split
      · exact h
      · exact h

theorem device11_QueryInterface_faults (env : Env) (d : D3D11Device) (t : Trace) (k : Nat)
    (slot : Ptr) (h1 : 1 ≤ k) (h3 : k ≤ 3) (hlt : d.mInterfaceVersion < k)
    (hctx : d.mImmediateContext.mInterfaceVersion < k)
    (hgrant : FAILED (env.answer t (.QueryInterface .device d.mOrig
      (D3D11Device.revision k))).hr = false)
    (hrefuse : FAILED (env.answer
      (t ++ [.QueryInterface .device d.mOrig (D3D11Device.revision k),
        .Release .device d.mOrig])
      (.QueryInterface .context d.mImmediateContext.mOrig
        (D3D11DeviceContext.revision k))).hr = true) :
    (d.QueryInterface env t (D3D11Device.revision k) (some slot)).ret.1 = none ∧
    (d.QueryInterface env t (D3D11Device.revision k) (some slot)).state.mInterfaceVersion = k ∧
    (d.QueryInterface env t (D3D11Device.revision k)
      (some slot)).state.mImmediateContext.mInterfaceVersion
      = d.mImmediateContext.mInterfaceVersion ∧
    (d.QueryInterface env t (D3D11Device.revision k) (some slot)).trace
      = t ++ [.QueryInterface .device d.mOrig (D3D11Device.revision k),
          .Release .device d.mOrig,
          .QueryInterface .context d.mImmediateContext.mOrig
            (D3D11DeviceContext.revision k)] := by
  have hreg : d.upgradeRegion env t (D3D11Device.revision k) (D3D11Device.revision k)
      (D3D11DeviceContext.revision k) k
      = .fault { d with
          mOrig := (env.answer t (.QueryInterface .device d.mOrig
            (D3D11Device.revision k))).obj
          mInterfaceVersion := k }
        (t ++ [.QueryInterface .device d.mOrig (D3D11Device.revision k),
          .Release .device d.mOrig,
          .QueryInterface .context d.mImmediateContext.mOrig
            (D3D11DeviceContext.revision k)]) := by
    unfold D3D11Device.upgradeRegion
    rw [if_pos ⟨rfl, hlt⟩]
    dsimp only
    rw [hgrant]
    simp only [Bool.false_eq_true, if_false]
    have hq := context_QueryInterface_refused_revision env d.mImmediateContext
      (t ++ [.QueryInterface .device d.mOrig (D3D11Device.revision k)] ++
        [.Release .device d.mOrig]) k h1 h3 none hctx
      (by simpa using hrefuse)
    rw [hq]
    simp
  rw [device11_QueryInterface_revision env d t k slot h1 h3, hreg]
  exact ⟨rfl, rfl, rfl, rfl⟩

/-- C28, failing input: on the sample device, where device and immediate context
are both at revision 0, `QueryInterface` for `ID3D11Device1` is granted by the
real device and the upgrade query of the immediate context is refused by the
real context.  The context's `QueryInterface` then leaves the local
`devicecontext1` null, and `devicecontext1->Release()` dereferences it: the
call does not return, with the device's tag at 1 and the context's tag
at 0. -/
theorem device_upgrade_dereferences_null_context :
    Sample.device.mInterfaceVersion ≤ Sample.device.mImmediateContext.mInterfaceVersion ∧
    FAILED (Sample.contextRefusing.answer []
      (.QueryInterface .device 11 .ID3D11Device1)).hr = false ∧
    (Sample.device.QueryInterface Sample.contextRefusing [] .ID3D11Device1 (some none)).ret.1
      = none ∧
    (Sample.device.QueryInterface Sample.contextRefusing [] .ID3D11Device1
      (some none)).state.mInterfaceVersion = 1 ∧
    (Sample.device.QueryInterface Sample.contextRefusing [] .ID3D11Device1
      (some none)).state.mImmediateContext.mInterfaceVersion = 0 ∧
    (Sample.device.QueryInterface Sample.contextRefusing [] .ID3D11Device1 (some none)).trace
      = [.QueryInterface .device 11 .ID3D11Device1, .Release .device 11,
          .QueryInterface .context 21 .ID3D11DeviceContext1] := by
  decide

/-! ## Device-creation entry points -/

theorem succeeded_of_not_failed {hr : HRESULT} (h : FAILED hr = false) : SUCCEEDED hr = true := by
  simp only [FAILED, SUCCEEDED, decide_eq_true_eq, decide_eq_false_iff_not] at h ⊢
  exact not_lt.mp h

/-- C25: the three creation functions call the real creation function with the
caller's adapter, driver type, software module, flags, feature levels and SDK
version, with no swap chain, and return its result code in these two cases.
When the real function fails, its code is returned, no proxy is constructed
and no other call is made.  When it succeeds, the device output is non-null
and no swap chain is requested, its code is returned and the device output
holds the address of a new proxy device: the object constructed from the real
device, live and wrapping it. -/
theorem creation_propagates_real_result (env : Env) (t : Trace) (pAdapter : Ptr)
    (DriverType : Nat) (Software : Ptr) (Flags : Nat) (SDKVersion : Nat) :
    (∀ (pFeatureLevels : Ptr) (FeatureLevels : Nat) (pSwapChainDesc : Ptr)
        (ppSwapChain ppDevice : Option Ptr) (pFeatureLevel : Option Nat)
        (ppImmediateContext : Option Ptr),
      let e := Event.D3D11CreateDeviceAndSwapChain pAdapter DriverType Software Flags
        pFeatureLevels FeatureLevels SDKVersion none none ppDevice
        (some D3D_FEATURE_LEVEL_11_0) none
      let r := D3D11CreateDeviceAndSwapChain env t pAdapter DriverType Software Flags
        pFeatureLevels FeatureLevels SDKVersion pSwapChainDesc ppSwapChain ppDevice
        pFeatureLevel ppImmediateContext
      FAILED (env.answer t e).hr = true →
      r.hr = some (env.answer t e).hr ∧ r.proxy = none ∧ r.trace = t ++ [e]) ∧
    (∀ (pFeatureLevels : Ptr) (FeatureLevels : Nat) (ppSwapChain : Option Ptr) (slot : Ptr)
        (pFeatureLevel : Option Nat) (ppImmediateContext : Option Ptr),
      let e := Event.D3D11CreateDeviceAndSwapChain pAdapter DriverType Software Flags
        pFeatureLevels FeatureLevels SDKVersion none none (some slot)
        (some D3D_FEATURE_LEVEL_11_0) none
      let r := D3D11CreateDeviceAndSwapChain env t pAdapter DriverType Software Flags
        pFeatureLevels FeatureLevels SDKVersion none ppSwapChain (some slot)
        pFeatureLevel ppImmediateContext
      let device := (env.answer t e).obj
      FAILED (env.answer t e).hr = false →
      r.hr = some (env.answer t e).hr ∧
      ∃ p, r.proxy = some p ∧ r.ppDevice = some (some p.addr) ∧
        p.addr = (env.answer
          (t ++ [e, .QueryInterface .device device .IDXGIDevice, .GetImmediateContext device])
          (.newD3D11Device device)).obj ∧
        p.mOrig = device ∧ p.deleted = false) ∧
    (∀ (pSwapChainDesc : Ptr) (ppSwapChain ppDevice : Option Ptr),
      let e := Event.D3D10CreateDeviceAndSwapChain pAdapter DriverType Software Flags
        SDKVersion none none ppDevice
      let r := D3D10CreateDeviceAndSwapChain env t pAdapter DriverType Software Flags
        SDKVersion pSwapChainDesc ppSwapChain ppDevice
      FAILED (env.answer t e).hr = true →
      r.hr = some (env.answer t e).hr ∧ r.proxy = none ∧ r.trace = t ++ [e]) ∧
    (∀ (ppSwapChain : Option Ptr) (slot : Ptr),
      let e := Event.D3D10CreateDeviceAndSwapChain pAdapter DriverType Software Flags
        SDKVersion none none (some slot)
      let r := D3D10CreateDeviceAndSwapChain env t pAdapter DriverType Software Flags
        SDKVersion none ppSwapChain (some slot)
      let device := (env.answer t e).obj
      FAILED (env.answer t e).hr = false →
      r.hr = some (env.answer t e).hr ∧
      ∃ p, r.proxy = some p ∧ r.ppDevice = some (some p.addr) ∧
        p.addr = (env.answer (t ++ [e, .QueryInterface .device device .IDXGIDevice])
          (.newD3D10Device device)).obj ∧
        p.mOrig = device ∧ p.deleted = false) ∧
    (∀ (HardwareLevel : Nat) (pSwapChainDesc : Ptr) (ppSwapChain ppDevice : Option Ptr),
      let e := Event.D3D10CreateDeviceAndSwapChain1 pAdapter DriverType Software Flags
        HardwareLevel SDKVersion none none ppDevice
      let r := D3D10CreateDeviceAndSwapChain1 env t pAdapter DriverType Software Flags
        HardwareLevel SDKVersion pSwapChainDesc ppSwapChain ppDevice
      FAILED (env.answer t e).hr = true →
      r.hr = some (env.answer t e).hr ∧ r.proxy = none ∧ r.trace = t ++ [e]) ∧
    (∀ (HardwareLevel : Nat) (ppSwapChain : Option Ptr) (slot : Ptr),
      let e := Event.D3D10CreateDeviceAndSwapChain1 pAdapter DriverType Software Flags
        HardwareLevel SDKVersion none none (some slot)
      let r := D3D10CreateDeviceAndSwapChain1 env t pAdapter DriverType Software Flags
        HardwareLevel SDKVersion none ppSwapChain (some slot)
      let device := (env.answer t e).obj
      FAILED (env.answer t e).hr = false →
      r.hr = some (env.answer t e).hr ∧
      ∃ p, r.proxy = some p ∧ r.ppDevice = some (some p.addr) ∧
        p.addr = (env.answer (t ++ [e, .QueryInterface .device device .IDXGIDevice])
          (.newD3D10Device device)).obj ∧
        p.mOrig = device ∧ p.deleted = false) := by
  refine ⟨?_, ?_, ?_, ?_, ?_, ?_⟩
  · intro pFeatureLevels FeatureLevels pSwapChainDesc ppSwapChain ppDevice pFeatureLevel
      ppImmediateContext e r h
    simp [r, e, D3D11CreateDeviceAndSwapChain, h] at h ⊢
  · intro pFeatureLevels FeatureLevels ppSwapChain slot pFeatureLevel ppImmediateContext
      e r device h
    have hs := succeeded_of_not_failed h
    cases ppImmediateContext with
    | none =>
      simp [r, e, device, D3D11CreateDeviceAndSwapChain, h, hs, swapChainBlock,
        D3D11Device.construct] at h hs ⊢
    | some c =>
      simp [r, e, device, D3D11CreateDeviceAndSwapChain, h, hs, swapChainBlock,
        D3D11Device.construct] at h hs ⊢
  · intro pSwapChainDesc ppSwapChain ppDevice e r h
    simp [r, e, D3D10CreateDeviceAndSwapChain, h] at h ⊢
  · intro ppSwapChain slot e r device h
    have hs := succeeded_of_not_failed h
    simp [r, e, device, D3D10CreateDeviceAndSwapChain, h, hs, swapChainBlock,
      D3D10Device.construct] at h hs ⊢
  · intro HardwareLevel pSwapChainDesc ppSwapChain ppDevice e r h
    simp [r, e, D3D10CreateDeviceAndSwapChain1, h] at h ⊢
  · intro HardwareLevel ppSwapChain slot e r device h
    have hs := succeeded_of_not_failed h
    simp [r, e, device, D3D10CreateDeviceAndSwapChain1, h, hs, swapChainBlock,
      D3D10Device.construct] at h hs ⊢

/-- Witness of C25: where the real creation function refuses, the D3D11 entry
point returns that code and constructs no proxy; where it hands out the real
device 500, the entry point called with a non-null device output and no swap
chain returns `S_OK` and stores the proxy device 503, which wraps 500. -/
theorem creation_propagates_real_result_witness :
    ((D3D11CreateDeviceAndSwapChain Sample.refusing [] none 1 none 0 none 0 7 none none
        (some none) none none).hr = some E_NOINTERFACE ∧
      (D3D11CreateDeviceAndSwapChain Sample.refusing [] none 1 none 0 none 0 7 none none
        (some none) none none).proxy = none ∧
      (D3D11CreateDeviceAndSwapChain Sample.refusing [] none 1 none 0 none 0 7 none none
        (some none) none none).trace
        = [] ++ [.D3D11CreateDeviceAndSwapChain none 1 none 0 none 0 7 none none (some none)
            (some D3D_FEATURE_LEVEL_11_0) none]) ∧
    ((D3D11CreateDeviceAndSwapChain Sample.sharedTable [] none 1 none 0 none 0 7 none none
        (some none) none (some none)).hr = some S_OK ∧
      ∃ p, (D3D11CreateDeviceAndSwapChain Sample.sharedTable [] none 1 none 0 none 0 7 none
          none (some none) none (some none)).proxy = some p ∧
        (D3D11CreateDeviceAndSwapChain Sample.sharedTable [] none 1 none 0 none 0 7 none
          none (some none) none (some none)).ppDevice = some (some p.addr) ∧
        p.addr = 503 ∧ p.mOrig = 500 ∧ p.deleted = false) ∧
    ((D3D10CreateDeviceAndSwapChain Sample.sharedTable [] none 1 none 0 7 none none
        (some none)).hr = some S_OK ∧
      ∃ p, (D3D10CreateDeviceAndSwapChain Sample.sharedTable [] none 1 none 0 7 none none
          (some none)).proxy = some p ∧
        (D3D10CreateDeviceAndSwapChain Sample.sharedTable [] none 1 none 0 7 none none
          (some none)).ppDevice = some (some p.addr) ∧
        p.addr = 502 ∧ p.mOrig = 500 ∧ p.deleted = false) :=
  ⟨(creation_propagates_real_result Sample.refusing [] none 1 none 0 7).1
      none 0 none none (some none) none none (by decide),
    (creation_propagates_real_result Sample.sharedTable [] none 1 none 0 7).2.1
      none 0 none none none (some none) (by decide),
    (creation_propagates_real_result Sample.sharedTable [] none 1 none 0 7).2.2.2.1
      none none (by decide)⟩

end ReShade
